import Mathlib

/-!
# Saturn-Engine: render thread, shader reflection and draw-list keys

A shallow embedding of the parts of the engine that the renderer contract talks
about, followed by the theorems that settle the contract against the code.

* `Saturn.RenderThread` follows `Saturn/Core/Renderer/RenderThread.cpp`.
* `Saturn.StaticMeshKey` and the draw-list records follow
  `Saturn/Vulkan/SceneRenderer.h`.
* `Saturn.Shader` follows `Shader::Reflect` in `Saturn/Vulkan/Shader.cpp`.

Machine integers are natural numbers; 32-bit wrap-around is written out with
`% 2 ^ 32` where the code computes in `uint32_t`.
-/

namespace Saturn

/-! ## RenderThread (`Saturn/Core/Renderer/RenderThread.cpp`) -/

/-- A queued closure.  The closure body is not inspected by the render thread; a
closure is identified by the ticket of the `Queue` call that enqueued it. -/
abbrev Command := Nat

/-- The thread on which a closure is invoked: the thread calling into the
`RenderThread` API, or the worker running `ThreadRun`. -/
inductive ThreadId where
  | caller
  | worker
deriving DecidableEq, Repr

/-- The members of `RenderThread` that its `.cpp` file reads and writes, together
with three observation fields: `invoked` logs every closure invocation in order
(with the invoking thread), `waitCommandsCalls` counts calls of `WaitCommands`,
and `queued` counts calls of `Queue`.  `m_Thread` is `true` while a worker
thread spawned by `Start` is inside `ThreadRun`. -/
structure RenderThread where
  m_Enabled : Bool
  m_Running : Bool
  m_ExecuteAll : Bool
  m_ExecuteOne : Bool
  m_CommandBuffer : List Command
  m_Thread : Bool
  invoked : List (ThreadId × Command)
  waitCommandsCalls : Nat
  queued : Nat
deriving DecidableEq, Repr

namespace RenderThread

/-- A render thread on which nothing has been queued or invoked yet. -/
def fresh (enabled running executeAll executeOne : Bool) : RenderThread :=
  { m_Enabled := enabled, m_Running := running, m_ExecuteAll := executeAll,
    m_ExecuteOne := executeOne, m_CommandBuffer := [], m_Thread := false,
    invoked := [], waitCommandsCalls := 0, queued := 0 }

/-- Modelled from the spec: `RenderThread::ExecuteCommands` is defined in
`RenderThread.h`, which is not in the source tree.  Spec 4.3 and 5: a drain
"executes the entire backlog", "commands execute in enqueue order when draining
all", and the queue is drained afterwards. -/
def ExecuteCommands (who : ThreadId) (rt : RenderThread) : RenderThread :=
  { rt with
    invoked := rt.invoked ++ rt.m_CommandBuffer.map (fun c => (who, c))
    m_CommandBuffer := [] }

/-- Modelled from the spec: `RenderThread::WaitCommands` is defined in
`RenderThread.h`, which is not in the source tree.  Spec 4.3: the caller "blocks
until the worker signals drained".  The call is recorded; the blocking itself is
the absence of further calls by that thread. -/
def WaitCommands (rt : RenderThread) : RenderThread :=
  { rt with waitCommandsCalls := rt.waitCommandsCalls + 1 }

/-- Modelled from the spec: `RenderThread::Queue` is defined in `RenderThread.h`,
which is not in the source tree.  Spec 4.3: "producers push closures from any
thread; pushing does not block".  The pushed closure receives the next ticket. -/
def Queue (rt : RenderThread) : RenderThread :=
  { rt with
    m_CommandBuffer := rt.m_CommandBuffer ++ [rt.queued]
    queued := rt.queued + 1 }

/-- `RenderThread::Start` (RenderThread.cpp:45-52). -/
def Start (rt : RenderThread) : RenderThread :=
  if !rt.m_Enabled then rt
  else { rt with m_Running := rt.m_Enabled, m_Thread := true }

/-- `RenderThread::RequestJoin` (RenderThread.cpp:54-60). -/
def RequestJoin (rt : RenderThread) : RenderThread :=
  { rt with m_Running := false }

/-- `RenderThread::WaitAll` (RenderThread.cpp:62-86); the wait timer is not
modelled. -/
def WaitAll (rt : RenderThread) : RenderThread :=
  if !rt.m_Enabled then
    ExecuteCommands ThreadId.caller rt
  else
    let rt1 := if !rt.m_CommandBuffer.isEmpty then { rt with m_ExecuteAll := true } else rt
    WaitCommands rt1

/-- `RenderThread::ExecuteOne` (RenderThread.cpp:88-92). -/
def ExecuteOne (rt : RenderThread) : RenderThread :=
  { rt with m_ExecuteOne := true }

/-- The predicate of the first wait in `ThreadRun` (RenderThread.cpp:115-118). -/
def signalPredicate (rt : RenderThread) : Bool :=
  !rt.m_Running || rt.m_ExecuteAll || rt.m_ExecuteOne

/-- The predicate of the second wait in `ThreadRun` (RenderThread.cpp:121-124). -/
def queuePredicate (rt : RenderThread) : Bool :=
  !rt.m_Running || !rt.m_CommandBuffer.isEmpty

/-- The execute-one branch of `ThreadRun` (RenderThread.cpp:130-139).  `none` is
the undefined behaviour of `back()` and `pop_back()` on an empty vector. -/
def executeOneBranch (rt : RenderThread) : Option RenderThread :=
  if rt.m_ExecuteOne then
    match rt.m_CommandBuffer.getLast? with
    | some rFunc =>
      some { rt with
        invoked := rt.invoked ++ [(ThreadId.worker, rFunc)]
        m_CommandBuffer := rt.m_CommandBuffer.dropLast
        m_ExecuteOne := false }
    | none => none
  else some rt

/-- The execute-all branch of `ThreadRun` (RenderThread.cpp:141-146). -/
def executeAllBranch (rt : RenderThread) : RenderThread :=
  if rt.m_ExecuteAll then
    { ExecuteCommands ThreadId.worker rt with m_ExecuteAll := false }
  else rt

/-- What one pass of the worker through the body of `while (true)` does when no
other thread touches the object during the pass. -/
inductive LoopStep where
  /-- Blocked in `m_SignalCV.wait`. -/
  | waitSignal
  /-- Blocked in `m_QueueCV.wait`. -/
  | waitQueue
  /-- Left the loop through `break`; carries the state after the trailing store. -/
  | exit (rt : RenderThread)
  /-- Reached the end of the loop body. -/
  | next (rt : RenderThread)
  /-- Undefined behaviour (`back()` on an empty command buffer). -/
  | undefined
deriving DecidableEq, Repr

/-- One pass through the loop body of `RenderThread::ThreadRun`
(RenderThread.cpp:104-150), and the store after the loop (line 152). -/
def ThreadRunIteration (rt : RenderThread) : LoopStep :=
  if !signalPredicate rt then LoopStep.waitSignal
  else if !queuePredicate rt then LoopStep.waitQueue
  else if !rt.m_Running then LoopStep.exit { rt with m_Running := false, m_Thread := false }
  else
    match executeOneBranch rt with
    | none => LoopStep.undefined
    | some rt1 => LoopStep.next (executeAllBranch rt1)

/-- Where the worker stands in the body of `while (true)` in `ThreadRun`: at the
two waits (RenderThread.cpp:115-126), between `rFunc()` and
`m_CommandBuffer.pop_back()` (lines 134-136), or before `if( m_ExecuteAll )`
(line 141).  The mutex is released at line 128, so a call made by another thread
can land between any two of these positions. -/
inductive WorkerAt where
  | waits
  | invoked
  | executeAll
deriving DecidableEq, Repr

/-- A render thread object together with the position of its worker. -/
structure Interleaved where
  rt : RenderThread
  worker : WorkerAt := WorkerAt.waits
deriving DecidableEq, Repr

/-- The calls made by other threads and the steps of the worker that can follow
one another on one render thread object. -/
inductive Event where
  | queue
  | executeOne
  | waitAll
  | requestJoin
  | start
  | workerStep
deriving DecidableEq, Repr

/-- One step of the worker inside `ThreadRun` (RenderThread.cpp:104-152), from one
position to the next; a blocked wait changes nothing, and without a worker
thread nothing happens.  `none` is the undefined behaviour of `back()` or
`pop_back()` on an empty vector. -/
def workerStep (s : Interleaved) : Option Interleaved :=
  if !s.rt.m_Thread then some s
  else
    match s.worker with
    | WorkerAt.waits =>
      if !signalPredicate s.rt then some s
      else if !queuePredicate s.rt then some s
      else if !s.rt.m_Running then
        some { rt := { s.rt with m_Running := false, m_Thread := false },
               worker := WorkerAt.waits }
      else if s.rt.m_ExecuteOne then
        match s.rt.m_CommandBuffer.getLast? with
        | some rFunc =>
          some { rt := { s.rt with invoked := s.rt.invoked ++ [(ThreadId.worker, rFunc)] },
                 worker := WorkerAt.invoked }
        | none => none
      else some { s with worker := WorkerAt.executeAll }
    | WorkerAt.invoked =>
      if s.rt.m_CommandBuffer.isEmpty then none
      else
        some { rt := { s.rt with m_CommandBuffer := s.rt.m_CommandBuffer.dropLast,
                                 m_ExecuteOne := false },
               worker := WorkerAt.executeAll }
    | WorkerAt.executeAll =>
      some { rt := executeAllBranch s.rt, worker := WorkerAt.waits }

/-- The state after one event: a call acts on the object wherever the worker
stands. -/
def step (s : Interleaved) : Event → Option Interleaved
  | Event.queue => some { s with rt := Queue s.rt }
  | Event.executeOne => some { s with rt := ExecuteOne s.rt }
  | Event.waitAll => some { s with rt := WaitAll s.rt }
  | Event.requestJoin => some { s with rt := RequestJoin s.rt }
  | Event.start => some { s with rt := Start s.rt }
  | Event.workerStep => workerStep s

/-- The state after a sequence of events. -/
def run (s : Interleaved) (events : List Event) : Option Interleaved :=
  events.foldlM step s

/-- A call of `Queue` lands between `rFunc()` and `pop_back()` of an execute-one
pass: `Start`, `Queue`, `ExecuteOne`, the worker invokes the closure, `Queue`,
the worker pops and finishes the pass. -/
def racingQueue : List Event :=
  [Event.start, Event.queue, Event.executeOne, Event.workerStep, Event.queue,
   Event.workerStep, Event.workerStep]

/-- Two closures queued on a running thread, both mode flags set. -/
def bothFlagsInput : RenderThread :=
  { m_Enabled := true, m_Running := true, m_ExecuteAll := true, m_ExecuteOne := true,
    m_CommandBuffer := [0, 1], m_Thread := true, invoked := [],
    waitCommandsCalls := 0, queued := 2 }

/-- Threading disabled, one closure queued, nothing invoked yet. -/
def disabledOneQueued : RenderThread :=
  { m_Enabled := false, m_Running := false, m_ExecuteAll := false, m_ExecuteOne := false,
    m_CommandBuffer := [0], m_Thread := false, invoked := [],
    waitCommandsCalls := 0, queued := 1 }

end RenderThread

/-! ## Draw-list keys and per-frame instance data (`Saturn/Vulkan/SceneRenderer.h`) -/

/-- A `Ref<T>`: `none` is the null reference, `some a` refers to the object at
address `a`.  Two references are equal when they refer to the same object. -/
abbrev Ref := Option Nat

/-- `StaticMeshKey` (SceneRenderer.h:103-121).  `AssetID` is a 64-bit id. -/
structure StaticMeshKey where
  MeshID : Nat
  Registry : Ref
  SubmeshIndex : Nat
deriving DecidableEq, Repr

namespace StaticMeshKey

/-- The non-const `StaticMeshKey::operator==` (SceneRenderer.h:112-115). -/
def eq (self rKey : StaticMeshKey) : Bool :=
  self.MeshID == rKey.MeshID && self.Registry == rKey.Registry &&
    self.SubmeshIndex == rKey.SubmeshIndex

/-- The const `StaticMeshKey::operator==` (SceneRenderer.h:117-120). -/
def eqConst (self rKey : StaticMeshKey) : Bool :=
  self.MeshID == rKey.MeshID && self.Registry == rKey.Registry &&
    self.SubmeshIndex == rKey.SubmeshIndex

end StaticMeshKey

/-- A `float`, kept as its 32-bit pattern: the draw list only copies floats. -/
abbrev F32 := Nat

/-- A `glm::vec4`. -/
structure Vec4 where
  x : F32
  y : F32
  z : F32
  w : F32
deriving DecidableEq, Repr

/-- A `glm::mat4`: four columns. -/
structure Mat4 where
  c0 : Vec4
  c1 : Vec4
  c2 : Vec4
  c3 : Vec4
deriving DecidableEq, Repr

/-- `TransformBufferData` (SceneRenderer.h:124-127): `TransfromBufferR[4]`. -/
structure TransformBufferData where
  r0 : Vec4
  r1 : Vec4
  r2 : Vec4
  r3 : Vec4
deriving DecidableEq, Repr

/-- `TransformBuffer` (SceneRenderer.h:130-134). -/
structure TransformBuffer where
  Offset : Nat := 0
  Data : List TransformBufferData := []
deriving DecidableEq, Repr

/-- `DrawCommand` (SceneRenderer.h:53-59). -/
structure DrawCommand where
  entity : Ref := none
  Mesh : Ref := none
  SubmeshIndex : Nat := 0
  Instances : Nat := 0
deriving DecidableEq, Repr

/-- What a submission reads of a `StaticMesh`: the reference itself, its asset id
and the number of entries of `Submeshes()` (Mesh.h:152). -/
structure StaticMesh where
  ref : Nat
  ID : Nat
  submeshCount : Nat
deriving DecidableEq, Repr

/-- A `std::unordered_map<StaticMeshKey, V>` as the list of its entries; keys are
compared with the const `operator==`. -/
abbrev KeyMap (V : Type) := List (StaticMeshKey × V)

namespace KeyMap

/-- The entries after `m[key]` followed by an update `f` of the mapped value, once
the key has been hashed: the entry with an equal key is updated, and an entry
initialised to `dflt` is added and updated when the key is new. -/
def put {V : Type} (m : KeyMap V) (key : StaticMeshKey) (dflt : V) (f : V → V) : KeyMap V :=
  match m with
  | [] => [(key, f dflt)]
  | (k, v) :: rest =>
    if k.eqConst key then (k, f v) :: rest else (k, v) :: put rest key dflt f

/-- The effect of `m[key]` followed by an update `f` of the mapped value.
`operator[]` first hashes the key with `std::hash<Saturn::StaticMeshKey>`
(SceneRenderer.h:143-153), which evaluates `rKey.Registry->GetID()`: for a key
with a null registry the result is `none`, the dereference of a null
reference. -/
def update {V : Type} (m : KeyMap V) (key : StaticMeshKey) (dflt : V) (f : V → V) :
    Option (KeyMap V) :=
  match key.Registry with
  | none => none
  | some _ => some (put m key dflt f)

/-- What `put` does to the values stored under the updated key: the first one
is updated, or a value-initialised one is created and updated. -/
def touch {V : Type} (dflt : V) (f : V → V) : List V → List V
  | [] => [f dflt]
  | v :: vs => f v :: vs

/-- All entries stored under a key equal to `key`. -/
def entriesAt {V : Type} (m : KeyMap V) (key : StaticMeshKey) : List V :=
  (m.filter (fun e => e.1.eqConst key)).map Prod.snd

end KeyMap

/-- The per-frame state that static-mesh submission writes:
`RendererData::MeshTransforms` (SceneRenderer.h:362) and
`SceneRenderer::m_DrawList` (SceneRenderer.h:479). -/
structure SceneRenderer where
  MeshTransforms : KeyMap TransformBuffer := []
  m_DrawList : KeyMap DrawCommand := []
deriving DecidableEq, Repr

/-- One call of `SubmitStaticMesh` (SceneRenderer.h:397) with its arguments. -/
structure Submission where
  entity : Ref
  mesh : StaticMesh
  materialRegistry : Ref
  transform : Mat4
deriving DecidableEq, Repr

namespace SceneRenderer

/-- Modelled from the spec: the instance block written for a transform is set up
in `SceneRenderer.cpp`, which is not in the source tree.  Spec 3: a
`TransformBuffer` holds "the row-major 4x3 (4 x vec4) transform blocks for every
instance", and `TransformBufferData` is `TransfromBufferR[ 4 ]`
(SceneRenderer.h:124-127): block `i` is row `i` of the column-major
`glm::mat4`. -/
def transformRows (t : Mat4) : TransformBufferData :=
  { r0 := ⟨t.c0.x, t.c1.x, t.c2.x, t.c3.x⟩
    r1 := ⟨t.c0.y, t.c1.y, t.c2.y, t.c3.y⟩
    r2 := ⟨t.c0.z, t.c1.z, t.c2.z, t.c3.z⟩
    r3 := ⟨t.c0.w, t.c1.w, t.c2.w, t.c3.w⟩ }

/-- Modelled from the spec: the offset of a fresh entry is computed in
`SceneRenderer.cpp`, which is not in the source tree.  Spec 4.5: "a new key
allocates a fresh entry with offset following the previous entries packed into
a shared GPU-visible buffer": the number of bytes that the instance blocks of
the entries of the map take, 64 bytes (`sizeof( TransformBufferData )`) each,
as a `uint32_t`. -/
def packedEnd (m : KeyMap TransformBuffer) : Nat :=
  (m.map (fun e => 64 * e.2.Data.length)).sum % 2 ^ 32

/-- Modelled from the spec: the body of `SceneRenderer::SubmitStaticMesh` is in
`SceneRenderer.cpp`, which is not in the source tree; this is what it does for
one submesh.  Spec 3 and 4.5: the instance is bucketed "under its
StaticMeshKey" (mesh asset id, material-registry reference, submesh index);
"identical keys accumulate into one TransformBuffer entry", a new key gets a
fresh entry "with offset following the previous entries", and draws with the
same key "are merged into one instanced draw".  Both maps are
`std::unordered_map`s keyed by `StaticMeshKey` (SceneRenderer.h:362, 479), so
each access hashes the key. -/
def submitSubmesh (s : Submission) (r : SceneRenderer) (submeshIndex : Nat) :
    Option SceneRenderer :=
  let key : StaticMeshKey := ⟨s.mesh.ID, s.materialRegistry, submeshIndex⟩
  match KeyMap.update r.MeshTransforms key { Offset := packedEnd r.MeshTransforms }
      (fun tb => { tb with Data := tb.Data ++ [transformRows s.transform] }),
    KeyMap.update r.m_DrawList key {}
      (fun cmd => { entity := s.entity, Mesh := some s.mesh.ref,
                    SubmeshIndex := submeshIndex, Instances := cmd.Instances + 1 }) with
  | some meshTransforms, some drawList =>
    some { MeshTransforms := meshTransforms, m_DrawList := drawList }
  | _, _ => none

/-- Modelled from the spec: `SceneRenderer::SubmitStaticMesh` (declared at
SceneRenderer.h:397, defined in the absent `SceneRenderer.cpp`).  The call
carries no submesh index: the instance is bucketed once for every submesh of
the mesh, in submesh order.  `none` when a key is hashed whose registry is
null. -/
def SubmitStaticMesh (r : SceneRenderer) (s : Submission) : Option SceneRenderer :=
  (List.range s.mesh.submeshCount).foldlM (fun r i => submitSubmesh s r i) r

/-- The frame state after a sequence of submissions, starting from the empty
draw list of a new frame. -/
def frame (subs : List Submission) : Option SceneRenderer :=
  subs.foldlM SubmitStaticMesh {}

/-- Whether a submission buckets an instance under `key`. -/
def submitsKey (key : StaticMeshKey) (s : Submission) : Bool :=
  s.mesh.ID == key.MeshID && s.materialRegistry == key.Registry &&
    decide (key.SubmeshIndex < s.mesh.submeshCount)

/-- Two keys used to show the three laws of key equality at concrete values. -/
def sampleKey : StaticMeshKey := ⟨7, some 3, 1⟩

/-- A two-submesh mesh submitted with registry 3 and a transform that scales by
`x` and moves by `(x + 1, x + 2, x + 3)`. -/
def sampleSubmission (entity x : Nat) : Submission :=
  { entity := some entity, mesh := ⟨11, 7, 2⟩, materialRegistry := some 3,
    transform := ⟨⟨x, 0, 0, 0⟩, ⟨0, x, 0, 0⟩, ⟨0, 0, x, 0⟩, ⟨x + 1, x + 2, x + 3, 1⟩⟩ }

/-- The same submission with a null material registry. -/
def nullRegistrySubmission (entity x : Nat) : Submission :=
  { sampleSubmission entity x with materialRegistry := none }

/-- A submission of another mesh. -/
def otherSubmission : Submission :=
  { entity := some 5, mesh := ⟨12, 8, 3⟩, materialRegistry := some 3,
    transform := ⟨⟨1, 0, 0, 0⟩, ⟨0, 1, 0, 0⟩, ⟨0, 0, 1, 0⟩, ⟨0, 0, 0, 1⟩⟩ }

end SceneRenderer

/-! ## Shader reflection (`Saturn/Vulkan/Shader.cpp`) -/

/-- `ShaderType` (declared in the absent `Shader.h`; the enumerators are those of
the switch in `ShaderTypeToVulkan`, Shader.cpp:62-81). -/
inductive ShaderType where
  | None
  | Vertex
  | Fragment
  | Geometry
  | Compute
  | All
deriving DecidableEq, Repr

/-- `VK_SHADER_STAGE_VERTEX_BIT`. -/
def VK_SHADER_STAGE_VERTEX_BIT : Nat := 0x00000001
/-- `VK_SHADER_STAGE_GEOMETRY_BIT`. -/
def VK_SHADER_STAGE_GEOMETRY_BIT : Nat := 0x00000008
/-- `VK_SHADER_STAGE_FRAGMENT_BIT`. -/
def VK_SHADER_STAGE_FRAGMENT_BIT : Nat := 0x00000010
/-- `VK_SHADER_STAGE_COMPUTE_BIT`. -/
def VK_SHADER_STAGE_COMPUTE_BIT : Nat := 0x00000020
/-- `VK_SHADER_STAGE_ALL`. -/
def VK_SHADER_STAGE_ALL : Nat := 0x7FFFFFFF
/-- `VK_SHADER_STAGE_FLAG_BITS_MAX_ENUM`. -/
def VK_SHADER_STAGE_FLAG_BITS_MAX_ENUM : Nat := 0x7FFFFFFF

/-- `ShaderTypeToVulkan` (Shader.cpp:62-81). -/
def ShaderTypeToVulkan (type : ShaderType) : Nat :=
  match type with
  | ShaderType.None => VK_SHADER_STAGE_FLAG_BITS_MAX_ENUM
  | ShaderType.Vertex => VK_SHADER_STAGE_VERTEX_BIT
  | ShaderType.Fragment => VK_SHADER_STAGE_FRAGMENT_BIT
  | ShaderType.Geometry => VK_SHADER_STAGE_GEOMETRY_BIT
  | ShaderType.Compute => VK_SHADER_STAGE_COMPUTE_BIT
  | ShaderType.All => VK_SHADER_STAGE_ALL

/-- `spirv_cross::SPIRType::BaseType`. -/
inductive BaseType where
  | Unknown | Void | Boolean | SByte | UByte | Short | UShort | Int | UInt
  | Int64 | UInt64 | AtomicCounter | Half | Float | Double | Struct | Image
  | SampledImage | Sampler | AccelerationStructure | RayQuery
deriving DecidableEq, Repr

/-- The fields of `spirv_cross::SPIRType` that reflection reads. -/
structure SPIRType where
  basetype : BaseType
  vecsize : Nat := 1
  columns : Nat := 1
  array : List Nat := []
deriving DecidableEq, Repr

/-- `ShaderDataType` (declared in the absent `Shader.h`): the enumerators that
Shader.cpp names, and the float types. -/
inductive ShaderDataType where
  | None | Float | Float2 | Float3 | Float4 | Mat3 | Mat4
  | Int | Int2 | Int3 | Int4 | Bool | Sampler2D
deriving DecidableEq, Repr

/-- `SpvToSaturn` (Shader.cpp:83-105). -/
def SpvToSaturn (type : SPIRType) : ShaderDataType :=
  match type.basetype with
  | BaseType.Boolean => ShaderDataType.Bool
  | BaseType.Int => ShaderDataType.Int
  | BaseType.Float =>
    if type.vecsize == 1 then ShaderDataType.Int
    else if type.vecsize == 2 then ShaderDataType.Int2
    else if type.vecsize == 3 then ShaderDataType.Int3
    else if type.vecsize == 4 then ShaderDataType.Int4
    else if type.columns == 3 then ShaderDataType.Mat3
    else if type.columns == 4 then ShaderDataType.Mat4
    else ShaderDataType.None
  | BaseType.SampledImage => ShaderDataType.Sampler2D
  | _ => ShaderDataType.None

/-- The conversion `(int) x` of a `uint32_t`. -/
def castInt (x : Nat) : Int :=
  if x % 2 ^ 32 < 2 ^ 31 then ((x % 2 ^ 32 : Nat) : Int) else ((x % 2 ^ 32 : Nat) : Int) - 2 ^ 32

/-- `ShaderUniform` as built by the brace initialisers of `Shader::Reflect`:
name, location, type, size, offset and the push-constant flag (read as
`IsPushConstantData` in Material.h:69). -/
structure ShaderUniform where
  Name : String
  Location : Int
  DataType : ShaderDataType
  Size : Nat
  Offset : Nat
  IsPushConstantData : Bool := false
deriving DecidableEq, Repr

/-- `ShaderUniformBuffer`: the fields that `Shader::Reflect` assigns
(Shader.cpp:643-647). -/
structure ShaderUniformBuffer where
  Name : String := ""
  Location : ShaderType := ShaderType.None
  Binding : Nat := 0
  Size : Nat := 0
deriving DecidableEq, Repr

/-- Modelled from the spec: `ShaderUniformBuffer::operator==` is declared in the
absent `Shader.h`.  Spec 4.1 merges "a resource with identical (set, binding,
semantic identity)" seen from another stage, so the stage is not compared: two
records of one blueprint are equal when name, binding and size agree. -/
def ShaderUniformBuffer.eq (a b : ShaderUniformBuffer) : Bool :=
  a.Name == b.Name && a.Binding == b.Binding && a.Size == b.Size

/-- `ShaderStorageBuffer`: the fields that `Shader::Reflect` assigns
(Shader.cpp:579-583). -/
structure ShaderStorageBuffer where
  Name : String := ""
  Location : ShaderType := ShaderType.None
  Binding : Nat := 0
  Size : Nat := 0
deriving DecidableEq, Repr

/-- Modelled from the spec: `ShaderStorageBuffer::operator==` is declared in the
absent `Shader.h`; as for uniform buffers, the stage is not compared. -/
def ShaderStorageBuffer.eq (a b : ShaderStorageBuffer) : Bool :=
  a.Name == b.Name && a.Binding == b.Binding && a.Size == b.Size

/-- The record pushed to `SampledImages` and `StorageImages`
(Shader.cpp:756, 776): name, stage, set, binding, array size. -/
structure ShaderImage where
  Name : String
  Stage : ShaderType
  Set : Nat
  Binding : Nat
  ArraySize : Nat
deriving DecidableEq, Repr

/-- A `std::map<uint32_t, V>` as the list of its entries in key order. -/
abbrev StdMap (V : Type) := List (Nat × V)

namespace StdMap

/-- `find`: the value stored under `k`. -/
def find? {V : Type} (m : StdMap V) (k : Nat) : Option V :=
  match m with
  | [] => none
  | (k1, v) :: rest => if k1 = k then some v else find? rest k

/-- The value that `m[k]` refers to: the stored one, or a value-initialised one. -/
def getD {V : Type} (m : StdMap V) (k : Nat) (dflt : V) : V :=
  (find? m k).getD dflt

/-- The map after `m[k] = v`. -/
def insert {V : Type} (m : StdMap V) (k : Nat) (v : V) : StdMap V :=
  match m with
  | [] => [(k, v)]
  | (k1, v1) :: rest =>
    if k < k1 then (k, v) :: (k1, v1) :: rest
    else if k = k1 then (k, v) :: rest
    else (k1, v1) :: insert rest k v

/-- The entries stored under `k`. -/
def entriesAt {V : Type} (m : StdMap V) (k : Nat) : List V :=
  (m.filter (fun e => decide (e.1 = k))).map Prod.snd

/-- The representation invariant of a `std::map`: keys strictly increasing. -/
def WF {V : Type} (m : StdMap V) : Prop :=
  (m.map Prod.fst).Pairwise (fun a b => a < b)

end StdMap

/-- The marker `-1` of a descriptor-set blueprint whose set index has not been
assigned, as a `uint32_t`. -/
def unsetSet : Nat := 2 ^ 32 - 1

/-- `VkDescriptorSetLayoutBinding`: the fields that `Shader::CreateDescriptors`
assigns (`pImmutableSamplers` is always null). -/
structure VkDescriptorSetLayoutBinding where
  binding : Nat
  descriptorType : Nat
  descriptorCount : Nat
  stageFlags : Nat
deriving DecidableEq, Repr

/-- `VkWriteDescriptorSet`: the fields that the shader assigns.  Handles and
pointers are `none` when null and `some a` for the object at address `a`. -/
structure VkWriteDescriptorSet where
  dstSet : Ref := none
  dstBinding : Nat := 0
  dstArrayElement : Nat := 0
  descriptorCount : Nat := 0
  descriptorType : Nat := 0
  pImageInfo : Ref := none
  pBufferInfo : Ref := none
deriving DecidableEq, Repr

/-- The descriptor-set blueprint (`m_DescriptorSets[ Set ]`): the fields that
`Shader::Reflect`, `Shader::CreateDescriptors` and `Shader::WriteDescriptor` read
and write.  A value-initialised blueprint has `Set == -1`.  The native layout
handle `SetLayout` is null (`none`) or stands for the layout object created from
the listed bindings. -/
structure ShaderDescriptorSet where
  Set : Nat := unsetSet
  UniformBuffers : StdMap ShaderUniformBuffer := []
  StorageBuffers : StdMap ShaderStorageBuffer := []
  SampledImages : List ShaderImage := []
  StorageImages : List ShaderImage := []
  SetLayout : Option (List VkDescriptorSetLayoutBinding) := none
  WriteDescriptorSets : StdMap VkWriteDescriptorSet := []
deriving DecidableEq, Repr

/-- `VkPushConstantRange`. -/
structure VkPushConstantRange where
  stageFlags : Nat
  offset : Nat
  size : Nat
deriving DecidableEq, Repr

/-- What the SPIR-V compiler reports for one member of a buffer block. -/
structure BufferMember where
  type : SPIRType
  name : String
  size : Nat
  offset : Nat
deriving DecidableEq, Repr

/-- What the SPIR-V compiler reports for a uniform, storage or push-constant
block: name, `DecorationDescriptorSet`, `DecorationBinding` (both `uint32_t`),
`get_declared_struct_size` and the members. -/
structure BufferResource where
  name : String
  set : Nat
  binding : Nat
  declaredSize : Nat
  members : List BufferMember := []
deriving DecidableEq, Repr

/-- What the SPIR-V compiler reports for a sampled or storage image.  `array` is
`RealType.array`; `inlineWord` is the word that `RealType.array[ 0 ]` reads when
`array` is empty. -/
structure ImageResource where
  name : String
  set : Nat
  binding : Nat
  array : List Nat := []
  inlineWord : Nat := 0
deriving DecidableEq, Repr

/-- `spirv_cross::ShaderResources`: the lists that `Shader::Reflect` walks. -/
structure ShaderResources where
  uniform_buffers : List BufferResource := []
  storage_buffers : List BufferResource := []
  push_constant_buffers : List BufferResource := []
  sampled_images : List ImageResource := []
  storage_images : List ImageResource := []
deriving DecidableEq, Repr

/-- The members of `Shader` that `Shader::Reflect` reads and writes. -/
structure Shader where
  m_DescriptorSets : StdMap ShaderDescriptorSet := []
  m_Uniforms : List ShaderUniform := []
  m_PushConstantRanges : List VkPushConstantRange := []
deriving DecidableEq, Repr

namespace Shader

/-- The comparison `Fn` of `Shader::Reflect` (Shader.cpp:542-556): by set, then
by binding. -/
def Fn (a b : BufferResource) : Prop :=
  if a.set = b.set then a.binding < b.binding else a.set < b.set

instance : DecidableRel Fn := fun a b => by
  unfold Fn
  exact inferInstance

/-- `std::sort( ..., Fn )` (Shader.cpp:558-559). -/
def sortResources (l : List BufferResource) : List BufferResource :=
  l.insertionSort Fn

/-- The blueprint that `m_DescriptorSets[ set ]` refers to. -/
def blueprint (sh : Shader) (set : Nat) : ShaderDescriptorSet :=
  StdMap.getD sh.m_DescriptorSets set {}

/-- `if( m_DescriptorSets[ Set ].Set == -1 ) m_DescriptorSets[ Set ] = { .Set = Set };`
(Shader.cpp:576-577, 640-641). -/
def ensureSet (sh : Shader) (Set : Nat) : Shader :=
  if (blueprint sh Set).Set = unsetSet then
    { sh with m_DescriptorSets := StdMap.insert sh.m_DescriptorSets Set { Set := Set } }
  else sh

/-- The `find_if` over the uniform buffers of a blueprint together with the write
through the iterator (Shader.cpp:653-664): the first record equal to `Uniform`
gets the stage `All`; `none` when there is no such record. -/
def promoteUniform (Uniform : ShaderUniformBuffer) :
    StdMap ShaderUniformBuffer → Option (StdMap ShaderUniformBuffer)
  | [] => none
  | (k, v) :: rest =>
    if v.eq Uniform then some ((k, { v with Location := ShaderType.All }) :: rest)
    else (promoteUniform Uniform rest).map (fun r => (k, v) :: r)

/-- The `find_if` over the storage buffers of a blueprint together with the write
through the iterator (Shader.cpp:589-600). -/
def promoteStorage (Storage : ShaderStorageBuffer) :
    StdMap ShaderStorageBuffer → Option (StdMap ShaderStorageBuffer)
  | [] => none
  | (k, v) :: rest =>
    if v.eq Storage then some ((k, { v with Location := ShaderType.All }) :: rest)
    else (promoteStorage Storage rest).map (fun r => (k, v) :: r)

/-- The uniform-list entries of the members of a uniform or storage block
(Shader.cpp:607-622, 671-686). -/
def bufferMembers (b : BufferResource) : List ShaderUniform :=
  b.members.map (fun m =>
    { Name := b.name ++ "." ++ m.name, Location := castInt b.binding,
      DataType := SpvToSaturn m.type, Size := m.size, Offset := m.offset })

/-- The record `Uniform` built for a uniform block (Shader.cpp:643-647). -/
def uniformRecord (shaderType : ShaderType) (ub : BufferResource) : ShaderUniformBuffer :=
  { Binding := ub.binding, Size := ub.declaredSize % 2 ^ 32, Location := shaderType,
    Name := ub.name }

/-- The record `Storage` built for a storage block (Shader.cpp:579-583). -/
def storageRecord (shaderType : ShaderType) (sb : BufferResource) : ShaderStorageBuffer :=
  { Binding := sb.binding, Size := 1, Location := shaderType, Name := sb.name }

/-- One pass of the storage-buffer loop (Shader.cpp:561-623). -/
def reflectStorageBuffer (shaderType : ShaderType) (sh : Shader) (sb : BufferResource) :
    Shader :=
  let sh1 := ensureSet sh sb.set
  let bp := blueprint sh1 sb.set
  match promoteStorage (storageRecord shaderType sb) bp.StorageBuffers with
  | some promoted =>
    { sh1 with m_DescriptorSets :=
        StdMap.insert sh1.m_DescriptorSets sb.set { bp with StorageBuffers := promoted } }
  | none =>
    { sh1 with
      m_DescriptorSets :=
        StdMap.insert sh1.m_DescriptorSets sb.set
          { bp with StorageBuffers :=
              StdMap.insert bp.StorageBuffers sb.binding (storageRecord shaderType sb) }
      m_Uniforms := sh1.m_Uniforms ++ bufferMembers sb }

/-- One pass of the uniform-buffer loop (Shader.cpp:625-687). -/
def reflectUniformBuffer (shaderType : ShaderType) (sh : Shader) (ub : BufferResource) :
    Shader :=
  let sh1 := ensureSet sh ub.set
  let bp := blueprint sh1 ub.set
  match promoteUniform (uniformRecord shaderType ub) bp.UniformBuffers with
  | some promoted =>
    { sh1 with m_DescriptorSets :=
        StdMap.insert sh1.m_DescriptorSets ub.set { bp with UniformBuffers := promoted } }
  | none =>
    { sh1 with
      m_DescriptorSets :=
        StdMap.insert sh1.m_DescriptorSets ub.set
          { bp with UniformBuffers :=
              StdMap.insert bp.UniformBuffers ub.binding (uniformRecord shaderType ub) }
      m_Uniforms := sh1.m_Uniforms ++ bufferMembers ub }

/-- The base offset of the next push-constant range (Shader.cpp:697-701), in
`uint32_t` arithmetic. -/
def nextPushConstantOffset (ranges : List VkPushConstantRange) : Nat :=
  match ranges.getLast? with
  | some back => (back.offset + back.size) % 2 ^ 32
  | none => 0

/-- The uniform-list entries of the members of a push-constant block
(Shader.cpp:711-736); `Offset` is the base offset of the block. -/
def pushConstantMembers (shaderType : ShaderType) (Offset : Nat) (pc : BufferResource) :
    List ShaderUniform :=
  pc.members.map (fun m =>
    { Name := if pc.name.isEmpty then m.name else pc.name ++ "." ++ m.name,
      Location := castInt m.offset,
      DataType := SpvToSaturn m.type, Size := m.size,
      Offset := (m.offset + 2 ^ 32 - Offset) % 2 ^ 32,
      IsPushConstantData := decide (shaderType = ShaderType.Fragment) })

/-- One pass of the push-constant loop (Shader.cpp:689-737). -/
def reflectPushConstant (shaderType : ShaderType) (sh : Shader) (pc : BufferResource) :
    Shader :=
  let Size := pc.declaredSize % 2 ^ 32
  let Offset := nextPushConstantOffset sh.m_PushConstantRanges
  { sh with
    m_PushConstantRanges := sh.m_PushConstantRanges ++
      [{ stageFlags := ShaderTypeToVulkan shaderType, offset := Offset, size := Size }]
    m_Uniforms := sh.m_Uniforms ++ pushConstantMembers shaderType Offset pc }

/-- The value `arraySizes` of the image loops (Shader.cpp:747-754, 767-774). -/
def imageArraySize (r : ImageResource) : Nat :=
  let arraySizes := match r.array with
    | n :: _ => n
    | [] => r.inlineWord
  if arraySizes = 0 then 1 else arraySizes

/-- One pass of the sampled-image loop (Shader.cpp:739-757). -/
def reflectSampledImage (shaderType : ShaderType) (sh : Shader) (r : ImageResource) : Shader :=
  let bp := blueprint sh r.set
  let image : ShaderImage :=
    { Name := r.name, Stage := shaderType, Set := r.set, Binding := r.binding,
      ArraySize := imageArraySize r }
  { sh with
    m_DescriptorSets :=
      StdMap.insert sh.m_DescriptorSets r.set
        { bp with SampledImages := bp.SampledImages ++ [image] } }

/-- One pass of the storage-image loop (Shader.cpp:759-777). -/
def reflectStorageImage (shaderType : ShaderType) (sh : Shader) (r : ImageResource) : Shader :=
  let bp := blueprint sh r.set
  let image : ShaderImage :=
    { Name := r.name, Stage := shaderType, Set := r.set, Binding := r.binding,
      ArraySize := imageArraySize r }
  { sh with
    m_DescriptorSets :=
      StdMap.insert sh.m_DescriptorSets r.set
        { bp with StorageImages := bp.StorageImages ++ [image] } }

/-- `Shader::Reflect` (Shader.cpp:536-778) on the resources of one stage. -/
def Reflect (shaderType : ShaderType) (Resources : ShaderResources) (sh : Shader) : Shader :=
  let sh1 := (sortResources Resources.storage_buffers).foldl (reflectStorageBuffer shaderType) sh
  let sh2 := (sortResources Resources.uniform_buffers).foldl (reflectUniformBuffer shaderType) sh1
  let sh3 := Resources.push_constant_buffers.foldl (reflectPushConstant shaderType) sh2
  let sh4 := Resources.sampled_images.foldl (reflectSampledImage shaderType) sh3
  Resources.storage_images.foldl (reflectStorageImage shaderType) sh4

/-- The loop `for( const auto& [k, data] : m_SpvCode ) Reflect( k.Type, data );`
(Shader.cpp:265-268, 1042-1045) over the stages in iteration order. -/
def reflectStages (stages : List (ShaderType × ShaderResources)) (sh : Shader) : Shader :=
  stages.foldl (fun s stage => Reflect stage.1 stage.2 s) sh

/-- The push-constant blocks of a sequence of stages in the order in which
`Reflect` processes them, each with the stage that declares it. -/
def pushConstantBlocks (stages : List (ShaderType × ShaderResources)) :
    List (ShaderType × BufferResource) :=
  stages.flatMap (fun stage => stage.2.push_constant_buffers.map (fun pc => (stage.1, pc)))

/-- The 32-bit size of a push-constant block (`Size`, Shader.cpp:696). -/
def blockSize (b : ShaderType × BufferResource) : Nat :=
  b.2.declaredSize % 2 ^ 32

/-- What the push-constant loop appends to the range list for one block. -/
def appendRange (ranges : List VkPushConstantRange) (b : ShaderType × BufferResource) :
    List VkPushConstantRange :=
  ranges ++ [{ stageFlags := ShaderTypeToVulkan b.1, offset := nextPushConstantOffset ranges,
               size := blockSize b }]

/-- Ranges laid out back to back from the offset `base`, in `uint32_t`
arithmetic. -/
def packedRanges (base : Nat) : List (ShaderType × BufferResource) → List VkPushConstantRange
  | [] => []
  | b :: bs =>
    { stageFlags := ShaderTypeToVulkan b.1, offset := base, size := blockSize b } ::
      packedRanges ((base + blockSize b) % 2 ^ 32) bs

/-- The same uniform buffer seen from two stages: name, set, binding and
(32-bit) size agree. -/
def sameBuffer (a b : BufferResource) : Prop :=
  a.name = b.name ∧ a.set = b.set ∧ a.binding = b.binding ∧
    a.declaredSize % 2 ^ 32 = b.declaredSize % 2 ^ 32

/-- The stage declares no other uniform buffer at the set and binding of `ub`:
every uniform buffer of the stage at that set and binding is `ub` itself. -/
def slotReserved (ub : BufferResource) (res : ShaderResources) : Prop :=
  ∀ x ∈ res.uniform_buffers, x.set = ub.set → x.binding = ub.binding → sameBuffer x ub

/-- Two records with the same name, binding and size (any stage). -/
def sameRecord (a b : ShaderUniformBuffer) : Prop :=
  a.Name = b.Name ∧ a.Binding = b.Binding ∧ a.Size = b.Size

/-- A blueprint in which every uniform-buffer record equal to `U` sits under the
binding of `U`, and whose uniform-buffer map is a well-formed map. -/
def SlotClean (U : ShaderUniformBuffer) (bp : ShaderDescriptorSet) : Prop :=
  StdMap.WF bp.UniformBuffers ∧
  ∀ k v, (k, v) ∈ bp.UniformBuffers → sameRecord v U → k = U.Binding

/-- A blueprint whose set index has been assigned and that holds a record equal
to `U` under the binding of `U`; with `shared`, that record has the stage
`All`. -/
def SlotHeld (U : ShaderUniformBuffer) (shared : Bool) (bp : ShaderDescriptorSet) : Prop :=
  bp.Set ≠ unsetSet ∧ SlotClean U bp ∧
  ∃ e, StdMap.find? bp.UniformBuffers U.Binding = some e ∧ sameRecord e U ∧
    (shared = true → e.Location = ShaderType.All)

/-- A blueprint that holds no uniform-buffer record equal to `U`. -/
def SlotFree (U : ShaderUniformBuffer) (bp : ShaderDescriptorSet) : Prop :=
  ∀ k v, (k, v) ∈ bp.UniformBuffers → ¬ sameRecord v U

/-- Two stages that both declare the uniform block `Camera` at set 0, binding 0. -/
def cameraBlock : BufferResource :=
  { name := "Camera", set := 0, binding := 0, declaredSize := 64,
    members := [{ type := { basetype := BaseType.Float, vecsize := 4, columns := 4 },
                  name := "viewProj", size := 64, offset := 0 }] }

/-- A second uniform block of the vertex stage, at binding 1. -/
def lightsBlock : BufferResource :=
  { name := "Lights", set := 0, binding := 1, declaredSize := 32 }

/-- A push-constant block of the given size with one member. -/
def pushBlock (size : Nat) : BufferResource :=
  { name := "u_Params", set := 0, binding := 0, declaredSize := size,
    members := [{ type := { basetype := BaseType.Float }, name := "a", size := 4,
                  offset := 0 }] }

/-- The resources of a vertex stage. -/
def vertexStage : ShaderResources :=
  { uniform_buffers := [lightsBlock, cameraBlock], push_constant_buffers := [pushBlock 16] }

/-- The resources of a fragment stage. -/
def fragmentStage : ShaderResources :=
  { uniform_buffers := [cameraBlock], push_constant_buffers := [pushBlock 8],
    sampled_images := [{ name := "u_Albedo", set := 0, binding := 2 }] }

end Shader

namespace Shader

/-- Two stages that both sample `u_Albedo` at set 0, binding 2. -/
def albedoImage : ImageResource :=
  { name := "u_Albedo", set := 0, binding := 2 }

/-- A stage that declares only the sampler `u_Albedo`. -/
def samplerOnlyStage : ShaderResources :=
  { sampled_images := [albedoImage] }

/-- A stage that declares only the uniform block `Camera`. -/
def cameraOnlyStage : ShaderResources :=
  { uniform_buffers := [cameraBlock] }

/-- A non-array sampler for which the word read by `RealType.array[ 0 ]` is 7. -/
def strayArrayImage : ImageResource :=
  { name := "u_Albedo", set := 0, binding := 2, array := [], inlineWord := 7 }

end Shader

/-! ## Shader files, compilation and descriptors (`Saturn/Vulkan/Shader.cpp`) -/

/-- `ShaderTypeFromString` (Shader.cpp:193-215). -/
def ShaderTypeFromString (Str : String) : ShaderType :=
  if Str = "vertex" then ShaderType.Vertex
  else if Str = "fragment" then ShaderType.Fragment
  else if Str = "compute" then ShaderType.Compute
  else if Str = "geometry" then ShaderType.Geometry
  else ShaderType.None

/-- `std::string::npos` for a 64-bit `size_t`. -/
def npos : Nat := 2 ^ 64 - 1

/-- The difference `a - b` of two `size_t` values. -/
def sizeSub (a b : Nat) : Nat :=
  (a + 2 ^ 64 - b % 2 ^ 64) % 2 ^ 64

/-- Whether the text `s` begins with `pat`. -/
def startsWith : List Char → List Char → Bool
  | _, [] => true
  | [], _ :: _ => false
  | c :: cs, p :: ps => c == p && startsWith cs ps

/-- `std::string::find( pat, pos )`: the first position at or after `pos` at which
`pat` occurs, or `npos`. -/
def strFind (s pat : List Char) (pos : Nat) : Nat :=
  match (List.range (s.length + 1)).find? (fun i => decide (pos ≤ i) && startsWith (s.drop i) pat) with
  | some i => i
  | none => npos

/-- `std::string::find_first_not_of( chars, pos )`: the first position at or after
`pos` that holds a character not in `chars`, or `npos`. -/
def strFindFirstNotOf (s chars : List Char) (pos : Nat) : Nat :=
  match (List.range s.length).find? (fun i => decide (pos ≤ i) && !(chars.contains (s.getD i ' '))) with
  | some i => i
  | none => npos

/-- `std::string::substr( pos, len )`: `none` stands for the `std::out_of_range`
that is thrown when `pos` is past the end. -/
def strSubstr (s : List Char) (pos len : Nat) : Option (List Char) :=
  if pos > s.length then none else some ((s.drop pos).take len)

/-- `ShaderSourceKey( Type, Index )` (declared in the absent `Shader.h`); the
member `Type` is written `Type_`. -/
structure ShaderSourceKey where
  Type_ : ShaderType
  Index : Int
deriving DecidableEq, Repr

/-- `ShaderSource( Source, Type, Index )` (declared in the absent `Shader.h`); the
member `Type` is written `Type_`. -/
structure ShaderSource where
  Source : String
  Type_ : ShaderType
  Index : Int
deriving DecidableEq, Repr

/-- A map keyed by `ShaderSourceKey` (`m_ShaderSources`, `m_SpvCode`) as the list
of its entries in insertion order. -/
abbrev SourceMap (V : Type) := List (ShaderSourceKey × V)

/-- The map after `m[key] = v`. -/
def SourceMap.assign {V : Type} (m : SourceMap V) (key : ShaderSourceKey) (v : V) : SourceMap V :=
  match m with
  | [] => [(key, v)]
  | (k, w) :: rest => if k = key then (k, v) :: rest else (k, w) :: SourceMap.assign rest key v

/-- `shaderc_shader_kind`: the three kinds that `CompileGlslToSpvAssembly`
requests. -/
inductive ShaderKind where
  | vertex
  | compute
  | fragment
deriving DecidableEq, Repr

/-- The external tools a shader is built with: `shaderc` (`none` when the
compilation status is not success) and the resource query of `spirv_cross` on a
SPIR-V binary. -/
structure Toolchain where
  CompileGlslToSpv : String → ShaderKind → Option (List Nat)
  get_shader_resources : List Nat → ShaderResources

/-- `VkDescriptorPoolSize`. -/
structure VkDescriptorPoolSize where
  type : Nat
  descriptorCount : Nat
deriving DecidableEq, Repr

/-- The members of a `Shader` object outside the reflected tables, and the
reflected tables (`m_DescriptorSets`, `m_Uniforms`, `m_PushConstantRanges`) as
`reflected`.  The element type of `m_Textures` is declared in the absent
`Shader.h`; the list is only copied, cleared and restored here.  A set-layout
handle stands for the layout object created from the listed bindings, and
`m_SetPool` for the pool created from the listed sizes. -/
structure ShaderObject where
  m_FileContents : String := ""
  m_FileSize : Nat := 0
  m_ShaderSources : SourceMap ShaderSource := []
  m_SpvCode : SourceMap (List Nat) := []
  reflected : Shader := {}
  m_PushConstantUniforms : List ShaderUniform := []
  m_Textures : List Nat := []
  m_SetLayouts : List (List VkDescriptorSetLayoutBinding) := []
  m_SetPool : Option (List VkDescriptorPoolSize) := none
deriving DecidableEq, Repr

/-- `VK_DESCRIPTOR_TYPE_COMBINED_IMAGE_SAMPLER`. -/
def VK_DESCRIPTOR_TYPE_COMBINED_IMAGE_SAMPLER : Nat := 1
/-- `VK_DESCRIPTOR_TYPE_STORAGE_IMAGE`. -/
def VK_DESCRIPTOR_TYPE_STORAGE_IMAGE : Nat := 3
/-- `VK_DESCRIPTOR_TYPE_UNIFORM_BUFFER`. -/
def VK_DESCRIPTOR_TYPE_UNIFORM_BUFFER : Nat := 6
/-- `VK_DESCRIPTOR_TYPE_STORAGE_BUFFER`. -/
def VK_DESCRIPTOR_TYPE_STORAGE_BUFFER : Nat := 7

namespace ShaderObject

/-- `Shader::ReadFile` (Shader.cpp:475-491); `disk` is the file at `m_Filepath`,
`none` when it does not exist. -/
def ReadFile (disk : Option String) (s : ShaderObject) : ShaderObject :=
  match disk with
  | none => s
  | some contents => { s with m_FileSize := contents.length, m_FileContents := contents }

/-- The counters and the position that the loop of `DetermineShaderTypes`
carries. -/
structure ScanState where
  VertexShaders : Int := -1
  FragmentShaders : Int := -1
  ComputeShaders : Int := -1
  TypeTokenPosition : Nat
  m_ShaderSources : SourceMap ShaderSource
deriving DecidableEq, Repr

/-- One pass of the `while` loop of `DetermineShaderTypes` (Shader.cpp:503-533);
`none` when `substr` throws. -/
def scanSection (FileCopy : List Char) (st : ScanState) : Option ScanState :=
  let TypeTokenLength := 5
  let TypeTokenEnd := strFind FileCopy "\r\n".data st.TypeTokenPosition
  let Begin := (st.TypeTokenPosition + TypeTokenLength + 1) % 2 ^ 64
  match strSubstr FileCopy Begin (sizeSub TypeTokenEnd Begin) with
  | none => none
  | some TypeName =>
    let NextLinePos := strFindFirstNotOf FileCopy "\r\n".data TypeTokenEnd
    let TypeTokenPosition := strFind FileCopy "#type".data NextLinePos
    match strSubstr FileCopy NextLinePos
        (sizeSub TypeTokenPosition
          (if NextLinePos = npos then sizeSub FileCopy.length 1 else NextLinePos)) with
    | none => none
    | some RawShaderCode =>
      let Shader_Type := ShaderTypeFromString (String.mk TypeName)
      let FragmentShaders :=
        if Shader_Type = ShaderType.Fragment then st.FragmentShaders + 1 else st.FragmentShaders
      let VertexShaders :=
        if Shader_Type = ShaderType.Fragment then st.VertexShaders
        else if Shader_Type = ShaderType.Vertex then st.VertexShaders + 1
        else st.VertexShaders
      let ComputeShaders :=
        if Shader_Type = ShaderType.Fragment then st.ComputeShaders
        else if Shader_Type = ShaderType.Vertex then st.ComputeShaders
        else if Shader_Type = ShaderType.Compute then st.ComputeShaders + 1
        else st.ComputeShaders
      let Index :=
        if Shader_Type = ShaderType.Vertex then VertexShaders
        else if Shader_Type = ShaderType.Fragment then FragmentShaders
        else ComputeShaders
      let src : ShaderSource := ⟨String.mk RawShaderCode, Shader_Type, Index⟩
      some { VertexShaders := VertexShaders, FragmentShaders := FragmentShaders,
             ComputeShaders := ComputeShaders, TypeTokenPosition := TypeTokenPosition,
             m_ShaderSources := SourceMap.assign st.m_ShaderSources ⟨Shader_Type, Index⟩ src }

/-- The `while` loop of `DetermineShaderTypes`.  Every pass moves the marker
position forward, so `fuel` passes suffice for a file of `fuel` characters;
`none` when `substr` throws. -/
def scanSections (FileCopy : List Char) : Nat → ScanState → Option ScanState
  | 0, st => if st.TypeTokenPosition = npos then some st else none
  | fuel + 1, st =>
    if st.TypeTokenPosition = npos then some st
    else
      match scanSection FileCopy st with
      | none => none
      | some st1 => scanSections FileCopy fuel st1

/-- `Shader::DetermineShaderTypes` (Shader.cpp:493-534). -/
def DetermineShaderTypes (s : ShaderObject) : Option ShaderObject :=
  let FileCopy := s.m_FileContents.data
  match scanSections FileCopy FileCopy.length
      { TypeTokenPosition := strFind FileCopy "#type".data 0,
        m_ShaderSources := s.m_ShaderSources } with
  | none => none
  | some st => some { s with m_ShaderSources := st.m_ShaderSources }

/-- The shader kind requested for a stage (Shader.cpp:950). -/
def shaderKind (type : ShaderType) : ShaderKind :=
  if type = ShaderType.Vertex then ShaderKind.vertex
  else if type = ShaderType.Compute then ShaderKind.compute
  else ShaderKind.fragment

/-- The loop of `CompileGlslToSpvAssembly` (Shader.cpp:944-967) over the
remaining sources: the SPIR-V map as far as it was filled, and whether every
source compiled. -/
def compileSources (tc : Toolchain) :
    List (ShaderSourceKey × ShaderSource) → SourceMap (List Nat) → Bool × SourceMap (List Nat)
  | [], spv => (true, spv)
  | (key, src) :: rest, spv =>
    match tc.CompileGlslToSpv src.Source (shaderKind src.Type_) with
    | none => (false, spv)
    | some SpvBinary => compileSources tc rest (SourceMap.assign spv key SpvBinary)

/-- `Shader::CompileGlslToSpvAssembly` (Shader.cpp:928-972). -/
def CompileGlslToSpvAssembly (tc : Toolchain) (s : ShaderObject) : Bool × ShaderObject :=
  let r := compileSources tc s.m_ShaderSources s.m_SpvCode
  (r.1, { s with m_SpvCode := r.2 })

/-- The stage mask that `CreateDescriptors` writes for a reflected stage flag
(Shader.cpp:800, 836, 865, 894). -/
def layoutStageFlags (Location : ShaderType) : Nat :=
  if Location = ShaderType.Vertex then VK_SHADER_STAGE_VERTEX_BIT
  else if Location = ShaderType.All then VK_SHADER_STAGE_ALL
  else if Location = ShaderType.Compute then VK_SHADER_STAGE_COMPUTE_BIT
  else VK_SHADER_STAGE_FRAGMENT_BIT

/-- The write record that `CreateDescriptors` stores for a binding
(Shader.cpp:814-826 and the three siblings). -/
def freshWrite (binding descriptorType : Nat) : VkWriteDescriptorSet :=
  { dstSet := none, dstBinding := binding, dstArrayElement := 0, descriptorCount := 1,
    descriptorType := descriptorType, pImageInfo := none, pBufferInfo := none }

/-- What the four loops of `CreateDescriptors` have built so far for one
blueprint. -/
structure LayoutBuild where
  Bindings : List VkDescriptorSetLayoutBinding := []
  PoolSizes : List VkDescriptorPoolSize := []
  WriteDescriptorSets : StdMap VkWriteDescriptorSet := []
deriving DecidableEq, Repr

/-- One pass of one of the four resource loops of `CreateDescriptors`
(Shader.cpp:794-914). -/
def addBinding (descriptorType : Nat) (b : LayoutBuild)
    (binding descriptorCount : Nat) (stage : ShaderType) : LayoutBuild :=
  { Bindings := b.Bindings ++
      [{ binding := binding, descriptorType := descriptorType,
         descriptorCount := descriptorCount, stageFlags := layoutStageFlags stage }]
    PoolSizes := b.PoolSizes ++ [{ type := descriptorType, descriptorCount := 250 }]
    WriteDescriptorSets :=
      StdMap.insert b.WriteDescriptorSets binding (freshWrite binding descriptorType) }

/-- The body of the loop over the descriptor sets in `CreateDescriptors`
(Shader.cpp:789-923) for one blueprint; `PoolSizes` is shared by all passes. -/
def buildLayout (descriptorSet : ShaderDescriptorSet) (PoolSizes : List VkDescriptorPoolSize) :
    LayoutBuild :=
  let b0 : LayoutBuild :=
    { PoolSizes := PoolSizes, WriteDescriptorSets := descriptorSet.WriteDescriptorSets }
  let b1 := descriptorSet.UniformBuffers.foldl
    (fun b e => addBinding VK_DESCRIPTOR_TYPE_UNIFORM_BUFFER b e.2.Binding 1 e.2.Location) b0
  let b2 := descriptorSet.StorageBuffers.foldl
    (fun b e => addBinding VK_DESCRIPTOR_TYPE_STORAGE_BUFFER b e.2.Binding 1 e.2.Location) b1
  let b3 := descriptorSet.SampledImages.foldl
    (fun b texture => addBinding VK_DESCRIPTOR_TYPE_COMBINED_IMAGE_SAMPLER b texture.Binding
      texture.ArraySize texture.Stage) b2
  descriptorSet.StorageImages.foldl
    (fun b texture => addBinding VK_DESCRIPTOR_TYPE_STORAGE_IMAGE b texture.Binding
      texture.ArraySize texture.Stage) b3

/-- What the loop over the descriptor sets in `CreateDescriptors` carries. -/
structure DescriptorBuild where
  sets : StdMap ShaderDescriptorSet := []
  PoolSizes : List VkDescriptorPoolSize := []
  m_SetLayouts : List (List VkDescriptorSetLayoutBinding) := []
deriving DecidableEq, Repr

/-- One pass of the loop over the descriptor sets in `CreateDescriptors`. -/
def createSetLayout (acc : DescriptorBuild) (entry : Nat × ShaderDescriptorSet) :
    DescriptorBuild :=
  let b := buildLayout entry.2 acc.PoolSizes
  { sets := acc.sets ++
      [(entry.1, { entry.2 with WriteDescriptorSets := b.WriteDescriptorSets,
                                SetLayout := some b.Bindings })]
    PoolSizes := b.PoolSizes
    m_SetLayouts := acc.m_SetLayouts ++ [b.Bindings] }

/-- `Shader::CreateDescriptors` (Shader.cpp:780-926); the uniform-buffer
allocations are not modelled. -/
def CreateDescriptors (s : ShaderObject) : ShaderObject :=
  let r := s.reflected.m_DescriptorSets.foldl createSetLayout
    { m_SetLayouts := s.m_SetLayouts }
  { s with
    reflected := { s.reflected with m_DescriptorSets := r.sets }
    m_SetLayouts := r.m_SetLayouts
    m_SetPool := some r.PoolSizes }

/-- The stages that the loop `for( const auto& [k, data] : m_SpvCode )` hands to
`Reflect` (Shader.cpp:265-268, 1042-1045). -/
def spvStages (tc : Toolchain) (spv : SourceMap (List Nat)) : List (ShaderType × ShaderResources) :=
  spv.map (fun e => (e.1.Type_, tc.get_shader_resources e.2))

/-- The constructor `Shader::Shader` (Shader.cpp:240-273) on a default-initialised
object; the name, the hash and the renderer's reference count are not
modelled.  `none` when `DetermineShaderTypes` throws. -/
def construct (tc : Toolchain) (disk : Option String) : Option ShaderObject :=
  match disk with
  | none => some {}
  | some _ =>
    match DetermineShaderTypes (ReadFile disk {}) with
    | none => none
    | some s1 =>
      match CompileGlslToSpvAssembly tc s1 with
      | (false, s2) => some s2
      | (true, s2) =>
        some (CreateDescriptors
          { s2 with reflected := Shader.reflectStages (spvStages tc s2.m_SpvCode) s2.reflected })

/-- `Shader::TryRecompile` (Shader.cpp:1003-1052): the returned flag and the
object after the call; `none` when `DetermineShaderTypes` throws.  The
notification of the renderer is not modelled. -/
def TryRecompile (tc : Toolchain) (disk : Option String) (s : ShaderObject) :
    Option (Bool × ShaderObject) :=
  let OldSpvMap := s.m_SpvCode
  let OldReflected := s.reflected
  let OldPushConstsUni := s.m_PushConstantUniforms
  let OldTextures := s.m_Textures
  match DetermineShaderTypes (ReadFile disk s) with
  | none => none
  | some s1 =>
    let s2 : ShaderObject :=
      { s1 with m_SpvCode := [], reflected := {}, m_PushConstantUniforms := [],
                m_Textures := [] }
    match CompileGlslToSpvAssembly tc s2 with
    | (false, s3) =>
      some (false, { s3 with m_SpvCode := OldSpvMap, reflected := OldReflected,
                             m_PushConstantUniforms := OldPushConstsUni,
                             m_Textures := OldTextures })
    | (true, s3) =>
      some (true, CreateDescriptors
        { s3 with reflected := Shader.reflectStages (spvStages tc s3.m_SpvCode) s3.reflected })

end ShaderObject

namespace ShaderObject

/-- A tool chain whose compiler accepts every source and whose reflection reports
the uniform block `Camera` for every binary. -/
def acceptingTools : Toolchain :=
  { CompileGlslToSpv := fun _ _ => some [7]
    get_shader_resources := fun _ => Shader.cameraOnlyStage }

/-- A tool chain whose compiler rejects every source. -/
def rejectingTools : Toolchain :=
  { CompileGlslToSpv := fun _ _ => none
    get_shader_resources := fun _ => Shader.cameraOnlyStage }

/-- A shader file with one vertex section. -/
def vertexFile : String := "#type vertex\r\nvoid main(){}\r\n"

/-- A shader file with two geometry sections. -/
def geometryFile : String := "#type geometry\r\nvoid a(){}\r\n#type geometry\r\nvoid b(){}\r\n"

/-- The shader object built from `vertexFile` with the accepting tool chain. -/
def builtVertexShader : ShaderObject :=
  { m_FileContents := vertexFile
    m_FileSize := 29
    m_ShaderSources := [(⟨ShaderType.Vertex, 0⟩, ⟨"void main(){}\r\n", ShaderType.Vertex, 0⟩)]
    m_SpvCode := [(⟨ShaderType.Vertex, 0⟩, [7])]
    reflected :=
      { m_DescriptorSets :=
          [(0, { Set := 0
                 UniformBuffers := [(0, ⟨"Camera", ShaderType.Vertex, 0, 64⟩)]
                 SetLayout := some [⟨0, VK_DESCRIPTOR_TYPE_UNIFORM_BUFFER, 1,
                   VK_SHADER_STAGE_VERTEX_BIT⟩]
                 WriteDescriptorSets :=
                   [(0, freshWrite 0 VK_DESCRIPTOR_TYPE_UNIFORM_BUFFER)] })]
        m_Uniforms := Shader.bufferMembers Shader.cameraBlock }
    m_SetLayouts := [[⟨0, VK_DESCRIPTOR_TYPE_UNIFORM_BUFFER, 1, VK_SHADER_STAGE_VERTEX_BIT⟩]]
    m_SetPool := some [⟨VK_DESCRIPTOR_TYPE_UNIFORM_BUFFER, 250⟩] }

end ShaderObject

namespace ShaderObject

/-- A shader file with a vertex section and a compute section. -/
def vertexComputeFile : String :=
  "#type vertex\r\nvoid main(){}\r\n#type compute\r\nvoid main(){}\r\n"

end ShaderObject

namespace Shader

/-- What a loop of `WriteDescriptor` carries through one blueprint: the write
records of the blueprint and the writes handed to `vkUpdateDescriptorSets` so
far, each as the value of the record at the time of the call. -/
abbrev WriteState := StdMap VkWriteDescriptorSet × List VkWriteDescriptorSet

/-- The assignments to `WriteDescriptorSets[ binding ]` followed by the call
`vkUpdateDescriptorSets( device, 1, &WriteDescriptorSets[ binding ], 0, nullptr )`
(Shader.cpp:307-310 and its siblings); `operator[]` value-initialises a record
that is not there. -/
def issueWrite (binding : Nat) (assign : VkWriteDescriptorSet → VkWriteDescriptorSet)
    (acc : WriteState) : WriteState :=
  let written := assign (StdMap.getD acc.1 binding {})
  (StdMap.insert acc.1 binding written, acc.2 ++ [written])

/-- One pass of an image loop of `WriteDescriptor` (Shader.cpp:303-312, 314-323,
348-358, 360-370).  `descriptorCount` is `none` for the overload that takes one
image info and the size of the vector for the overload that takes a vector. -/
def writeImage (rName : String) (pImageInfo : Ref) (descriptorCount : Option Nat)
    (desSet : Ref) (acc : WriteState) (texture : ShaderImage) : WriteState :=
  if texture.Name = rName then
    issueWrite texture.Binding
      (fun record =>
        { record with pImageInfo := pImageInfo,
                      descriptorCount := descriptorCount.getD record.descriptorCount,
                      dstSet := desSet }) acc
  else acc

/-- One pass of the uniform-buffer loop of `WriteDescriptor` (Shader.cpp:331-340). -/
def writeBuffer (rName : String) (pBufferInfo : Ref) (desSet : Ref) (acc : WriteState)
    (entry : Nat × ShaderUniformBuffer) : WriteState :=
  if entry.2.Name = rName then
    issueWrite entry.1 (fun record => { record with pBufferInfo := pBufferInfo, dstSet := desSet })
      acc
  else acc

/-- The body of the loop over the descriptor sets in the image overloads of
`WriteDescriptor`, for one blueprint. -/
def writeImagesOf (rName : String) (pImageInfo : Ref) (descriptorCount : Option Nat)
    (desSet : Ref) (descriptorSet : ShaderDescriptorSet) (log : List VkWriteDescriptorSet) :
    ShaderDescriptorSet × List VkWriteDescriptorSet :=
  let a1 := descriptorSet.SampledImages.foldl
    (writeImage rName pImageInfo descriptorCount desSet) (descriptorSet.WriteDescriptorSets, log)
  let a2 := descriptorSet.StorageImages.foldl
    (writeImage rName pImageInfo descriptorCount desSet) a1
  ({ descriptorSet with WriteDescriptorSets := a2.1 }, a2.2)

/-- The body of the loop over the descriptor sets in the buffer overload of
`WriteDescriptor`, for one blueprint. -/
def writeBuffersOf (rName : String) (pBufferInfo : Ref) (desSet : Ref)
    (descriptorSet : ShaderDescriptorSet) (log : List VkWriteDescriptorSet) :
    ShaderDescriptorSet × List VkWriteDescriptorSet :=
  let a1 := descriptorSet.UniformBuffers.foldl
    (writeBuffer rName pBufferInfo desSet) (descriptorSet.WriteDescriptorSets, log)
  ({ descriptorSet with WriteDescriptorSets := a1.1 }, a1.2)

/-- The loop `for( auto& [set, descriptorSet] : m_DescriptorSets )` with a body
that rewrites the blueprint and extends the log of issued updates. -/
def forEachDescriptorSet
    (body : ShaderDescriptorSet → List VkWriteDescriptorSet →
      ShaderDescriptorSet × List VkWriteDescriptorSet)
    (sh : Shader) : Shader × List VkWriteDescriptorSet :=
  let r := sh.m_DescriptorSets.foldl
    (fun (acc : StdMap ShaderDescriptorSet × List VkWriteDescriptorSet) entry =>
      (acc.1 ++ [(entry.1, (body entry.2 acc.2).1)], (body entry.2 acc.2).2))
    ([], [])
  ({ sh with m_DescriptorSets := r.1 }, r.2)

/-- `Shader::WriteDescriptor( rName, rImageInfo, desSet )` (Shader.cpp:299-325):
the shader after the call and the updates issued, in order.  `rImageInfo` is
the address of the image info. -/
def WriteDescriptorImage (rName : String) (rImageInfo : Nat) (desSet : Ref) (sh : Shader) :
    Shader × List VkWriteDescriptorSet :=
  forEachDescriptorSet (writeImagesOf rName (some rImageInfo) none desSet) sh

/-- `Shader::WriteDescriptor( rName, rBufferInfo, desSet )` (Shader.cpp:327-342).
`rBufferInfo` is the address of the buffer info. -/
def WriteDescriptorBuffer (rName : String) (rBufferInfo : Nat) (desSet : Ref) (sh : Shader) :
    Shader × List VkWriteDescriptorSet :=
  forEachDescriptorSet (writeBuffersOf rName (some rBufferInfo) desSet) sh

/-- `Shader::WriteDescriptor( rName, ImageInfos, desSet )` (Shader.cpp:344-372).
`data` is `ImageInfos.data()` and `size` is `ImageInfos.size()`. -/
def WriteDescriptorImages (rName : String) (data : Ref) (size : Nat) (desSet : Ref)
    (sh : Shader) : Shader × List VkWriteDescriptorSet :=
  forEachDescriptorSet (writeImagesOf rName data (some size) desSet) sh

/-- No reflected resource of the shader has the name `rName`. -/
def NoResourceNamed (rName : String) (sh : Shader) : Prop :=
  ∀ entry ∈ sh.m_DescriptorSets,
    (∀ ub ∈ entry.2.UniformBuffers, ub.2.Name ≠ rName) ∧
    (∀ sb ∈ entry.2.StorageBuffers, sb.2.Name ≠ rName) ∧
    (∀ texture ∈ entry.2.SampledImages, texture.Name ≠ rName) ∧
    (∀ texture ∈ entry.2.StorageImages, texture.Name ≠ rName)

/-- The sampled and storage images named `rName`, in the order in which the
image overloads of `WriteDescriptor` visit them. -/
def imagesNamed (rName : String) (sh : Shader) : List ShaderImage :=
  sh.m_DescriptorSets.flatMap (fun entry =>
    (entry.2.SampledImages ++ entry.2.StorageImages).filter
      (fun texture => decide (texture.Name = rName)))

/-- The uniform buffers named `rName`, with their bindings, in the order in
which the buffer overload of `WriteDescriptor` visits them. -/
def uniformBuffersNamed (rName : String) (sh : Shader) : List (Nat × ShaderUniformBuffer) :=
  sh.m_DescriptorSets.flatMap (fun entry =>
    entry.2.UniformBuffers.filter (fun ub => decide (ub.2.Name = rName)))

/-- Every stored write record names the binding under which it is stored. -/
def Addressed (writes : StdMap VkWriteDescriptorSet) : Prop :=
  ∀ e ∈ writes, e.2.dstBinding = e.1

/-- A write record is stored under the binding `b`. -/
def Covered (writes : StdMap VkWriteDescriptorSet) (b : Nat) : Prop :=
  (StdMap.find? writes b).isSome = true

/-- The state of a blueprint after `CreateDescriptors`: every write record names
its binding, there is a record for the binding of every image and of every
uniform buffer, and uniform buffers are stored under their binding. -/
def Prepared (ds : ShaderDescriptorSet) : Prop :=
  Addressed ds.WriteDescriptorSets ∧
  (∀ texture ∈ ds.SampledImages ++ ds.StorageImages,
    Covered ds.WriteDescriptorSets texture.Binding) ∧
  (∀ e ∈ ds.UniformBuffers, e.2.Binding = e.1 ∧ Covered ds.WriteDescriptorSets e.1)

/-- A stage that declares the uniform block `Camera`, the storage block `Lights`
and the sampler `u_Albedo`. -/
def mixedStage : ShaderResources :=
  { uniform_buffers := [cameraBlock], storage_buffers := [lightsBlock],
    sampled_images := [albedoImage] }

end Shader

namespace ShaderObject

/-- The reflected tables of a shader with one fragment stage declaring
`mixedStage`, after `CreateDescriptors`. -/
def mixedShader : Shader :=
  (CreateDescriptors
    { reflected := Shader.Reflect ShaderType.Fragment Shader.mixedStage {} }).reflected

end ShaderObject

/-! ## Scene submission (`Saturn/Scene/Scene.cpp`) -/

/-- What the static-mesh loops of the scene read of a `StaticMeshComponent`: the
mesh reference (`none` when null) and the entity's own material registry
reference. -/
structure StaticMeshComponent where
  Mesh : Option StaticMesh
  MaterialRegistry : Ref
deriving DecidableEq, Repr

/-- What the static-mesh loops of the scene read of the scene: the entities with a
`StaticMeshComponent` in iteration order (entity address and component), the
registry reference that `Mesh->GetMaterialRegistry()` returns, the result of
`HasAnyOverrides()` for the registry at an address, and the result of
`GetTransformRelativeToParent` for an entity. -/
structure SceneView where
  entities : List (Nat × StaticMeshComponent)
  GetMaterialRegistry : StaticMesh → Ref
  HasAnyOverrides : Nat → Bool
  GetTransformRelativeToParent : Nat → Mat4

namespace Scene

/-- The body of the static-mesh loop of `Scene::OnRenderEditor`
(Scene.cpp:285-300); `calls` are the calls of `SubmitStaticMesh` made so far. -/
def editorStaticMesh (scene : SceneView) (calls : List Submission)
    (e : Nat × StaticMeshComponent) : List Submission :=
  let meshComponent := e.2
  let transform := scene.GetTransformRelativeToParent e.1
  match meshComponent.Mesh with
  | some mesh =>
    let targetMaterialRegistry := scene.GetMaterialRegistry mesh
    let targetMaterialRegistry :=
      match meshComponent.MaterialRegistry with
      | some registry =>
        if scene.HasAnyOverrides registry then meshComponent.MaterialRegistry
        else targetMaterialRegistry
      | none => targetMaterialRegistry
    calls ++ [{ entity := some e.1, mesh := mesh, materialRegistry := targetMaterialRegistry,
                transform := transform }]
  | none => calls

/-- The calls of `SubmitStaticMesh` that the static-mesh loop of
`Scene::OnRenderEditor` makes (Scene.cpp:281-301), in order. -/
def OnRenderEditorStaticMeshes (scene : SceneView) : List Submission :=
  scene.entities.foldl (editorStaticMesh scene) []

/-- The registry that the contract names for an entity with mesh `mesh`: the
entity's own registry when it is non-null and has any override, the registry of
the mesh in every other case. -/
def effectiveRegistry (scene : SceneView) (c : StaticMeshComponent) (mesh : StaticMesh) : Ref :=
  match c.MaterialRegistry with
  | some registry =>
    if scene.HasAnyOverrides registry = true then some registry
    else scene.GetMaterialRegistry mesh
  | none => scene.GetMaterialRegistry mesh

end Scene

namespace Shader

/-- A storage image at set 0, binding 3. -/
def outputImage : ImageResource :=
  { name := "o_Image", set := 0, binding := 3 }

/-- A stage that declares one resource of every kind: the uniform block
`Camera`, the storage block `Lights`, the sampler `u_Albedo` and the storage
image `o_Image`. -/
def allKindsStage : ShaderResources :=
  { uniform_buffers := [cameraBlock], storage_buffers := [lightsBlock],
    sampled_images := [albedoImage], storage_images := [outputImage] }

/-- A stage that declares only a push-constant block of the given size, whose
one member is declared at offset 0. -/
def pushOnlyStage (size : Nat) : ShaderResources :=
  { push_constant_buffers := [pushBlock size] }

/-- A `mat4` as SPIR-V type. -/
def mat4Type : SPIRType := { basetype := BaseType.Float, vecsize := 4, columns := 4 }

/-- A `mat3` as SPIR-V type. -/
def mat3Type : SPIRType := { basetype := BaseType.Float, vecsize := 3, columns := 3 }

/-- A scalar `float` as SPIR-V type. -/
def floatType : SPIRType := { basetype := BaseType.Float, vecsize := 1, columns := 1 }

end Shader

namespace StaticMeshKey

/-- `std::hash<Saturn::StaticMeshKey>::operator()` (SceneRenderer.h:143-153), a
`size_t`.  `GetID` gives the id of the registry object at an address
(`MaterialRegistry::GetID` is declared outside the source tree); `none` is the
dereference of a null `Registry`. -/
def hash (GetID : Nat → Nat) (rKey : StaticMeshKey) : Option Nat :=
  match rKey.Registry with
  | some registry => some ((GetID registry ^^^ rKey.MeshID ^^^ rKey.SubmeshIndex) % 2 ^ 64)
  | none => none

end StaticMeshKey

namespace Scene

/-- The body of the static-mesh loop of `Scene::OnRenderRuntime`
(Scene.cpp:371-383); `calls` are the calls of `SubmitStaticMesh` made so far.
`none` is the dereference of a null reference:
`meshComponent.Mesh->GetMaterialRegistry()` and
`meshComponent.MaterialRegistry->HasAnyOverrides()` are evaluated before any
test. -/
def runtimeStaticMesh (scene : SceneView) (calls : List Submission)
    (e : Nat × StaticMeshComponent) : Option (List Submission) :=
  let meshComponent := e.2
  let transform := scene.GetTransformRelativeToParent e.1
  match meshComponent.Mesh with
  | none => none
  | some mesh =>
    let targetMaterialRegistry := scene.GetMaterialRegistry mesh
    match meshComponent.MaterialRegistry with
    | none => none
    | some registry =>
      let targetMaterialRegistry :=
        if scene.HasAnyOverrides registry then meshComponent.MaterialRegistry
        else targetMaterialRegistry
      some (calls ++ [{ entity := some e.1, mesh := mesh,
                        materialRegistry := targetMaterialRegistry, transform := transform }])

/-- The calls of `SubmitStaticMesh` that the static-mesh loop of
`Scene::OnRenderRuntime` makes (Scene.cpp:367-385), in order; `none` when the
loop dereferences a null reference. -/
def OnRenderRuntimeStaticMeshes (scene : SceneView) : Option (List Submission) :=
  scene.entities.foldlM (runtimeStaticMesh scene) []

/-- A scene view with the given static-mesh entities, in which the mesh at
address `a` has the registry at address `a + 100`, no registry has an override
and every transform is the zero matrix. -/
def plainView (entities : List (Nat × StaticMeshComponent)) : SceneView :=
  { entities := entities
    GetMaterialRegistry := fun mesh => some (mesh.ref + 100)
    HasAnyOverrides := fun _ => false
    GetTransformRelativeToParent := fun _ =>
      ⟨⟨0, 0, 0, 0⟩, ⟨0, 0, 0, 0⟩, ⟨0, 0, 0, 0⟩, ⟨0, 0, 0, 0⟩⟩ }

/-- One entity with a mesh and a null override registry. -/
def noRegistryView : SceneView :=
  plainView [(1, { Mesh := some ⟨11, 7, 2⟩, MaterialRegistry := none })]

/-- One entity with a null mesh and an override registry. -/
def noMeshView : SceneView :=
  plainView [(1, { Mesh := none, MaterialRegistry := some 3 })]

/-- One entity with a mesh and an override registry. -/
def fullView : SceneView :=
  plainView [(1, { Mesh := some ⟨11, 7, 2⟩, MaterialRegistry := some 3 })]

end Scene

/-! ## Entities of a scene (`Saturn/Scene/Scene.cpp`) -/

/-- What the scene functions read and write of an entity: its handle (the key of
`m_EntityIDMap`), the id of its `IdComponent`, the parent id and the child ids of
its `RelationshipComponent`, and the matrix that
`GetComponent<TransformComponent>().GetTransform()` returns.  The accessors
`GetUUID`, `GetParent`, `SetParent`, `GetChildren` and `HasParent` are declared in
`Entity.h`, outside the source tree; they are read as plain accessors of these
fields, and a parent id of 0 as "no parent". -/
structure Entity where
  handle : Nat
  ID : Nat
  Parent : Nat := 0
  ChildrenID : List Nat := []
  Transform : Mat4 := ⟨⟨0, 0, 0, 0⟩, ⟨0, 0, 0, 0⟩, ⟨0, 0, 0, 0⟩, ⟨0, 0, 0, 0⟩⟩
deriving DecidableEq, Repr

/-- The members of `Scene` that the entity functions read and write:
`m_EntityIDMap` as the list of its entities in iteration order, and the values
that `m_Registry.create()` and `UUID()` (both outside the source tree) return
next. -/
structure Scene where
  m_EntityIDMap : List Entity := []
  nextHandle : Nat := 0
  nextUUID : Nat := 1
deriving DecidableEq, Repr

namespace Scene

/-- `Scene::FindEntityByID` (Scene.cpp:419-430); `none` is `nullptr`. -/
def FindEntityByID (scene : Scene) (id : Nat) : Option Entity :=
  scene.m_EntityIDMap.find? (fun entity => entity.ID == id)

/-- `Scene::GetTransformRelativeToParent` (Scene.cpp:432-443).  `mul` is the
product of `glm::mat4` and `one` is `glm::mat4( 1.0f )`; `fuel` bounds the depth
of the recursion and `none` means that the call has not returned within it. -/
def GetTransformRelativeToParent (mul : Mat4 → Mat4 → Mat4) (one : Mat4) (scene : Scene) :
    Nat → Entity → Option Mat4
  | 0, _ => none
  | fuel + 1, entity =>
    match FindEntityByID scene entity.Parent with
    | some parent =>
      match GetTransformRelativeToParent mul one scene fuel parent with
      | some transform => some (mul transform entity.Transform)
      | none => none
    | none => some (mul one entity.Transform)

/-- The parent chain of an entity, root first: the entity alone when
`FindEntityByID` finds no entity for its parent id, otherwise the chain of the
parent found followed by the entity.  An entity has such a chain exactly when
following the parent ids ends after finitely many steps. -/
inductive ParentChain (scene : Scene) : Entity → List Entity → Prop where
  | root (e : Entity) (h : FindEntityByID scene e.Parent = none) : ParentChain scene e [e]
  | child (e p : Entity) (chain : List Entity) (h : FindEntityByID scene e.Parent = some p)
      (hp : ParentChain scene p chain) : ParentChain scene e (chain ++ [e])

/-- The entity that a non-null `Ref<Entity>` with the given handle refers to. -/
def entityAt (scene : Scene) (handle : Nat) : Option Entity :=
  scene.m_EntityIDMap.find? (fun entity => entity.handle == handle)

/-- A write to the components of the entity with the given handle. -/
def modify (scene : Scene) (handle : Nat) (f : Entity → Entity) : Scene :=
  { scene with
    m_EntityIDMap := scene.m_EntityIDMap.map
      (fun entity => if entity.handle = handle then f entity else entity) }

/-- The statement `m_EntityIDMap.erase( handle )`. -/
def erase (scene : Scene) (handle : Nat) : Scene :=
  { scene with
    m_EntityIDMap := scene.m_EntityIDMap.filter (fun entity => entity.handle != handle) }

/-- The expression `Ref<Entity>::Create()`: the constructor of `Entity` is outside
the source tree; the new entity gets a new handle and a new id, an empty
`RelationshipComponent`, and is entered in `m_EntityIDMap` by
`Scene::OnEntityCreated` (Scene.cpp:645-648). -/
def Create (scene : Scene) : Nat × Scene :=
  (scene.nextHandle,
   { m_EntityIDMap := scene.m_EntityIDMap ++
       [{ handle := scene.nextHandle, ID := scene.nextUUID }]
     nextHandle := scene.nextHandle + 1
     nextUUID := scene.nextUUID + 1 })

/-- The statement `relationshipComponent.ChildrenID.resize( n )` on the entity
with the given handle (Scene.cpp:534): the vector is cut to `n` entries or
filled up to `n` entries with value-initialised `UUID`s. -/
def resizeChildren (scene : Scene) (handle n : Nat) : Scene :=
  match entityAt scene handle with
  | none => scene
  | some entity =>
    let missing := n - entity.ChildrenID.length
    { modify scene handle (fun e =>
        { e with ChildrenID := e.ChildrenID.take n ++
            (List.range missing).map (fun i => scene.nextUUID + i) }) with
      nextUUID := scene.nextUUID + missing }

/-- The statement `if( parent ) newEntity->SetParent( parent->GetUUID() );`
(Scene.cpp:537-540); `parent` is the handle behind a non-null reference. -/
def setParentFrom (scene : Scene) (newEntity : Nat) (parent : Option Nat) : Option Scene :=
  match parent with
  | some p =>
    match entityAt scene p with
    | some parentEntity =>
      some (modify scene newEntity (fun e => { e with Parent := parentEntity.ID }))
    | none => none
  | none => some scene

/-- `Scene::DuplicateEntity` (Scene.cpp:514-559) on the entity with handle `entity`
and the parent reference `parent` (`none` is `nullptr`): the handle of the new
entity and the scene after the call.  Of the copied components only the
transform is modelled.  `fuel` bounds the depth of the recursion; `none` means
that the call has not returned within it or has dereferenced a null
reference. -/
def DuplicateEntity : Nat → Scene → Nat → Option Nat → Option (Nat × Scene)
  | 0, _, _, _ => none
  | fuel + 1, scene, entity, parent => do
    let source ← entityAt scene entity
    let (newEntity, s1) := Create scene
    let s2 := modify s1 newEntity (fun e => { e with Transform := source.Transform })
    let s3 := resizeChildren s2 newEntity source.ChildrenID.length
    let s4 ← setParentFrom s3 newEntity parent
    let s5 ←
      if source.Parent ≠ 0 ∧ parent = none then do
        let sourceParent ← FindEntityByID s4 source.Parent
        let (newParent, s) ← DuplicateEntity fuel s4 sourceParent.handle none
        let newParentEntity ← entityAt s newParent
        pure (modify s newEntity (fun e => { e with Parent := newParentEntity.ID }))
      else pure s4
    let s6 ← source.ChildrenID.foldlM
      (fun s rID => do
        let child ← FindEntityByID s rID
        let (newChild, s7) ← DuplicateEntity fuel s child.handle (some newEntity)
        let newChildEntity ← entityAt s7 newChild
        pure (modify s7 newEntity
          (fun e => { e with ChildrenID := e.ChildrenID ++ [newChildEntity.ID] })))
      s5
    pure (newEntity, s6)

/-- `Scene::DeleteEntity` (Scene.cpp:561-573) on the entity with the given handle;
the components in `m_Registry` are not modelled.  `none` is the dereference of a
null reference. -/
def DeleteEntity (scene : Scene) (entity : Nat) : Option Scene := do
  let e ← entityAt scene entity
  let s1 ← e.ChildrenID.foldlM
    (fun s rChild => do
      let child ← FindEntityByID s rChild
      pure (erase s child.handle))
    scene
  pure (erase s1 e.handle)

/-- A scene with an entity (handle 0, id 10), its child (handle 1, id 11), the
child of that child (handle 2, id 12) and an unrelated entity (handle 3,
id 13). -/
def familyScene : Scene :=
  { m_EntityIDMap :=
      [{ handle := 0, ID := 10, ChildrenID := [11] },
       { handle := 1, ID := 11, Parent := 10, ChildrenID := [12] },
       { handle := 2, ID := 12, Parent := 11 },
       { handle := 3, ID := 13 }]
    nextHandle := 4
    nextUUID := 100 }

/-- A scene with an entity (handle 0, id 10) and its two children (handles 1 and
2, ids 11 and 12). -/
def twoChildrenScene : Scene :=
  { m_EntityIDMap :=
      [{ handle := 0, ID := 10, ChildrenID := [11, 12] },
       { handle := 1, ID := 11, Parent := 10 },
       { handle := 2, ID := 12, Parent := 10 }]
    nextHandle := 3
    nextUUID := 100 }

end Scene

/-- The product of a 4x4 matrix and a vector with the entries multiplied and added
as natural numbers. -/
def Mat4.mulVecExact (m : Mat4) (v : Vec4) : Vec4 :=
  { x := m.c0.x * v.x + m.c1.x * v.y + m.c2.x * v.z + m.c3.x * v.w
    y := m.c0.y * v.x + m.c1.y * v.y + m.c2.y * v.z + m.c3.y * v.w
    z := m.c0.z * v.x + m.c1.z * v.y + m.c2.z * v.z + m.c3.z * v.w
    w := m.c0.w * v.x + m.c1.w * v.y + m.c2.w * v.z + m.c3.w * v.w }

/-- A product on `Mat4` values, used to instantiate the parameters `mul` and `one`
of `GetTransformRelativeToParent` at concrete values: the matrix product with
the entries multiplied and added as natural numbers. -/
def Mat4.mulExact (a b : Mat4) : Mat4 :=
  { c0 := a.mulVecExact b.c0, c1 := a.mulVecExact b.c1, c2 := a.mulVecExact b.c2,
    c3 := a.mulVecExact b.c3 }

/-- The identity of `Mat4.mulExact`. -/
def Mat4.oneExact : Mat4 :=
  ⟨⟨1, 0, 0, 0⟩, ⟨0, 1, 0, 0⟩, ⟨0, 0, 1, 0⟩, ⟨0, 0, 0, 1⟩⟩

/-- The matrix that moves by `(x, y, z)`, with natural-number entries. -/
def Mat4.translateExact (x y z : Nat) : Mat4 :=
  ⟨⟨1, 0, 0, 0⟩, ⟨0, 1, 0, 0⟩, ⟨0, 0, 1, 0⟩, ⟨x, y, z, 1⟩⟩

namespace Scene

/-- A scene with a root (id 10, moved by 1 along x), its child (id 11, moved by 2
along y) and the child of that child (id 12, moved by 3 along z). -/
def movedScene : Scene :=
  { m_EntityIDMap :=
      [{ handle := 0, ID := 10, ChildrenID := [11], Transform := Mat4.translateExact 1 0 0 },
       { handle := 1, ID := 11, Parent := 10, ChildrenID := [12],
         Transform := Mat4.translateExact 0 2 0 },
       { handle := 2, ID := 12, Parent := 11, Transform := Mat4.translateExact 0 0 3 }]
    nextHandle := 3
    nextUUID := 100 }

/-- The root of `movedScene`. -/
def movedRoot : Entity :=
  { handle := 0, ID := 10, ChildrenID := [11], Transform := Mat4.translateExact 1 0 0 }

/-- The child of the root of `movedScene`. -/
def movedChild : Entity :=
  { handle := 1, ID := 11, Parent := 10, ChildrenID := [12],
    Transform := Mat4.translateExact 0 2 0 }

/-- The grandchild of the root of `movedScene`. -/
def movedGrandchild : Entity :=
  { handle := 2, ID := 12, Parent := 11, Transform := Mat4.translateExact 0 0 3 }

end Scene

namespace Shader

/-- A uniform block other than `Camera` at the set and binding of `Camera`. -/
def otherBlock : BufferResource :=
  { name := "Other", set := 0, binding := 0, declaredSize := 16,
    members := [{ type := { basetype := BaseType.Float, vecsize := 4 }, name := "tint",
                  size := 16, offset := 0 }] }

/-- A stage that declares only the uniform block `Other`. -/
def otherOnlyStage : ShaderResources :=
  { uniform_buffers := [otherBlock] }

/-- The uniform block `Camera` declared in the set `0xFFFFFFFF`. -/
def farCameraBlock : BufferResource :=
  { cameraBlock with set := 4294967295 }

/-- A stage that declares only `farCameraBlock`. -/
def farCameraStage : ShaderResources :=
  { uniform_buffers := [farCameraBlock] }

end Shader

end Saturn

/-! # Theorems -/

namespace Saturn

/-! ### Maps of a descriptor-set blueprint -/

namespace StdMap

theorem find?_insert_self {V : Type} (m : StdMap V) (k : Nat) (v : V) :
    find? (insert m k v) k = some v := by
  induction m with
  | nil => simp [insert, find?]
  | cons e rest ih =>
    obtain ⟨k1, v1⟩ := e
    unfold insert
    split_ifs with h1 h2
    · simp [find?]
    · simp [find?]
    · have : k1 ≠ k := fun h => h2 h.symm
      simp [find?, this, ih]

theorem find?_insert_of_ne {V : Type} (m : StdMap V) (k j : Nat) (v : V) (h : j ≠ k) :
    find? (insert m k v) j = find? m j := by
  induction m with
  | nil => simp [insert, find?, h.symm]
  | cons e rest ih =>
    obtain ⟨k1, v1⟩ := e
    unfold insert
    split_ifs with h1 h2
    · simp [find?, h.symm]
    · subst h2
      simp [find?, h.symm]
    · by_cases hj : k1 = j
      · simp [find?, hj]
      · simp [find?, hj, ih]

theorem mem_insert {V : Type} (m : StdMap V) (k j : Nat) (v x : V)
    (h : (j, x) ∈ insert m k v) : (j = k ∧ x = v) ∨ (j, x) ∈ m := by
  induction m with
  | nil =>
    simp only [insert, List.mem_singleton, Prod.mk.injEq] at h
    exact Or.inl h
  | cons e rest ih =>
    obtain ⟨k1, v1⟩ := e
    unfold insert at h
    split_ifs at h with h1 h2
    · rcases List.mem_cons.1 h with h | h
      · exact Or.inl (by simpa using h)
      · exact Or.inr h
    · rcases List.mem_cons.1 h with h | h
      · exact Or.inl (by simpa using h)
      · exact Or.inr (List.mem_cons_of_mem _ h)
    · rcases List.mem_cons.1 h with h | h
      · exact Or.inr (by rw [h]; exact List.mem_cons_self _ _)
      · rcases ih h with h | h
        · exact Or.inl h
        · exact Or.inr (List.mem_cons_of_mem _ h)

theorem WF_insert {V : Type} (m : StdMap V) (k : Nat) (v : V) (h : WF m) :
    WF (insert m k v) := by
  induction m with
  | nil => simp [insert, WF]
  | cons e rest ih =>
    obtain ⟨k1, v1⟩ := e
    unfold WF at h
    simp only [List.map_cons, List.pairwise_cons] at h
    obtain ⟨hhead, htail⟩ := h
    unfold insert
    split_ifs with h1 h2
    · unfold WF
      simp only [List.map_cons, List.pairwise_cons, List.mem_cons]
      refine ⟨?_, hhead, htail⟩
      rintro a (ha | ha)
      · omega
      · exact lt_trans h1 (hhead a ha)
    · subst h2
      unfold WF
      simp only [List.map_cons, List.pairwise_cons]
      exact ⟨hhead, htail⟩
    · unfold WF
      simp only [List.map_cons, List.pairwise_cons]
      refine ⟨?_, ih htail⟩
      intro a ha
      obtain ⟨⟨j, x⟩, hmem, rfl⟩ := List.mem_map.1 ha
      rcases mem_insert rest k j v x hmem with ⟨hj, _⟩ | hmem2
      · simp only
        omega
      · exact hhead j (List.mem_map.2 ⟨(j, x), hmem2, rfl⟩)

theorem find?_of_mem {V : Type} (m : StdMap V) (k : Nat) (v : V) (h : WF m)
    (hmem : (k, v) ∈ m) : find? m k = some v := by
  induction m with
  | nil => exact absurd hmem (List.not_mem_nil _)
  | cons e rest ih =>
    obtain ⟨k1, v1⟩ := e
    unfold WF at h
    simp only [List.map_cons, List.pairwise_cons] at h
    obtain ⟨hhead, htail⟩ := h
    rcases List.mem_cons.1 hmem with heq | hmem2
    · simp only [Prod.mk.injEq] at heq
      simp [find?, heq.1, heq.2]
    · have hlt : k1 < k := hhead k (List.mem_map.2 ⟨(k, v), hmem2, rfl⟩)
      have hne : k1 ≠ k := by omega
      simp only [find?, hne, if_false]
      exact ih htail hmem2

theorem mem_of_find? {V : Type} (m : StdMap V) (k : Nat) (v : V)
    (h : find? m k = some v) : (k, v) ∈ m := by
  induction m with
  | nil => simp [find?] at h
  | cons e rest ih =>
    obtain ⟨k1, v1⟩ := e
    unfold find? at h
    split_ifs at h with h1
    · injection h with h
      subst h
      subst h1
      exact List.mem_cons_self _ _
    · exact List.mem_cons_of_mem _ (ih h)

theorem entriesAt_of_find? {V : Type} (m : StdMap V) (k : Nat) (v : V) (h : WF m)
    (hf : find? m k = some v) : entriesAt m k = [v] := by
  induction m with
  | nil => simp [find?] at hf
  | cons e rest ih =>
    obtain ⟨k1, v1⟩ := e
    unfold WF at h
    simp only [List.map_cons, List.pairwise_cons] at h
    obtain ⟨hhead, htail⟩ := h
    unfold find? at hf
    split_ifs at hf with h1
    · injection hf with hf
      subst hf
      subst h1
      have hnone : rest.filter (fun e => decide (e.1 = k1)) = [] := by
        rw [List.filter_eq_nil_iff]
        intro a ha
        have := hhead a.1 (List.mem_map.2 ⟨a, ha, rfl⟩)
        simp only [decide_eq_true_eq]
        omega
      simp [entriesAt, hnone]
    · have := ih htail hf
      simp only [entriesAt, List.filter_cons, h1, decide_False, Bool.false_eq_true, if_false]
      exact this

end StdMap

namespace Shader

/-! ### A uniform buffer shared by two stages -/

theorem eq_iff_sameRecord (a b : ShaderUniformBuffer) : a.eq b = true ↔ sameRecord a b := by
  simp [ShaderUniformBuffer.eq, sameRecord, and_assoc]

theorem sameRecord_symm {a b : ShaderUniformBuffer} (h : sameRecord a b) : sameRecord b a :=
  ⟨h.1.symm, h.2.1.symm, h.2.2.symm⟩

theorem sameRecord_trans {a b c : ShaderUniformBuffer} (h1 : sameRecord a b)
    (h2 : sameRecord b c) : sameRecord a c :=
  ⟨h1.1.trans h2.1, h1.2.1.trans h2.2.1, h1.2.2.trans h2.2.2⟩

theorem promoteUniform_eq_none (U : ShaderUniformBuffer) (m : StdMap ShaderUniformBuffer) :
    promoteUniform U m = none ↔ ∀ k v, (k, v) ∈ m → ¬ sameRecord v U := by
  induction m with
  | nil => simp [promoteUniform]
  | cons e rest ih =>
    obtain ⟨k1, v1⟩ := e
    unfold promoteUniform
    by_cases h : v1.eq U = true
    · simp only [h, if_true]
      constructor
      · intro hh
        exact absurd hh (by simp)
      · intro hh
        exact absurd ((eq_iff_sameRecord _ _).1 h) (hh k1 v1 (List.mem_cons_self _ _))
    · have hfalse : v1.eq U = false := by simpa using h
      simp only [hfalse, Bool.false_eq_true, if_false, Option.map_eq_none', ih]
      constructor
      · intro hh k v hmem
        rcases List.mem_cons.1 hmem with heq | hmem2
        · simp only [Prod.mk.injEq] at heq
          rw [heq.2]
          exact fun hs => h ((eq_iff_sameRecord _ _).2 hs)
        · exact hh k v hmem2
      · intro hh k v hmem
        exact hh k v (List.mem_cons_of_mem _ hmem)

/-- A successful `promoteUniform` keeps the keys and changes at most the stage of
one record, and only to `All`. -/
theorem promoteUniform_some (U : ShaderUniformBuffer) (m p : StdMap ShaderUniformBuffer)
    (h : promoteUniform U m = some p) :
    p.map Prod.fst = m.map Prod.fst ∧
    (∀ k v, (k, v) ∈ p → ∃ w, (k, w) ∈ m ∧ sameRecord v w) ∧
    (∀ k e, StdMap.find? m k = some e →
      ∃ f, StdMap.find? p k = some f ∧ sameRecord f e ∧
        (f.Location = e.Location ∨ f.Location = ShaderType.All)) := by
  induction m generalizing p with
  | nil => simp [promoteUniform] at h
  | cons e rest ih =>
    obtain ⟨k1, v1⟩ := e
    unfold promoteUniform at h
    split_ifs at h with h1
    · injection h with h
      subst h
      refine ⟨rfl, ?_, ?_⟩
      · intro k v hmem
        rcases List.mem_cons.1 hmem with heq | hmem2
        · simp only [Prod.mk.injEq] at heq
          exact ⟨v1, by rw [heq.1]; exact List.mem_cons_self _ _, by
            rw [heq.2]; exact ⟨rfl, rfl, rfl⟩⟩
        · exact ⟨v, List.mem_cons_of_mem _ hmem2, ⟨rfl, rfl, rfl⟩⟩
      · intro k e hf
        unfold StdMap.find? at hf ⊢
        split_ifs at hf ⊢ with h2
        · injection hf with hf
          subst hf
          exact ⟨_, rfl, ⟨rfl, rfl, rfl⟩, Or.inr rfl⟩
        · exact ⟨e, hf, ⟨rfl, rfl, rfl⟩, Or.inl rfl⟩
    · cases hr : promoteUniform U rest with
      | none => rw [hr] at h; simp at h
      | some r =>
        rw [hr] at h
        simp only [Option.map_some', Option.some.injEq] at h
        subst h
        obtain ⟨ih1, ih2, ih3⟩ := ih r hr
        refine ⟨by simp [ih1], ?_, ?_⟩
        · intro k v hmem
          rcases List.mem_cons.1 hmem with heq | hmem2
          · simp only [Prod.mk.injEq] at heq
            exact ⟨v1, by rw [heq.1]; exact List.mem_cons_self _ _, by
              rw [heq.2]; exact ⟨rfl, rfl, rfl⟩⟩
          · obtain ⟨w, hw, hs⟩ := ih2 k v hmem2
            exact ⟨w, List.mem_cons_of_mem _ hw, hs⟩
        · intro k e hf
          unfold StdMap.find? at hf ⊢
          split_ifs at hf ⊢ with h2
          · injection hf with hf
            subst hf
            exact ⟨_, rfl, ⟨rfl, rfl, rfl⟩, Or.inl rfl⟩
          · exact ih3 k e hf

/-- When every record equal to `U` sits under binding `B` and one does,
`promoteUniform` succeeds and gives that record the stage `All`. -/
theorem promoteUniform_hit (U : ShaderUniformBuffer) (B : Nat)
    (m : StdMap ShaderUniformBuffer) (e : ShaderUniformBuffer)
    (hclean : ∀ k v, (k, v) ∈ m → sameRecord v U → k = B)
    (hf : StdMap.find? m B = some e) (he : sameRecord e U) :
    ∃ p, promoteUniform U m = some p ∧
      StdMap.find? p B = some { e with Location := ShaderType.All } := by
  induction m with
  | nil => simp [StdMap.find?] at hf
  | cons x rest ih =>
    obtain ⟨k1, v1⟩ := x
    unfold promoteUniform
    by_cases h1 : v1.eq U = true
    · have hk : k1 = B := hclean k1 v1 (List.mem_cons_self _ _) ((eq_iff_sameRecord _ _).1 h1)
      simp only [StdMap.find?, hk, if_true, Option.some.injEq] at hf
      subst hf
      simp [h1, StdMap.find?, hk]
    · have hk : k1 ≠ B := by
        intro hk
        simp only [StdMap.find?, hk, if_true, Option.some.injEq] at hf
        subst hf
        exact h1 ((eq_iff_sameRecord _ _).2 he)
      simp only [StdMap.find?, hk, if_false] at hf
      obtain ⟨p, hp, hfp⟩ := ih (fun k v hmem => hclean k v (List.mem_cons_of_mem _ hmem)) hf
      simp [h1, hp, StdMap.find?, hk, hfp]

theorem blueprint_insert_self (sets : StdMap ShaderDescriptorSet) (S : Nat)
    (bp : ShaderDescriptorSet) (u : List ShaderUniform) (r : List VkPushConstantRange) :
    blueprint { m_DescriptorSets := StdMap.insert sets S bp, m_Uniforms := u,
                m_PushConstantRanges := r } S = bp := by
  simp [blueprint, StdMap.getD, StdMap.find?_insert_self]

theorem blueprint_insert_of_ne (sets : StdMap ShaderDescriptorSet) (S X : Nat) (h : S ≠ X)
    (bp : ShaderDescriptorSet) (u : List ShaderUniform) (r : List VkPushConstantRange)
    (sh : Shader) (hsets : sh.m_DescriptorSets = sets) :
    blueprint { m_DescriptorSets := StdMap.insert sets X bp, m_Uniforms := u,
                m_PushConstantRanges := r } S = blueprint sh S := by
  simp [blueprint, StdMap.getD, StdMap.find?_insert_of_ne _ _ _ _ h, hsets]

theorem ensureSet_of_assigned (sh : Shader) (S : Nat)
    (h : (blueprint sh S).Set ≠ unsetSet) : ensureSet sh S = sh := by
  simp [ensureSet, h]

theorem blueprint_ensureSet_of_unset (sh : Shader) (S : Nat)
    (h : (blueprint sh S).Set = unsetSet) : blueprint (ensureSet sh S) S = { Set := S } := by
  simp [ensureSet, h, blueprint_insert_self]

theorem blueprint_ensureSet_of_ne (sh : Shader) (S X : Nat) (h : S ≠ X) :
    blueprint (ensureSet sh X) S = blueprint sh S := by
  unfold ensureSet
  split_ifs
  · exact blueprint_insert_of_ne _ S X h _ _ _ sh rfl
  · rfl

theorem ensureSet_m_Uniforms (sh : Shader) (S : Nat) :
    (ensureSet sh S).m_Uniforms = sh.m_Uniforms := by
  unfold ensureSet
  split_ifs <;> rfl

theorem ensureSet_m_PushConstantRanges (sh : Shader) (S : Nat) :
    (ensureSet sh S).m_PushConstantRanges = sh.m_PushConstantRanges := by
  unfold ensureSet
  split_ifs <;> rfl

/-- The blueprint of another set is not touched by a pass of the uniform-buffer
loop. -/
theorem reflectUniformBuffer_blueprint_of_ne (t : ShaderType) (sh : Shader)
    (x : BufferResource) (S : Nat) (h : S ≠ x.set) :
    blueprint (reflectUniformBuffer t sh x) S = blueprint sh S := by
  unfold reflectUniformBuffer
  simp only
  split
  · rw [blueprint_insert_of_ne _ S x.set h _ _ _ (ensureSet sh x.set) rfl]
    exact blueprint_ensureSet_of_ne sh S x.set h
  · rw [blueprint_insert_of_ne _ S x.set h _ _ _ (ensureSet sh x.set) rfl]
    exact blueprint_ensureSet_of_ne sh S x.set h

/-- What a pass of the uniform-buffer loop does to the blueprint of its own set
and to the uniform list. -/
theorem reflectUniformBuffer_self (t : ShaderType) (sh : Shader) (x : BufferResource) :
    (promoteUniform (uniformRecord t x)
        (blueprint (ensureSet sh x.set) x.set).UniformBuffers = none →
      blueprint (reflectUniformBuffer t sh x) x.set =
        { blueprint (ensureSet sh x.set) x.set with
          UniformBuffers := StdMap.insert (blueprint (ensureSet sh x.set) x.set).UniformBuffers
            x.binding (uniformRecord t x) } ∧
      (reflectUniformBuffer t sh x).m_Uniforms = sh.m_Uniforms ++ bufferMembers x) ∧
    (∀ p, promoteUniform (uniformRecord t x)
        (blueprint (ensureSet sh x.set) x.set).UniformBuffers = some p →
      blueprint (reflectUniformBuffer t sh x) x.set =
        { blueprint (ensureSet sh x.set) x.set with UniformBuffers := p } ∧
      (reflectUniformBuffer t sh x).m_Uniforms = sh.m_Uniforms) := by
  constructor
  · intro h
    unfold reflectUniformBuffer
    simp only [h, blueprint_insert_self, ensureSet_m_Uniforms, and_self]
  · intro p h
    unfold reflectUniformBuffer
    simp only [h, blueprint_insert_self, ensureSet_m_Uniforms, and_self]

theorem SlotClean_default (U : ShaderUniformBuffer) (S : Nat) :
    SlotClean U { Set := S } := by
  simp [SlotClean, StdMap.WF]

theorem SlotClean_ensureSet (U : ShaderUniformBuffer) (sh : Shader) (S X : Nat)
    (h : SlotClean U (blueprint sh S)) : SlotClean U (blueprint (ensureSet sh X) S) := by
  by_cases hX : S = X
  · subst hX
    by_cases hs : (blueprint sh S).Set = unsetSet
    · rw [blueprint_ensureSet_of_unset sh S hs]
      exact SlotClean_default U S
    · rw [ensureSet_of_assigned sh S hs]
      exact h
  · rw [blueprint_ensureSet_of_ne sh S X hX]
    exact h

/-- Inserting the record of a block under its own binding keeps a blueprint
clean. -/
theorem SlotClean_insert (U X : ShaderUniformBuffer) (bp : ShaderDescriptorSet)
    (h : SlotClean U bp) :
    SlotClean U { bp with UniformBuffers := StdMap.insert bp.UniformBuffers X.Binding X } := by
  obtain ⟨hwf, hc⟩ := h
  refine ⟨StdMap.WF_insert _ _ _ hwf, ?_⟩
  intro k v hmem hs
  rcases StdMap.mem_insert _ _ _ _ _ hmem with ⟨hk, hv⟩ | hmem2
  · rw [hk, ← hs.2.1, hv]
  · exact hc k v hmem2 hs

/-- Promoting a record keeps a blueprint clean. -/
theorem SlotClean_promote (U X : ShaderUniformBuffer) (bp : ShaderDescriptorSet)
    (p : StdMap ShaderUniformBuffer) (hp : promoteUniform X bp.UniformBuffers = some p)
    (h : SlotClean U bp) : SlotClean U { bp with UniformBuffers := p } := by
  obtain ⟨hwf, hc⟩ := h
  obtain ⟨hkeys, hmemp, _⟩ := promoteUniform_some X _ p hp
  refine ⟨?_, ?_⟩
  · unfold StdMap.WF
    simp only
    rw [hkeys]
    exact hwf
  · intro k v hmem hs
    obtain ⟨w, hw, hvw⟩ := hmemp k v hmem
    exact hc k w hw (sameRecord_trans (sameRecord_symm hvw) hs)

theorem uniformRecord_Binding (t : ShaderType) (x : BufferResource) :
    (uniformRecord t x).Binding = x.binding := rfl

/-- A pass of the uniform-buffer loop keeps every blueprint clean. -/
theorem SlotClean_reflectUniformBuffer (U : ShaderUniformBuffer) (t : ShaderType) (sh : Shader)
    (x : BufferResource) (S : Nat) (h : SlotClean U (blueprint sh S)) :
    SlotClean U (blueprint (reflectUniformBuffer t sh x) S) := by
  by_cases hS : S = x.set
  · subst hS
    have h1 := SlotClean_ensureSet U sh x.set x.set h
    obtain ⟨hnone, hsome⟩ := reflectUniformBuffer_self t sh x
    cases hp : promoteUniform (uniformRecord t x)
        (blueprint (ensureSet sh x.set) x.set).UniformBuffers with
    | none =>
      rw [(hnone hp).1]
      exact SlotClean_insert U (uniformRecord t x) _ h1
    | some p =>
      rw [(hsome p hp).1]
      exact SlotClean_promote U (uniformRecord t x) _ p hp h1
  · rw [reflectUniformBuffer_blueprint_of_ne t sh x S hS]
    exact h

/-- A pass of the uniform-buffer loop keeps a held slot held (and a shared slot
shared), provided a block at the slot's set and binding is the slot's block. -/
theorem SlotHeld_reflectUniformBuffer (U : ShaderUniformBuffer) (shared : Bool)
    (t : ShaderType) (sh : Shader) (x : BufferResource) (S : Nat)
    (hx : x.set = S → x.binding = U.Binding → sameRecord (uniformRecord t x) U)
    (h : SlotHeld U shared (blueprint sh S)) :
    SlotHeld U shared (blueprint (reflectUniformBuffer t sh x) S) := by
  by_cases hS : S = x.set
  · subst hS
    obtain ⟨hset, hclean, e, hfind, hsame, hloc⟩ := h
    have hens : ensureSet sh x.set = sh := ensureSet_of_assigned sh x.set hset
    obtain ⟨hnone, hsome⟩ := reflectUniformBuffer_self t sh x
    rw [hens] at hnone hsome
    cases hp : promoteUniform (uniformRecord t x) (blueprint sh x.set).UniformBuffers with
    | none =>
      rw [(hnone hp).1]
      have hne : x.binding ≠ U.Binding := by
        intro hb
        have hX := hx rfl hb
        exact (promoteUniform_eq_none _ _).1 hp U.Binding e
          (StdMap.mem_of_find? _ _ _ hfind) (sameRecord_trans hsame (sameRecord_symm hX))
      refine ⟨hset, SlotClean_insert U (uniformRecord t x) _ hclean, e, ?_, hsame, hloc⟩
      simp only
      rw [StdMap.find?_insert_of_ne _ _ _ _ (Ne.symm hne)]
      exact hfind
    | some p =>
      rw [(hsome p hp).1]
      obtain ⟨f, hf, hfe, hfl⟩ := (promoteUniform_some _ _ p hp).2.2 U.Binding e hfind
      refine ⟨hset, SlotClean_promote U (uniformRecord t x) _ p hp hclean, f, hf,
        sameRecord_trans hfe hsame, ?_⟩
      intro hsh
      rcases hfl with hfl | hfl
      · rw [hfl]
        exact hloc hsh
      · exact hfl
  · rw [reflectUniformBuffer_blueprint_of_ne t sh x S hS]
    exact h

/-- The pass over a block whose record equals `U` makes the slot held, when the
block's set index is not the marker of an unassigned blueprint. -/
theorem SlotHeld_of_SlotClean (U : ShaderUniformBuffer) (t : ShaderType) (sh : Shader)
    (x : BufferResource) (hS : x.set ≠ unsetSet) (hx : sameRecord (uniformRecord t x) U)
    (h : SlotClean U (blueprint sh x.set)) :
    SlotHeld U false (blueprint (reflectUniformBuffer t sh x) x.set) := by
  have hclean := SlotClean_ensureSet U sh x.set x.set h
  have hset : (blueprint (ensureSet sh x.set) x.set).Set ≠ unsetSet := by
    by_cases hs : (blueprint sh x.set).Set = unsetSet
    · rw [blueprint_ensureSet_of_unset sh x.set hs]
      exact hS
    · rw [ensureSet_of_assigned sh x.set hs]
      exact hs
  obtain ⟨hnone, hsome⟩ := reflectUniformBuffer_self t sh x
  have hb : x.binding = U.Binding := hx.2.1
  cases hp : promoteUniform (uniformRecord t x)
      (blueprint (ensureSet sh x.set) x.set).UniformBuffers with
  | none =>
    rw [(hnone hp).1]
    refine ⟨hset, SlotClean_insert U (uniformRecord t x) _ hclean, uniformRecord t x, ?_, hx,
      fun hh => absurd hh (by simp)⟩
    simp only
    rw [← hb]
    exact StdMap.find?_insert_self _ _ _
  | some p =>
    rw [(hsome p hp).1]
    have hex : ¬ ∀ k v, (k, v) ∈ (blueprint (ensureSet sh x.set) x.set).UniformBuffers →
        ¬ sameRecord v (uniformRecord t x) := by
      intro hall
      have := (promoteUniform_eq_none _ _).2 hall
      rw [hp] at this
      exact absurd this (by simp)
    push_neg at hex
    obtain ⟨k, v, hmem, hv⟩ := hex
    have hvU : sameRecord v U := sameRecord_trans hv hx
    have hk : k = U.Binding := hclean.2 k v hmem hvU
    subst hk
    have hfind := StdMap.find?_of_mem _ _ _ hclean.1 hmem
    obtain ⟨f, hf, hfe, _⟩ := (promoteUniform_some _ _ p hp).2.2 U.Binding v hfind
    exact ⟨hset, SlotClean_promote U (uniformRecord t x) _ p hp hclean, f, hf,
      sameRecord_trans hfe hvU, fun hh => absurd hh (by simp)⟩

/-- The pass over a block whose record equals `U`, when the slot is already held:
the record gets the stage `All` and the uniform list is not extended. -/
theorem SlotShared_of_SlotHeld (U : ShaderUniformBuffer) (t : ShaderType) (sh : Shader)
    (x : BufferResource) (hx : sameRecord (uniformRecord t x) U)
    (h : SlotHeld U false (blueprint sh x.set)) :
    SlotHeld U true (blueprint (reflectUniformBuffer t sh x) x.set) ∧
    (reflectUniformBuffer t sh x).m_Uniforms = sh.m_Uniforms := by
  obtain ⟨hset, hclean, e, hfind, hsame, _⟩ := h
  have hens : ensureSet sh x.set = sh := ensureSet_of_assigned sh x.set hset
  obtain ⟨_, hsome⟩ := reflectUniformBuffer_self t sh x
  rw [hens] at hsome
  obtain ⟨p, hp, hfp⟩ := promoteUniform_hit (uniformRecord t x) U.Binding
    (blueprint sh x.set).UniformBuffers e
    (fun k v hmem hv => hclean.2 k v hmem (sameRecord_trans hv hx)) hfind
    (sameRecord_trans hsame (sameRecord_symm hx))
  rw [(hsome p hp).1]
  refine ⟨⟨hset, SlotClean_promote U (uniformRecord t x) _ p hp hclean,
    { e with Location := ShaderType.All }, hfp, hsame, fun _ => rfl⟩, (hsome p hp).2⟩

/-- The relation between the blueprint of a set before and after a pass that
does not write uniform buffers: the uniform buffers and the set index are
kept, or the blueprint was unassigned and has been reset. -/
theorem SlotClean_of_kept (U : ShaderUniformBuffer) (bp bq : ShaderDescriptorSet)
    (hk : (bq.UniformBuffers = bp.UniformBuffers ∧ bq.Set = bp.Set) ∨
      (bp.Set = unsetSet ∧ bq.UniformBuffers = []))
    (h : SlotClean U bp) : SlotClean U bq := by
  rcases hk with ⟨h1, _⟩ | ⟨_, h2⟩
  · unfold SlotClean at h ⊢
    rw [h1]
    exact h
  · unfold SlotClean
    rw [h2]
    simp [StdMap.WF]

theorem SlotHeld_of_kept (U : ShaderUniformBuffer) (shared : Bool)
    (bp bq : ShaderDescriptorSet)
    (hk : (bq.UniformBuffers = bp.UniformBuffers ∧ bq.Set = bp.Set) ∨
      (bp.Set = unsetSet ∧ bq.UniformBuffers = []))
    (h : SlotHeld U shared bp) : SlotHeld U shared bq := by
  rcases hk with ⟨h1, h2⟩ | ⟨h3, _⟩
  · unfold SlotHeld SlotClean at h ⊢
    rw [h1, h2]
    exact h
  · exact absurd h3 h.1

theorem reflectStorageBuffer_kept (t : ShaderType) (sh : Shader) (sb : BufferResource)
    (S : Nat) :
    ((blueprint (reflectStorageBuffer t sh sb) S).UniformBuffers =
        (blueprint sh S).UniformBuffers ∧
      (blueprint (reflectStorageBuffer t sh sb) S).Set = (blueprint sh S).Set) ∨
    ((blueprint sh S).Set = unsetSet ∧
      (blueprint (reflectStorageBuffer t sh sb) S).UniformBuffers = []) := by
  by_cases hS : S = sb.set
  · subst hS
    by_cases hs : (blueprint sh sb.set).Set = unsetSet
    · right
      refine ⟨hs, ?_⟩
      unfold reflectStorageBuffer
      simp only
      split <;> simp [blueprint_insert_self, blueprint_ensureSet_of_unset sh sb.set hs]
    · left
      unfold reflectStorageBuffer
      simp only
      split <;> simp [blueprint_insert_self, ensureSet_of_assigned sh sb.set hs]
  · left
    unfold reflectStorageBuffer
    simp only
    split
    · rw [blueprint_insert_of_ne _ S sb.set hS _ _ _ (ensureSet sh sb.set) rfl,
        blueprint_ensureSet_of_ne sh S sb.set hS]
      exact ⟨rfl, rfl⟩
    · rw [blueprint_insert_of_ne _ S sb.set hS _ _ _ (ensureSet sh sb.set) rfl,
        blueprint_ensureSet_of_ne sh S sb.set hS]
      exact ⟨rfl, rfl⟩

theorem reflectPushConstant_blueprint (t : ShaderType) (sh : Shader) (pc : BufferResource)
    (S : Nat) : blueprint (reflectPushConstant t sh pc) S = blueprint sh S := rfl

theorem reflectSampledImage_kept (t : ShaderType) (sh : Shader) (r : ImageResource) (S : Nat) :
    (blueprint (reflectSampledImage t sh r) S).UniformBuffers =
        (blueprint sh S).UniformBuffers ∧
      (blueprint (reflectSampledImage t sh r) S).Set = (blueprint sh S).Set := by
  by_cases hS : S = r.set
  · subst hS
    unfold reflectSampledImage
    simp [blueprint_insert_self]
  · unfold reflectSampledImage
    simp only
    rw [blueprint_insert_of_ne _ S r.set hS _ _ _ sh rfl]
    exact ⟨rfl, rfl⟩

theorem reflectStorageImage_kept (t : ShaderType) (sh : Shader) (r : ImageResource) (S : Nat) :
    (blueprint (reflectStorageImage t sh r) S).UniformBuffers =
        (blueprint sh S).UniformBuffers ∧
      (blueprint (reflectStorageImage t sh r) S).Set = (blueprint sh S).Set := by
  by_cases hS : S = r.set
  · subst hS
    unfold reflectStorageImage
    simp [blueprint_insert_self]
  · unfold reflectStorageImage
    simp only
    rw [blueprint_insert_of_ne _ S r.set hS _ _ _ sh rfl]
    exact ⟨rfl, rfl⟩

theorem foldl_invariant {α β : Type} (P : β → Prop) (f : β → α → β) (l : List α)
    (h : ∀ x ∈ l, ∀ s, P s → P (f s x)) (s : β) (hs : P s) : P (l.foldl f s) := by
  induction l generalizing s with
  | nil => exact hs
  | cons a rest ih =>
    exact ih (fun x hx => h x (List.mem_cons_of_mem _ hx)) (f s a)
      (h a (List.mem_cons_self _ _) s hs)

theorem mem_sortResources {x : BufferResource} {l : List BufferResource} :
    x ∈ sortResources l ↔ x ∈ l :=
  List.mem_insertionSort Fn

theorem SlotClean_storageLoop (U : ShaderUniformBuffer) (t : ShaderType)
    (l : List BufferResource) (sh : Shader) (S : Nat) (h : SlotClean U (blueprint sh S)) :
    SlotClean U (blueprint (l.foldl (reflectStorageBuffer t) sh) S) :=
  foldl_invariant (fun s => SlotClean U (blueprint s S)) _ l
    (fun x _ s hs => SlotClean_of_kept U _ _ (reflectStorageBuffer_kept t s x S) hs) sh h

theorem SlotHeld_storageLoop (U : ShaderUniformBuffer) (shared : Bool) (t : ShaderType)
    (l : List BufferResource) (sh : Shader) (S : Nat)
    (h : SlotHeld U shared (blueprint sh S)) :
    SlotHeld U shared (blueprint (l.foldl (reflectStorageBuffer t) sh) S) :=
  foldl_invariant (fun s => SlotHeld U shared (blueprint s S)) _ l
    (fun x _ s hs => SlotHeld_of_kept U shared _ _ (reflectStorageBuffer_kept t s x S) hs) sh h

theorem SlotClean_uniformLoop (U : ShaderUniformBuffer) (t : ShaderType)
    (l : List BufferResource) (sh : Shader) (S : Nat) (h : SlotClean U (blueprint sh S)) :
    SlotClean U (blueprint (l.foldl (reflectUniformBuffer t) sh) S) :=
  foldl_invariant (fun s => SlotClean U (blueprint s S)) _ l
    (fun x _ s hs => SlotClean_reflectUniformBuffer U t s x S hs) sh h

theorem SlotHeld_uniformLoop (U : ShaderUniformBuffer) (shared : Bool) (t : ShaderType)
    (l : List BufferResource) (sh : Shader) (S : Nat)
    (hl : ∀ x ∈ l, x.set = S → x.binding = U.Binding → sameRecord (uniformRecord t x) U)
    (h : SlotHeld U shared (blueprint sh S)) :
    SlotHeld U shared (blueprint (l.foldl (reflectUniformBuffer t) sh) S) :=
  foldl_invariant (fun s => SlotHeld U shared (blueprint s S)) _ l
    (fun x hx s hs => SlotHeld_reflectUniformBuffer U shared t s x S (hl x hx) hs) sh h

/-- After the uniform-buffer loop, the rest of `Reflect` keeps a held slot. -/
theorem SlotHeld_afterUniformLoop (U : ShaderUniformBuffer) (shared : Bool) (t : ShaderType)
    (res : ShaderResources) (sh : Shader) (S : Nat)
    (h : SlotHeld U shared (blueprint sh S)) :
    SlotHeld U shared (blueprint
      (res.storage_images.foldl (reflectStorageImage t)
        (res.sampled_images.foldl (reflectSampledImage t)
          (res.push_constant_buffers.foldl (reflectPushConstant t) sh))) S) := by
  apply foldl_invariant (fun s => SlotHeld U shared (blueprint s S))
  · intro x _ s hs
    exact SlotHeld_of_kept U shared _ _ (Or.inl (reflectStorageImage_kept t s x S)) hs
  apply foldl_invariant (fun s => SlotHeld U shared (blueprint s S))
  · intro x _ s hs
    exact SlotHeld_of_kept U shared _ _ (Or.inl (reflectSampledImage_kept t s x S)) hs
  apply foldl_invariant (fun s => SlotHeld U shared (blueprint s S))
  · intro x _ s hs
    rw [reflectPushConstant_blueprint]
    exact hs
  exact h

theorem sameRecord_of_sameBuffer (t1 t2 : ShaderType) (x ub : BufferResource)
    (h : sameBuffer x ub) : sameRecord (uniformRecord t1 x) (uniformRecord t2 ub) :=
  ⟨h.1, h.2.2.1, h.2.2.2⟩

/-- A stage that declares the slot's block, reflected on a clean blueprint,
leaves the slot held. -/
theorem SlotHeld_Reflect_of_SlotClean (t0 t : ShaderType) (res : ShaderResources)
    (ub x : BufferResource) (sh : Shader)
    (hset : ub.set ≠ unsetSet) (hx : x ∈ res.uniform_buffers) (hsame : sameBuffer x ub)
    (hres : slotReserved ub res)
    (h : SlotClean (uniformRecord t0 ub) (blueprint sh ub.set)) :
    SlotHeld (uniformRecord t0 ub) false (blueprint (Reflect t res sh) ub.set) := by
  unfold Reflect
  simp only
  apply SlotHeld_afterUniformLoop
  obtain ⟨pre, post, hsplit⟩ := List.append_of_mem (mem_sortResources.2 hx)
  rw [hsplit, List.foldl_append, List.foldl_cons]
  have hmem : ∀ y, y ∈ pre ∨ y ∈ post → y ∈ res.uniform_buffers := by
    intro y hy
    apply mem_sortResources.1
    rw [hsplit]
    rcases hy with hy | hy
    · exact List.mem_append_left _ hy
    · exact List.mem_append_right _ (List.mem_cons_of_mem _ hy)
  apply SlotHeld_uniformLoop
  · intro y hy h1 h2
    exact sameRecord_of_sameBuffer t t0 y ub (hres y (hmem y (Or.inr hy)) h1 h2)
  have hxs : x.set = ub.set := hsame.2.1
  rw [← hxs]
  apply SlotHeld_of_SlotClean _ t _ x (by rw [hxs]; exact hset)
    (sameRecord_of_sameBuffer t t0 x ub hsame)
  rw [hxs]
  apply SlotClean_uniformLoop
  apply SlotClean_storageLoop
  exact h

/-- The state in which the uniform-buffer loop of a stage reaches the block `x`,
when the slot is held before the stage: the slot is still held. -/
theorem SlotHeld_before_block (U : ShaderUniformBuffer) (t : ShaderType)
    (res : ShaderResources) (sh : Shader) (S : Nat) (x : BufferResource)
    (pre post : List BufferResource)
    (hsplit : sortResources res.uniform_buffers = pre ++ x :: post)
    (hres : ∀ y ∈ res.uniform_buffers, y.set = S → y.binding = U.Binding →
      sameRecord (uniformRecord t y) U)
    (h : SlotHeld U false (blueprint sh S)) :
    SlotHeld U false (blueprint (pre.foldl (reflectUniformBuffer t)
      ((sortResources res.storage_buffers).foldl (reflectStorageBuffer t) sh)) S) := by
  apply SlotHeld_uniformLoop
  · intro y hy
    apply hres y
    apply mem_sortResources.1
    rw [hsplit]
    exact List.mem_append_left _ hy
  exact SlotHeld_storageLoop U false t _ sh S h

/-- A stage that declares the slot's block again, reflected when the slot is
held, leaves the slot shared. -/
theorem SlotShared_Reflect_of_SlotHeld (t0 t : ShaderType) (res : ShaderResources)
    (ub x : BufferResource) (sh : Shader)
    (hx : x ∈ res.uniform_buffers) (hsame : sameBuffer x ub)
    (hres : slotReserved ub res)
    (h : SlotHeld (uniformRecord t0 ub) false (blueprint sh ub.set)) :
    SlotHeld (uniformRecord t0 ub) true (blueprint (Reflect t res sh) ub.set) := by
  have hres2 : ∀ y ∈ res.uniform_buffers, y.set = ub.set →
      y.binding = (uniformRecord t0 ub).Binding →
      sameRecord (uniformRecord t y) (uniformRecord t0 ub) :=
    fun y hy h1 h2 => sameRecord_of_sameBuffer t t0 y ub (hres y hy h1 h2)
  unfold Reflect
  simp only
  apply SlotHeld_afterUniformLoop
  obtain ⟨pre, post, hsplit⟩ := List.append_of_mem (mem_sortResources.2 hx)
  rw [hsplit, List.foldl_append, List.foldl_cons]
  apply SlotHeld_uniformLoop
  · intro y hy
    apply hres2 y
    apply mem_sortResources.1
    rw [hsplit]
    exact List.mem_append_right _ (List.mem_cons_of_mem _ hy)
  have hxs : x.set = ub.set := hsame.2.1
  have hb := SlotHeld_before_block (uniformRecord t0 ub) t res sh ub.set x pre post hsplit
    hres2 h
  rw [← hxs] at hb ⊢
  exact (SlotShared_of_SlotHeld _ t _ x (sameRecord_of_sameBuffer t t0 x ub hsame) hb).1

/-- Reflecting a whole stage keeps a held slot held (and a shared slot shared),
provided the stage declares no different uniform buffer at the slot. -/
theorem SlotHeld_Reflect (U : ShaderUniformBuffer) (shared : Bool) (t : ShaderType)
    (res : ShaderResources) (sh : Shader) (S : Nat)
    (hres : ∀ y ∈ res.uniform_buffers, y.set = S → y.binding = U.Binding →
      sameRecord (uniformRecord t y) U)
    (h : SlotHeld U shared (blueprint sh S)) :
    SlotHeld U shared (blueprint (Reflect t res sh) S) := by
  unfold Reflect
  simp only
  apply SlotHeld_afterUniformLoop
  apply SlotHeld_uniformLoop
  · intro y hy
    exact hres y (mem_sortResources.1 hy)
  exact SlotHeld_storageLoop U shared t _ sh S h

theorem SlotHeld_reflectStages (t0 : ShaderType) (ub : BufferResource) (shared : Bool)
    (stages : List (ShaderType × ShaderResources)) (sh : Shader)
    (hres : ∀ st ∈ stages, slotReserved ub st.2)
    (h : SlotHeld (uniformRecord t0 ub) shared (blueprint sh ub.set)) :
    SlotHeld (uniformRecord t0 ub) shared (blueprint (reflectStages stages sh) ub.set) := by
  unfold reflectStages
  apply foldl_invariant (fun s => SlotHeld (uniformRecord t0 ub) shared (blueprint s ub.set))
  · intro st hst s hs
    apply SlotHeld_Reflect _ _ _ _ _ _ _ hs
    intro y hy h1 h2
    exact sameRecord_of_sameBuffer st.1 t0 y ub (hres st hst y hy h1 h2)
  exact h

theorem SlotFree_of_kept (U : ShaderUniformBuffer) (bp bq : ShaderDescriptorSet)
    (hk : (bq.UniformBuffers = bp.UniformBuffers ∧ bq.Set = bp.Set) ∨
      (bp.Set = unsetSet ∧ bq.UniformBuffers = []))
    (h : SlotFree U bp) : SlotFree U bq := by
  rcases hk with ⟨h1, _⟩ | ⟨_, h2⟩
  · unfold SlotFree at h ⊢
    rw [h1]
    exact h
  · unfold SlotFree
    rw [h2]
    intro k v hmem
    exact absurd hmem (List.not_mem_nil _)

theorem SlotFree_ensureSet (U : ShaderUniformBuffer) (sh : Shader) (S X : Nat)
    (h : SlotFree U (blueprint sh S)) : SlotFree U (blueprint (ensureSet sh X) S) := by
  by_cases hX : S = X
  · subst hX
    by_cases hs : (blueprint sh S).Set = unsetSet
    · rw [blueprint_ensureSet_of_unset sh S hs]
      intro k v hmem
      exact absurd hmem (List.not_mem_nil _)
    · rw [ensureSet_of_assigned sh S hs]
      exact h
  · rw [blueprint_ensureSet_of_ne sh S X hX]
    exact h

/-- A pass of the uniform-buffer loop over a block other than the slot's block
keeps the slot free. -/
theorem SlotFree_reflectUniformBuffer (U : ShaderUniformBuffer) (t : ShaderType) (sh : Shader)
    (x : BufferResource) (S : Nat)
    (hx : x.set = S → ¬ sameRecord (uniformRecord t x) U)
    (h : SlotFree U (blueprint sh S)) :
    SlotFree U (blueprint (reflectUniformBuffer t sh x) S) := by
  by_cases hS : S = x.set
  · subst hS
    have h1 := SlotFree_ensureSet U sh x.set x.set h
    obtain ⟨hnone, hsome⟩ := reflectUniformBuffer_self t sh x
    cases hp : promoteUniform (uniformRecord t x)
        (blueprint (ensureSet sh x.set) x.set).UniformBuffers with
    | none =>
      rw [(hnone hp).1]
      intro k v hmem hs
      rcases StdMap.mem_insert _ _ _ _ _ hmem with ⟨_, hv⟩ | hmem2
      · rw [hv] at hs
        exact hx rfl hs
      · exact h1 k v hmem2 hs
    | some p =>
      rw [(hsome p hp).1]
      intro k v hmem hs
      obtain ⟨w, hw, hvw⟩ := (promoteUniform_some _ _ p hp).2.1 k v hmem
      exact h1 k w hw (sameRecord_trans (sameRecord_symm hvw) hs)
  · rw [reflectUniformBuffer_blueprint_of_ne t sh x S hS]
    exact h

/-- The pass over the slot's block while the slot is free appends the members of
the block to the uniform list. -/
theorem reflectUniformBuffer_of_SlotFree (t : ShaderType) (sh : Shader) (x : BufferResource)
    (h : SlotFree (uniformRecord t x) (blueprint sh x.set)) :
    (reflectUniformBuffer t sh x).m_Uniforms = sh.m_Uniforms ++ bufferMembers x := by
  have h1 := SlotFree_ensureSet (uniformRecord t x) sh x.set x.set h
  exact ((reflectUniformBuffer_self t sh x).1 ((promoteUniform_eq_none _ _).2 h1)).2

/-- C1 (as stated, refuted): `Camera` (set 0, binding 0, 64 bytes) is declared by
the vertex stage and by the fragment stage; the geometry stage reflected in
between declares the block `Other` at the same set and binding.  The record of
`Other` replaces that of `Camera`, so the fragment stage finds no equal record:
the entry at binding 0 ends with the stage Fragment, not All, and
`Camera.viewProj` is in the uniform list twice.  The same happens without any
other block when the set index is `0xFFFFFFFF`, the marker of an unassigned
blueprint. -/
theorem C1_other_block_at_the_binding_breaks_the_merge :
    (reflectStages [(ShaderType.Vertex, cameraOnlyStage), (ShaderType.Geometry, otherOnlyStage),
        (ShaderType.Fragment, cameraOnlyStage)] {}).m_DescriptorSets =
      [(0, { Set := 0
             UniformBuffers := [(0, ⟨"Camera", ShaderType.Fragment, 0, 64⟩)] })] ∧
    (reflectStages [(ShaderType.Vertex, cameraOnlyStage), (ShaderType.Geometry, otherOnlyStage),
        (ShaderType.Fragment, cameraOnlyStage)] {}).m_Uniforms.map (fun u => u.Name) =
      ["Camera.viewProj", "Other.tint", "Camera.viewProj"] ∧
    (reflectStages [(ShaderType.Vertex, farCameraStage),
        (ShaderType.Fragment, farCameraStage)] {}).m_DescriptorSets =
      [(4294967295, { Set := 4294967295
                      UniformBuffers := [(0, ⟨"Camera", ShaderType.Fragment, 0, 64⟩)] })] ∧
    (reflectStages [(ShaderType.Vertex, farCameraStage),
        (ShaderType.Fragment, farCameraStage)] {}).m_Uniforms.map (fun u => u.Name) =
      ["Camera.viewProj", "Camera.viewProj"] := by
  refine ⟨by decide, by decide, by decide, by decide⟩

/-- C1 (amended): a uniform buffer (same name, set, binding and size) that `Reflect`
sees first in one stage and then again in a later stage ends up as exactly one
uniform-buffer entry of the set's blueprint at its binding, with the stage
`All`, whatever stages are reflected in between and afterwards; the pass of the
later stage over it leaves the uniform list unchanged, while the first pass of
the first stage over it appends its members.  The set index is not the marker
`-1` of an unassigned blueprint, and no stage declares a different uniform
buffer at the same set and binding. -/
theorem C1_shared_uniform_buffer_is_one_entry (sh : Shader) (t1 t2 : ShaderType)
    (res1 res2 : ShaderResources) (between after : List (ShaderType × ShaderResources))
    (ub1 ub2 : BufferResource)
    (hset : ub1.set ≠ unsetSet)
    (h1 : ub1 ∈ res1.uniform_buffers) (h2 : ub2 ∈ res2.uniform_buffers)
    (hsame : sameBuffer ub2 ub1)
    (hres1 : slotReserved ub1 res1) (hres2 : slotReserved ub1 res2)
    (hbetween : ∀ st ∈ between, slotReserved ub1 st.2)
    (hafter : ∀ st ∈ after, slotReserved ub1 st.2)
    (hwf : StdMap.WF (blueprint sh ub1.set).UniformBuffers)
    (hfirst : ∀ k v, (k, v) ∈ (blueprint sh ub1.set).UniformBuffers →
      v.eq (uniformRecord t1 ub1) = false) :
    StdMap.entriesAt
        (blueprint (reflectStages after
          (Reflect t2 res2 (reflectStages between (Reflect t1 res1 sh))))
          ub1.set).UniformBuffers ub1.binding =
      [{ Name := ub1.name, Location := ShaderType.All, Binding := ub1.binding,
         Size := ub1.declaredSize % 2 ^ 32 }] ∧
    (∀ pre post, sortResources res2.uniform_buffers = pre ++ ub2 :: post →
      (reflectUniformBuffer t2
        (pre.foldl (reflectUniformBuffer t2)
          ((sortResources res2.storage_buffers).foldl (reflectStorageBuffer t2)
            (reflectStages between (Reflect t1 res1 sh)))) ub2).m_Uniforms =
      (pre.foldl (reflectUniformBuffer t2)
          ((sortResources res2.storage_buffers).foldl (reflectStorageBuffer t2)
            (reflectStages between (Reflect t1 res1 sh)))).m_Uniforms) ∧
    ∀ pre post, sortResources res1.uniform_buffers = pre ++ ub1 :: post →
      (∀ y ∈ pre, ¬ sameBuffer y ub1) →
      (reflectUniformBuffer t1
        (pre.foldl (reflectUniformBuffer t1)
          ((sortResources res1.storage_buffers).foldl (reflectStorageBuffer t1) sh))
        ub1).m_Uniforms =
      (pre.foldl (reflectUniformBuffer t1)
          ((sortResources res1.storage_buffers).foldl (reflectStorageBuffer t1)
            sh)).m_Uniforms ++ bufferMembers ub1 := by
  have hclean : SlotClean (uniformRecord t1 ub1) (blueprint sh ub1.set) := by
    refine ⟨hwf, ?_⟩
    intro k v hmem hs
    have := hfirst k v hmem
    rw [(eq_iff_sameRecord _ _).2 hs] at this
    exact absurd this (by simp)
  have hheld := SlotHeld_reflectStages t1 ub1 false between _ hbetween
    (SlotHeld_Reflect_of_SlotClean t1 t1 res1 ub1 ub1 sh hset h1 ⟨rfl, rfl, rfl, rfl⟩ hres1
      hclean)
  refine ⟨?_, ?_, ?_⟩
  · obtain ⟨_, hc, e, hfind, hse, hloc⟩ :=
      SlotHeld_reflectStages t1 ub1 true after _ hafter
        (SlotShared_Reflect_of_SlotHeld t1 t2 res2 ub1 ub2 _ h2 hsame hres2 hheld)
    have he : e = ⟨ub1.name, ShaderType.All, ub1.binding, ub1.declaredSize % 2 ^ 32⟩ := by
      obtain ⟨n, l, b, s⟩ := e
      obtain ⟨hn, hb, hs⟩ := hse
      have hl := hloc rfl
      simp only [uniformRecord] at hn hb hs hl
      subst hn hb hs hl
      rfl
    rw [← he]
    exact StdMap.entriesAt_of_find? _ _ _ hc.1 hfind
  · intro pre post hsplit
    have hres : ∀ y ∈ res2.uniform_buffers, y.set = ub1.set →
        y.binding = (uniformRecord t1 ub1).Binding →
        sameRecord (uniformRecord t2 y) (uniformRecord t1 ub1) :=
      fun y hy h3 h4 => sameRecord_of_sameBuffer t2 t1 y ub1 (hres2 y hy h3 h4)
    have hb := SlotHeld_before_block (uniformRecord t1 ub1) t2 res2 _
      ub1.set ub2 pre post hsplit hres hheld
    have hxs : ub2.set = ub1.set := hsame.2.1
    rw [← hxs] at hb
    exact (SlotShared_of_SlotHeld _ t2 _ ub2 (sameRecord_of_sameBuffer t2 t1 ub2 ub1 hsame) hb).2
  · intro pre post hsplit hpre
    apply reflectUniformBuffer_of_SlotFree
    apply foldl_invariant (fun s => SlotFree (uniformRecord t1 ub1) (blueprint s ub1.set))
    · intro y hy s hs
      apply SlotFree_reflectUniformBuffer _ t1 s y ub1.set _ hs
      intro hyset hrec
      exact hpre y hy ⟨hrec.1, hyset, hrec.2.1, hrec.2.2⟩
    apply foldl_invariant (fun s => SlotFree (uniformRecord t1 ub1) (blueprint s ub1.set))
    · intro y _ s hs
      exact SlotFree_of_kept _ _ _ (reflectStorageBuffer_kept t1 s y ub1.set) hs
    intro k v hmem hs
    have := hfirst k v hmem
    rw [(eq_iff_sameRecord _ _).2 hs] at this
    exact absurd this (by simp)

/-- C1 witness: `Camera` (set 0, binding 0, 64 bytes) declared by a vertex stage
and by a fragment stage of a fresh shader, with a geometry stage that declares
no uniform buffer reflected in between, is one entry with the stage `All`. -/
theorem C1_shared_uniform_buffer_is_one_entry_witness :
    StdMap.entriesAt
        (blueprint (reflectStages []
          (Reflect ShaderType.Fragment fragmentStage
            (reflectStages [(ShaderType.Geometry, {})]
              (Reflect ShaderType.Vertex vertexStage {}))))
          0).UniformBuffers 0 =
      [{ Name := "Camera", Location := ShaderType.All, Binding := 0, Size := 64 }] :=
  (C1_shared_uniform_buffer_is_one_entry {} ShaderType.Vertex ShaderType.Fragment
    vertexStage fragmentStage [(ShaderType.Geometry, {})] [] cameraBlock cameraBlock
    (by decide)
    (by simp [vertexStage]) (by simp [fragmentStage]) ⟨rfl, rfl, rfl, rfl⟩
    (by
      intro x hx hs hb
      simp only [vertexStage, List.mem_cons, List.mem_singleton, List.not_mem_nil,
        or_false] at hx
      rcases hx with rfl | rfl
      · exact absurd hb (by decide)
      · exact ⟨rfl, rfl, rfl, rfl⟩)
    (by
      intro x hx hs hb
      simp only [fragmentStage, List.mem_cons, List.mem_singleton, List.not_mem_nil,
        or_false] at hx
      subst hx
      exact ⟨rfl, rfl, rfl, rfl⟩)
    (by
      intro st hst x hx
      simp only [List.mem_singleton] at hst
      subst hst
      exact absurd hx (List.not_mem_nil _))
    (by
      intro st hst
      exact absurd hst (List.not_mem_nil _))
    (by simp [StdMap.WF, blueprint, StdMap.getD, StdMap.find?])
    (by
      intro k v h
      simp [blueprint, StdMap.getD, StdMap.find?] at h)).1

/-! ### Push-constant ranges -/

theorem reflectStorageBuffer_ranges (t : ShaderType) (sh : Shader) (sb : BufferResource) :
    (reflectStorageBuffer t sh sb).m_PushConstantRanges = sh.m_PushConstantRanges := by
  unfold reflectStorageBuffer
  simp only
  split <;> exact ensureSet_m_PushConstantRanges sh sb.set

theorem reflectUniformBuffer_ranges (t : ShaderType) (sh : Shader) (ub : BufferResource) :
    (reflectUniformBuffer t sh ub).m_PushConstantRanges = sh.m_PushConstantRanges := by
  unfold reflectUniformBuffer
  simp only
  split <;> exact ensureSet_m_PushConstantRanges sh ub.set

theorem foldl_ranges_unchanged {α : Type} (f : Shader → α → Shader)
    (hf : ∀ s x, (f s x).m_PushConstantRanges = s.m_PushConstantRanges)
    (l : List α) (sh : Shader) :
    (l.foldl f sh).m_PushConstantRanges = sh.m_PushConstantRanges := by
  induction l generalizing sh with
  | nil => rfl
  | cons a rest ih => rw [List.foldl_cons, ih, hf]

theorem pushConstantLoop_ranges (t : ShaderType) (l : List BufferResource) (sh : Shader) :
    (l.foldl (reflectPushConstant t) sh).m_PushConstantRanges =
      (l.map (fun pc => (t, pc))).foldl appendRange sh.m_PushConstantRanges := by
  induction l generalizing sh with
  | nil => rfl
  | cons a rest ih =>
    rw [List.foldl_cons, ih]
    rfl

/-- The range list after `Reflect` depends only on the range list before it and
on the push-constant blocks of the stage. -/
theorem Reflect_ranges (t : ShaderType) (res : ShaderResources) (sh : Shader) :
    (Reflect t res sh).m_PushConstantRanges =
      (res.push_constant_buffers.map (fun pc => (t, pc))).foldl appendRange
        sh.m_PushConstantRanges := by
  unfold Reflect
  simp only
  rw [foldl_ranges_unchanged (reflectStorageImage t) (fun s x => rfl),
    foldl_ranges_unchanged (reflectSampledImage t) (fun s x => rfl),
    pushConstantLoop_ranges,
    foldl_ranges_unchanged _ (reflectUniformBuffer_ranges t),
    foldl_ranges_unchanged _ (reflectStorageBuffer_ranges t)]

theorem reflectStages_ranges (stages : List (ShaderType × ShaderResources)) (sh : Shader) :
    (reflectStages stages sh).m_PushConstantRanges =
      (pushConstantBlocks stages).foldl appendRange sh.m_PushConstantRanges := by
  unfold reflectStages pushConstantBlocks
  induction stages generalizing sh with
  | nil => rfl
  | cons st rest ih =>
    rw [List.foldl_cons, ih, Reflect_ranges, List.flatMap_cons, List.foldl_append]

theorem nextPushConstantOffset_snoc (ranges : List VkPushConstantRange)
    (r : VkPushConstantRange) :
    nextPushConstantOffset (ranges ++ [r]) = (r.offset + r.size) % 2 ^ 32 := by
  simp [nextPushConstantOffset]

theorem foldl_appendRange (blocks : List (ShaderType × BufferResource))
    (ranges : List VkPushConstantRange) :
    blocks.foldl appendRange ranges =
      ranges ++ packedRanges (nextPushConstantOffset ranges) blocks := by
  induction blocks generalizing ranges with
  | nil => simp [packedRanges]
  | cons b bs ih =>
    rw [List.foldl_cons, ih]
    unfold appendRange
    rw [nextPushConstantOffset_snoc]
    simp [packedRanges]

theorem length_packedRanges (base : Nat) (blocks : List (ShaderType × BufferResource)) :
    (packedRanges base blocks).length = blocks.length := by
  induction blocks generalizing base with
  | nil => rfl
  | cons b bs ih => simp [packedRanges, ih]

theorem getElem?_packedRanges (blocks : List (ShaderType × BufferResource)) (base k : Nat)
    (b : ShaderType × BufferResource) (hbase : base < 2 ^ 32) (hk : blocks[k]? = some b) :
    (packedRanges base blocks)[k]? =
      some { stageFlags := ShaderTypeToVulkan b.1,
             offset := (base + ((blocks.take k).map blockSize).sum) % 2 ^ 32,
             size := blockSize b } := by
  induction blocks generalizing base k with
  | nil => simp at hk
  | cons c cs ih =>
    cases k with
    | zero =>
      simp only [List.getElem?_cons_zero, Option.some.injEq] at hk
      subst hk
      simp only [packedRanges, List.getElem?_cons_zero, List.take_zero, List.map_nil,
        List.sum_nil, Nat.add_zero, Nat.mod_eq_of_lt hbase]
    | succ k =>
      simp only [List.getElem?_cons_succ] at hk
      simp only [packedRanges, List.getElem?_cons_succ, List.take_succ_cons, List.map_cons,
        List.sum_cons]
      rw [ih ((base + blockSize c) % 2 ^ 32) k (Nat.mod_lt _ (by norm_num)) hk]
      congr 2
      rw [Nat.mod_add_mod, Nat.add_assoc]

/-- C2: starting from an empty range list, after `Reflect` has processed the
push-constant blocks of any sequence of stages, there is one range per block,
range `k` has the 32-bit size of block `k` and starts at the sum of the sizes of
blocks `0..k-1` modulo `2^32`; so range 0 starts at 0 and every later range
starts at the previous range's offset plus size (modulo `2^32`). -/
theorem C2_push_constant_ranges_back_to_back (stages : List (ShaderType × ShaderResources))
    (sh : Shader) (hempty : sh.m_PushConstantRanges = []) :
    (reflectStages stages sh).m_PushConstantRanges.length = (pushConstantBlocks stages).length ∧
    (∀ k b, (pushConstantBlocks stages)[k]? = some b →
      (reflectStages stages sh).m_PushConstantRanges[k]? =
        some (VkPushConstantRange.mk (ShaderTypeToVulkan b.1)
          ((((pushConstantBlocks stages).take k).map blockSize).sum % 2 ^ 32)
          (b.2.declaredSize % 2 ^ 32))) ∧
    (∀ r, (reflectStages stages sh).m_PushConstantRanges[0]? = some r → r.offset = 0) ∧
    (∀ k r q, (reflectStages stages sh).m_PushConstantRanges[k]? = some r →
      (reflectStages stages sh).m_PushConstantRanges[k + 1]? = some q →
      q.offset = (r.offset + r.size) % 2 ^ 32) := by
  have hranges : (reflectStages stages sh).m_PushConstantRanges =
      packedRanges 0 (pushConstantBlocks stages) := by
    rw [reflectStages_ranges, foldl_appendRange, hempty]
    simp [nextPushConstantOffset]
  have hidx : ∀ k b, (pushConstantBlocks stages)[k]? = some b →
      (packedRanges 0 (pushConstantBlocks stages))[k]? =
        some (VkPushConstantRange.mk (ShaderTypeToVulkan b.1)
          ((((pushConstantBlocks stages).take k).map blockSize).sum % 2 ^ 32)
          (b.2.declaredSize % 2 ^ 32)) := by
    intro k b hk
    have := getElem?_packedRanges (pushConstantBlocks stages) 0 k b (by norm_num) hk
    simpa [blockSize] using this
  have hlen := length_packedRanges 0 (pushConstantBlocks stages)
  rw [hranges]
  refine ⟨hlen, hidx, ?_, ?_⟩
  · intro r hr
    have h0 : 0 < (pushConstantBlocks stages).length := by
      rw [← hlen]
      exact (List.getElem?_eq_some_iff.1 hr).1
    have hb := List.getElem?_eq_getElem h0
    rw [hidx 0 _ hb] at hr
    injection hr with hr
    subst hr
    simp
  · intro k r q hr hq
    have h1 : k + 1 < (pushConstantBlocks stages).length := by
      rw [← hlen]
      exact (List.getElem?_eq_some_iff.1 hq).1
    have h0 : k < (pushConstantBlocks stages).length := by omega
    have hb0 := List.getElem?_eq_getElem h0
    have hb1 := List.getElem?_eq_getElem h1
    rw [hidx k _ hb0] at hr
    rw [hidx (k + 1) _ hb1] at hq
    injection hr with hr
    injection hq with hq
    subst hr hq
    simp only
    rw [List.take_succ, hb0]
    simp only [Option.toList_some, List.map_append, List.map_cons, List.map_nil,
      List.sum_append, List.sum_cons, List.sum_nil, Nat.add_zero]
    rw [Nat.mod_add_mod]
    rfl

/-- C2 witness: a vertex stage with a 16-byte block followed by a fragment stage
with an 8-byte block gives the ranges (offset 0, size 16) and (offset 16,
size 8). -/
theorem C2_push_constant_ranges_back_to_back_witness :
    (reflectStages [(ShaderType.Vertex, vertexStage), (ShaderType.Fragment, fragmentStage)]
        {}).m_PushConstantRanges[1]? =
      some (VkPushConstantRange.mk VK_SHADER_STAGE_FRAGMENT_BIT 16 8) :=
  (C2_push_constant_ranges_back_to_back
    [(ShaderType.Vertex, vertexStage), (ShaderType.Fragment, fragmentStage)] {} rfl).2.1 1
    (ShaderType.Fragment, pushBlock 8) rfl

end Shader

namespace RenderThread

/-! ### Drain order, execute-one and shutdown of the render thread -/

/-- C3 (as stated, refuted): with closures 0 and 1 queued in that order and the
execute-all flag set, one worker pass of `ThreadRun` invokes closure 1 before
closure 0 when the execute-one flag is set as well. -/
theorem C3_execute_all_flag_alone_does_not_fix_order :
    bothFlagsInput.m_ExecuteAll = true ∧
    bothFlagsInput.m_CommandBuffer = [0, 1] ∧
    ThreadRunIteration bothFlagsInput =
      LoopStep.next { bothFlagsInput with
        invoked := [(ThreadId.worker, 1), (ThreadId.worker, 0)]
        m_CommandBuffer := []
        m_ExecuteAll := false
        m_ExecuteOne := false } ∧
    ¬ (∃ rt1, ThreadRunIteration bothFlagsInput = LoopStep.next rt1 ∧
        rt1.invoked = bothFlagsInput.m_CommandBuffer.map (fun c => (ThreadId.worker, c))) := by
  refine ⟨rfl, rfl, by decide, ?_⟩
  rintro ⟨rt1, h1, h2⟩
  have h3 : ThreadRunIteration bothFlagsInput =
      LoopStep.next { bothFlagsInput with
        invoked := [(ThreadId.worker, 1), (ThreadId.worker, 0)]
        m_CommandBuffer := []
        m_ExecuteAll := false
        m_ExecuteOne := false } := by decide
  rw [h3] at h1
  injection h1 with h1
  subst h1
  revert h2
  decide

/-- C3 (amended): a drain-all runs the backlog in enqueue order, each closure
once, and empties the command buffer, both for `WaitAll` with threading disabled
and for a worker pass of a running thread over a non-empty buffer with the
execute-all flag set and the execute-one flag clear.  With both flags set the
pass runs the last closure first, then the others in enqueue order. -/
theorem C3_drain_all_in_enqueue_order (rt : RenderThread) :
    (rt.m_Enabled = false →
      WaitAll rt = { rt with
        invoked := rt.invoked ++ rt.m_CommandBuffer.map (fun c => (ThreadId.caller, c))
        m_CommandBuffer := [] }) ∧
    (rt.m_Running = true → rt.m_ExecuteAll = true → rt.m_ExecuteOne = false →
      rt.m_CommandBuffer ≠ [] →
      ThreadRunIteration rt = LoopStep.next { rt with
        invoked := rt.invoked ++ rt.m_CommandBuffer.map (fun c => (ThreadId.worker, c))
        m_CommandBuffer := []
        m_ExecuteAll := false }) ∧
    (∀ cs c, rt.m_Running = true → rt.m_ExecuteAll = true → rt.m_ExecuteOne = true →
      rt.m_CommandBuffer = cs ++ [c] →
      ThreadRunIteration rt = LoopStep.next { rt with
        invoked := rt.invoked ++ (ThreadId.worker, c) :: cs.map (fun c => (ThreadId.worker, c))
        m_CommandBuffer := []
        m_ExecuteAll := false
        m_ExecuteOne := false }) := by
  refine ⟨?_, ?_, ?_⟩
  · intro h
    simp [WaitAll, ExecuteCommands, h]
  · intro hrun hall hone hbuf
    simp [ThreadRunIteration, signalPredicate, queuePredicate, executeOneBranch,
      executeAllBranch, ExecuteCommands, hrun, hall, hone, hbuf]
  · intro cs c hrun hall hone hbuf
    simp [ThreadRunIteration, signalPredicate, queuePredicate, executeOneBranch,
      executeAllBranch, ExecuteCommands, hrun, hall, hone, hbuf]

/-- C3 witness: the three cases of the drain-all theorem at concrete render
threads. -/
theorem C3_drain_all_in_enqueue_order_witness :
    WaitAll disabledOneQueued = { disabledOneQueued with
        invoked := [(ThreadId.caller, 0)], m_CommandBuffer := [] } ∧
    ThreadRunIteration { bothFlagsInput with m_ExecuteOne := false } =
      LoopStep.next { bothFlagsInput with
        invoked := [(ThreadId.worker, 0), (ThreadId.worker, 1)]
        m_CommandBuffer := [], m_ExecuteAll := false, m_ExecuteOne := false } ∧
    ThreadRunIteration bothFlagsInput =
      LoopStep.next { bothFlagsInput with
        invoked := [(ThreadId.worker, 1), (ThreadId.worker, 0)]
        m_CommandBuffer := [], m_ExecuteAll := false, m_ExecuteOne := false } :=
  ⟨(C3_drain_all_in_enqueue_order disabledOneQueued).1 rfl,
   (C3_drain_all_in_enqueue_order { bothFlagsInput with m_ExecuteOne := false }).2.1
      rfl rfl rfl (by decide),
   (C3_drain_all_in_enqueue_order bothFlagsInput).2.2 [0] 1 rfl rfl rfl rfl⟩

/-- C4: on a running thread with only the execute-one flag set and a command
buffer `C1..Cn` (`n ≥ 1`), one worker pass invokes `Cn` and nothing else, leaves
`C1..C(n-1)` in the buffer in unchanged order, and clears the execute-one flag. -/
theorem C4_execute_one_runs_most_recent (rt : RenderThread) (cs : List Command) (c : Command)
    (hrun : rt.m_Running = true) (hone : rt.m_ExecuteOne = true)
    (hall : rt.m_ExecuteAll = false) (hbuf : rt.m_CommandBuffer = cs ++ [c]) :
    ThreadRunIteration rt = LoopStep.next { rt with
      invoked := rt.invoked ++ [(ThreadId.worker, c)]
      m_CommandBuffer := cs
      m_ExecuteOne := false } := by
  simp [ThreadRunIteration, signalPredicate, queuePredicate, executeOneBranch,
    executeAllBranch, hrun, hall, hone, hbuf]

/-- C4 witness: closures 0 and 1 queued, only execute-one set: closure 1 runs and
closure 0 stays queued. -/
theorem C4_execute_one_runs_most_recent_witness :
    ThreadRunIteration { bothFlagsInput with m_ExecuteAll := false } =
      LoopStep.next { bothFlagsInput with
        invoked := [(ThreadId.worker, 1)]
        m_CommandBuffer := [0], m_ExecuteAll := false, m_ExecuteOne := false } :=
  C4_execute_one_runs_most_recent { bothFlagsInput with m_ExecuteAll := false } [0] 1
    rfl rfl rfl rfl

/-- The steps of the worker from the waits back to the waits, with no call in
between, are one pass of the loop body: three steps through the execute-one
branch, two steps past it. -/
theorem workerSteps_eq_ThreadRunIteration (rt rt1 : RenderThread) (hthread : rt.m_Thread = true)
    (h : ThreadRunIteration rt = LoopStep.next rt1) :
    (rt.m_ExecuteOne = true →
      run { rt := rt } [Event.workerStep, Event.workerStep, Event.workerStep] =
        some { rt := rt1 }) ∧
    (rt.m_ExecuteOne = false →
      run { rt := rt } [Event.workerStep, Event.workerStep] = some { rt := rt1 }) := by
  unfold ThreadRunIteration at h
  split_ifs at h with h1 h2 h3
  have hrun : rt.m_Running = true := by simpa using h3
  have hne : rt.m_CommandBuffer ≠ [] := by
    intro hnil
    simp [queuePredicate, hrun, hnil] at h2
  refine ⟨?_, ?_⟩
  · intro hone
    obtain ⟨c, hc⟩ : ∃ c, rt.m_CommandBuffer.getLast? = some c := by
      cases hl : rt.m_CommandBuffer.getLast? with
      | none => exact absurd (List.getLast?_eq_none_iff.1 hl) hne
      | some c => exact ⟨c, rfl⟩
    simp only [executeOneBranch, hone, if_true, hc] at h
    injection h with h
    subst h
    simp [run, step, workerStep, hthread, h1, h2, hrun, hone, hc, hne]
  · intro hone
    simp only [executeOneBranch, hone, Bool.false_eq_true, if_false] at h
    injection h with h
    subst h
    simp [run, step, workerStep, hthread, h1, h2, hrun, hone]

/-- C5 (the code at the failing input): closure 0 is queued and `ExecuteOne` is
called; the worker invokes closure 0; before it reaches `pop_back()` another
thread queues closure 1; `pop_back()` then removes closure 1.  When the pass has
ended, the invoked closure 0 is still in the command buffer and closure 1, never
invoked, is gone; after one more `ExecuteOne` the worker invokes closure 0 a
second time. -/
theorem C5_queue_between_invoke_and_pop_reruns_closure :
    (run { rt := fresh true false false false } racingQueue).map
        (fun s => (s.worker, s.rt.invoked, s.rt.m_CommandBuffer, s.rt.queued)) =
      some (WorkerAt.waits, [(ThreadId.worker, 0)], [0], 2) ∧
    (run { rt := fresh true false false false }
        (racingQueue ++ [Event.executeOne, Event.workerStep])).map
        (fun s => (s.rt.invoked, s.rt.m_CommandBuffer)) =
      some ([(ThreadId.worker, 0), (ThreadId.worker, 0)], [0]) := by
  refine ⟨by decide, by decide⟩

/-- C6: after `RequestJoin` both wait predicates of the worker hold whatever the
command buffer and the mode flags are, the next pass leaves the loop at the
running check with the command buffer and the invocation log untouched, and a
pass leaves the loop exactly when the running flag is false. -/
theorem C6_request_join_leaves_loop (rt : RenderThread) :
    signalPredicate (RequestJoin rt) = true ∧
    queuePredicate (RequestJoin rt) = true ∧
    ThreadRunIteration (RequestJoin rt) =
      LoopStep.exit { rt with m_Running := false, m_Thread := false } ∧
    ((∃ rt1, ThreadRunIteration rt = LoopStep.exit rt1) ↔ rt.m_Running = false) := by
  refine ⟨by simp [signalPredicate, RequestJoin], by simp [queuePredicate, RequestJoin],
    by simp [ThreadRunIteration, signalPredicate, queuePredicate, RequestJoin], ?_⟩
  constructor
  · rintro ⟨rt1, h1⟩
    unfold ThreadRunIteration at h1
    split at h1
    · exact absurd h1 (by simp)
    · split at h1
      · exact absurd h1 (by simp)
      · split at h1
        · rename_i hrun
          simpa using hrun
        · cases hone : executeOneBranch rt with
          | none => rw [hone] at h1; exact absurd h1 (by simp)
          | some rt2 => rw [hone] at h1; exact absurd h1 (by simp)
  · intro hrun
    exact ⟨{ rt with m_Running := false, m_Thread := false },
      by simp [ThreadRunIteration, signalPredicate, queuePredicate, hrun]⟩

/-- C7: with the render thread disabled, `Start` changes nothing (no worker, same
running flag), and `WaitAll` invokes the whole backlog on the calling thread in
enqueue order and empties the buffer, changing neither the execute-all flag nor
the number of `WaitCommands` calls. -/
theorem C7_disabled_start_and_wait_all (rt : RenderThread) (h : rt.m_Enabled = false) :
    Start rt = rt ∧
    WaitAll rt = { rt with
      invoked := rt.invoked ++ rt.m_CommandBuffer.map (fun c => (ThreadId.caller, c))
      m_CommandBuffer := [] } ∧
    (WaitAll rt).m_ExecuteAll = rt.m_ExecuteAll ∧
    (WaitAll rt).waitCommandsCalls = rt.waitCommandsCalls ∧
    (WaitAll rt).m_Thread = rt.m_Thread := by
  simp [Start, WaitAll, ExecuteCommands, h]

/-- C7 witness: threading disabled and one closure queued. -/
theorem C7_disabled_start_and_wait_all_witness :
    Start disabledOneQueued = disabledOneQueued ∧
    WaitAll disabledOneQueued = { disabledOneQueued with
      invoked := [(ThreadId.caller, 0)], m_CommandBuffer := [] } ∧
    (WaitAll disabledOneQueued).m_ExecuteAll = false ∧
    (WaitAll disabledOneQueued).waitCommandsCalls = 0 ∧
    (WaitAll disabledOneQueued).m_Thread = false :=
  C7_disabled_start_and_wait_all disabledOneQueued rfl

/-- C8 (the code at the failing input): with the render thread disabled and one
closure queued, `ExecuteOne` invokes nothing and leaves the closure in the
command buffer; it only raises the execute-one flag. -/
theorem C8_execute_one_disabled_invokes_nothing :
    disabledOneQueued.m_Enabled = false ∧
    disabledOneQueued.m_CommandBuffer = [0] ∧
    (ExecuteOne disabledOneQueued).invoked = [] ∧
    (ExecuteOne disabledOneQueued).m_CommandBuffer = [0] ∧
    ExecuteOne disabledOneQueued = { disabledOneQueued with m_ExecuteOne := true } := by
  decide

end RenderThread

/-! ### Draw-list keys -/

theorem StaticMeshKey.eqConst_iff (a b : StaticMeshKey) : a.eqConst b = true ↔ a = b := by
  cases a
  cases b
  simp [StaticMeshKey.eqConst, and_assoc]

/-- C9: `a == b` holds exactly when mesh id, registry reference and submesh index
agree; key equality is reflexive, symmetric and transitive; and the const and the
non-const `operator==` agree. -/
theorem C9_key_equality_is_triple_equality (a b c : StaticMeshKey) :
    (a.eq b = true ↔
      a.MeshID = b.MeshID ∧ a.Registry = b.Registry ∧ a.SubmeshIndex = b.SubmeshIndex) ∧
    a.eq a = true ∧
    a.eq b = b.eq a ∧
    (a.eq b = true → b.eq c = true → a.eq c = true) ∧
    a.eqConst b = a.eq b := by
  have hiff : ∀ x y : StaticMeshKey, x.eq y = true ↔
      x.MeshID = y.MeshID ∧ x.Registry = y.Registry ∧ x.SubmeshIndex = y.SubmeshIndex := by
    intro x y
    simp [StaticMeshKey.eq, and_assoc]
  refine ⟨hiff a b, (hiff a a).2 ⟨rfl, rfl, rfl⟩, ?_, ?_, rfl⟩
  · rw [Bool.eq_iff_iff, hiff, hiff]
    constructor <;> rintro ⟨h1, h2, h3⟩ <;> exact ⟨h1.symm, h2.symm, h3.symm⟩
  · intro hab hbc
    obtain ⟨h1, h2, h3⟩ := (hiff a b).1 hab
    obtain ⟨h4, h5, h6⟩ := (hiff b c).1 hbc
    exact (hiff a c).2 ⟨h1.trans h4, h2.trans h5, h3.trans h6⟩

/-- C9 witness: transitivity used on three equal keys. -/
theorem C9_key_equality_is_triple_equality_witness :
    SceneRenderer.sampleKey.eq SceneRenderer.sampleKey = true :=
  (C9_key_equality_is_triple_equality SceneRenderer.sampleKey SceneRenderer.sampleKey
    SceneRenderer.sampleKey).2.2.2.1 (by decide) (by decide)

/-! ### Instance batching -/

theorem KeyMap.entriesAt_put {V : Type} (m : KeyMap V) (key k : StaticMeshKey)
    (dflt : V) (f : V → V) :
    KeyMap.entriesAt (KeyMap.put m key dflt f) k =
      if key = k then KeyMap.touch dflt f (KeyMap.entriesAt m k) else KeyMap.entriesAt m k := by
  induction m with
  | nil =>
    by_cases h : key = k
    · simp [KeyMap.put, KeyMap.entriesAt, KeyMap.touch, h, StaticMeshKey.eqConst_iff]
    · simp [KeyMap.put, KeyMap.entriesAt, h, StaticMeshKey.eqConst_iff]
  | cons e rest ih =>
    obtain ⟨k1, v⟩ := e
    unfold KeyMap.put
    by_cases h1 : k1 = key
    · subst h1
      have hk : k1.eqConst k1 = true := (StaticMeshKey.eqConst_iff _ _).2 rfl
      by_cases h : k1 = k
      · subst h
        simp [KeyMap.entriesAt, KeyMap.touch, hk]
      · have hk2 : k1.eqConst k = false := by
          rw [Bool.eq_false_iff]
          exact fun hh => h ((StaticMeshKey.eqConst_iff _ _).1 hh)
        simp [KeyMap.entriesAt, hk, hk2, h]
    · have hk : k1.eqConst key = false := by
        rw [Bool.eq_false_iff]
        exact fun hh => h1 ((StaticMeshKey.eqConst_iff _ _).1 hh)
      simp only [hk, Bool.false_eq_true, if_false]
      by_cases h : key = k
      · subst h
        have ih2 := ih
        simp only [if_true] at ih2
        simp only [KeyMap.entriesAt, List.filter_cons, hk, Bool.false_eq_true, if_false,
          if_true] at ih2 ⊢
        exact ih2
      · simp only [h, if_false] at ih ⊢
        by_cases h2 : k1.eqConst k = true
        · simp only [KeyMap.entriesAt, List.filter_cons, h2, if_true, List.map_cons] at ih ⊢
          rw [ih]
        · simp only [KeyMap.entriesAt, List.filter_cons, h2, if_false] at ih ⊢
          exact ih

/-- A key with a registry is hashed without harm: `update` is `put`. -/
theorem KeyMap.update_of_registry {V : Type} (m : KeyMap V) (key : StaticMeshKey) (dflt : V)
    (f : V → V) (h : key.Registry ≠ none) :
    KeyMap.update m key dflt f = some (KeyMap.put m key dflt f) := by
  unfold KeyMap.update
  cases hr : key.Registry with
  | none => exact absurd hr h
  | some a => rfl

/-- A key without a registry cannot be hashed, whatever `GetID` returns. -/
theorem KeyMap.update_eq_none_iff {V : Type} (GetID : Nat → Nat) (m : KeyMap V)
    (key : StaticMeshKey) (dflt : V) (f : V → V) :
    KeyMap.update m key dflt f = none ↔ StaticMeshKey.hash GetID key = none := by
  unfold KeyMap.update StaticMeshKey.hash
  cases key.Registry <;> simp

/-- The instance blocks stored under a key after an entry has been added or
extended by one block. -/
theorem KeyMap.touch_Data (dflt : TransformBuffer) (rows : TransformBufferData)
    (l : List TransformBuffer) (hd : dflt.Data = []) :
    (KeyMap.touch dflt (fun tb => { tb with Data := tb.Data ++ [rows] }) l).map
        (fun tb => tb.Data) =
      KeyMap.touch [] (fun d => d ++ [rows]) (l.map (fun tb => tb.Data)) := by
  cases l with
  | nil => simp [KeyMap.touch, hd]
  | cons v vs => simp [KeyMap.touch]

namespace SceneRenderer

theorem submitsKey_iff (key : StaticMeshKey) (s : Submission) :
    submitsKey key s = true ↔
      s.mesh.ID = key.MeshID ∧ s.materialRegistry = key.Registry ∧
        key.SubmeshIndex < s.mesh.submeshCount := by
  simp [submitsKey, and_assoc]

theorem submitSubmesh_of_registry (s : Submission) (r : SceneRenderer) (i : Nat)
    (hreg : s.materialRegistry ≠ none) :
    submitSubmesh s r i = some
      { MeshTransforms :=
          KeyMap.put r.MeshTransforms ⟨s.mesh.ID, s.materialRegistry, i⟩
            { Offset := packedEnd r.MeshTransforms }
            (fun tb => { tb with Data := tb.Data ++ [transformRows s.transform] })
        m_DrawList :=
          KeyMap.put r.m_DrawList ⟨s.mesh.ID, s.materialRegistry, i⟩ {}
            (fun cmd => { entity := s.entity, Mesh := some s.mesh.ref,
                          SubmeshIndex := i, Instances := cmd.Instances + 1 }) } := by
  unfold submitSubmesh
  simp only
  rw [KeyMap.update_of_registry _ _ _ _ hreg, KeyMap.update_of_registry _ _ _ _ hreg]

/-- The instance blocks and the draw command stored under `k` after the first `n`
submeshes of a submission with a registry have been bucketed. -/
theorem entriesAt_fold_range (s : Submission) (r : SceneRenderer) (k : StaticMeshKey) (n : Nat)
    (hreg : s.materialRegistry ≠ none) :
    ∃ r1, (List.range n).foldlM (fun r i => submitSubmesh s r i) r = some r1 ∧
    (KeyMap.entriesAt r1.MeshTransforms k).map (fun tb => tb.Data) =
      (if s.mesh.ID = k.MeshID ∧ s.materialRegistry = k.Registry ∧ k.SubmeshIndex < n then
        KeyMap.touch [] (fun d => d ++ [transformRows s.transform])
          ((KeyMap.entriesAt r.MeshTransforms k).map (fun tb => tb.Data))
      else (KeyMap.entriesAt r.MeshTransforms k).map (fun tb => tb.Data)) ∧
    KeyMap.entriesAt r1.m_DrawList k =
      (if s.mesh.ID = k.MeshID ∧ s.materialRegistry = k.Registry ∧ k.SubmeshIndex < n then
        KeyMap.touch {}
          (fun cmd => { entity := s.entity, Mesh := some s.mesh.ref,
                        SubmeshIndex := k.SubmeshIndex, Instances := cmd.Instances + 1 })
          (KeyMap.entriesAt r.m_DrawList k)
      else KeyMap.entriesAt r.m_DrawList k) := by
  obtain ⟨kid, kreg, kidx⟩ := k
  induction n with
  | zero => exact ⟨r, rfl, by simp, by simp⟩
  | succ n ih =>
    obtain ⟨r0, hr0, ihT, ihD⟩ := ih
    have hstep : (List.range (n + 1)).foldlM (fun r i => submitSubmesh s r i) r = some
        { MeshTransforms :=
            KeyMap.put r0.MeshTransforms ⟨s.mesh.ID, s.materialRegistry, n⟩
              { Offset := packedEnd r0.MeshTransforms }
              (fun tb => { tb with Data := tb.Data ++ [transformRows s.transform] })
          m_DrawList :=
            KeyMap.put r0.m_DrawList ⟨s.mesh.ID, s.materialRegistry, n⟩ {}
              (fun cmd => { entity := s.entity, Mesh := some s.mesh.ref,
                            SubmeshIndex := n, Instances := cmd.Instances + 1 }) } := by
      rw [List.range_succ, List.foldlM_append, hr0]
      simp only [Option.bind_eq_bind, Option.some_bind, List.foldlM_cons, List.foldlM_nil]
      rw [submitSubmesh_of_registry s r0 n hreg]
      rfl
    refine ⟨_, hstep, ?_, ?_⟩
    · simp only [KeyMap.entriesAt_put, StaticMeshKey.mk.injEq]
      by_cases hn : n = kidx
      · subst hn
        by_cases hc : s.mesh.ID = kid ∧ s.materialRegistry = kreg
        · have h1 : ¬ (s.mesh.ID = kid ∧ s.materialRegistry = kreg ∧ n < n) := by
            intro h
            exact Nat.lt_irrefl _ h.2.2
          simp only [h1, if_false] at ihT
          simp only [hc.1, hc.2, and_self, if_true, Nat.lt_succ_self]
          rw [KeyMap.touch_Data _ _ _ rfl, ihT]
        · have h1 : ¬ (s.mesh.ID = kid ∧ s.materialRegistry = kreg ∧ n < n) := by
            intro h
            exact hc ⟨h.1, h.2.1⟩
          have h2 : ¬ (s.mesh.ID = kid ∧ s.materialRegistry = kreg ∧ n < n + 1) := by
            intro h
            exact hc ⟨h.1, h.2.1⟩
          have h3 : ¬ (s.mesh.ID = kid ∧ s.materialRegistry = kreg ∧ True) := by
            intro h
            exact hc ⟨h.1, h.2.1⟩
          simp only [h1, if_false] at ihT
          simp only [h2, h3, if_false]
          exact ihT
      · have hlt : kidx < n + 1 ↔ kidx < n := by omega
        have h3 : ¬ (s.mesh.ID = kid ∧ s.materialRegistry = kreg ∧ n = kidx) := by
          intro h
          exact hn h.2.2
        simp only [h3, if_false, hlt]
        exact ihT
    · simp only [KeyMap.entriesAt_put, StaticMeshKey.mk.injEq]
      by_cases hn : n = kidx
      · subst hn
        by_cases hc : s.mesh.ID = kid ∧ s.materialRegistry = kreg
        · have h1 : ¬ (s.mesh.ID = kid ∧ s.materialRegistry = kreg ∧ n < n) := by
            intro h
            exact Nat.lt_irrefl _ h.2.2
          simp only [h1, if_false] at ihD
          simp only [hc.1, hc.2, and_self, if_true, Nat.lt_succ_self]
          rw [ihD]
        · have h1 : ¬ (s.mesh.ID = kid ∧ s.materialRegistry = kreg ∧ n < n) := by
            intro h
            exact hc ⟨h.1, h.2.1⟩
          have h2 : ¬ (s.mesh.ID = kid ∧ s.materialRegistry = kreg ∧ n < n + 1) := by
            intro h
            exact hc ⟨h.1, h.2.1⟩
          have h3 : ¬ (s.mesh.ID = kid ∧ s.materialRegistry = kreg ∧ True) := by
            intro h
            exact hc ⟨h.1, h.2.1⟩
          simp only [h1, if_false] at ihD
          simp only [h2, h3, if_false]
          exact ihD
      · have hlt : kidx < n + 1 ↔ kidx < n := by omega
        have h3 : ¬ (s.mesh.ID = kid ∧ s.materialRegistry = kreg ∧ n = kidx) := by
          intro h
          exact hn h.2.2
        simp only [h3, if_false, hlt]
        exact ihD

theorem entriesAt_Submit_of_submits (r : SceneRenderer) (s : Submission) (k : StaticMeshKey)
    (hreg : s.materialRegistry ≠ none) (h : submitsKey k s = true) :
    ∃ r1, SubmitStaticMesh r s = some r1 ∧
    (KeyMap.entriesAt r1.MeshTransforms k).map (fun tb => tb.Data) =
      KeyMap.touch [] (fun d => d ++ [transformRows s.transform])
        ((KeyMap.entriesAt r.MeshTransforms k).map (fun tb => tb.Data)) ∧
    KeyMap.entriesAt r1.m_DrawList k =
      KeyMap.touch {}
        (fun cmd => { entity := s.entity, Mesh := some s.mesh.ref,
                      SubmeshIndex := k.SubmeshIndex, Instances := cmd.Instances + 1 })
        (KeyMap.entriesAt r.m_DrawList k) := by
  have hc := (submitsKey_iff k s).1 h
  obtain ⟨r1, hr1, hT, hD⟩ := entriesAt_fold_range s r k s.mesh.submeshCount hreg
  simp only [hc, and_self, if_true] at hT hD
  exact ⟨r1, hr1, hT, hD⟩

theorem entriesAt_Submit_of_not_submits (r : SceneRenderer) (s : Submission) (k : StaticMeshKey)
    (hreg : s.materialRegistry ≠ none) (h : submitsKey k s = false) :
    ∃ r1, SubmitStaticMesh r s = some r1 ∧
    (KeyMap.entriesAt r1.MeshTransforms k).map (fun tb => tb.Data) =
      (KeyMap.entriesAt r.MeshTransforms k).map (fun tb => tb.Data) ∧
    KeyMap.entriesAt r1.m_DrawList k = KeyMap.entriesAt r.m_DrawList k := by
  have hc : ¬ (s.mesh.ID = k.MeshID ∧ s.materialRegistry = k.Registry ∧
      k.SubmeshIndex < s.mesh.submeshCount) := by
    rw [← submitsKey_iff, h]
    simp
  obtain ⟨r1, hr1, hT, hD⟩ := entriesAt_fold_range s r k s.mesh.submeshCount hreg
  simp only [hc, if_false] at hT hD
  exact ⟨r1, hr1, hT, hD⟩

theorem entriesAt_foldlM_of_not_submits (subs : List Submission) (r : SceneRenderer)
    (k : StaticMeshKey) (hreg : ∀ s ∈ subs, s.materialRegistry ≠ none)
    (h : ∀ s ∈ subs, submitsKey k s = false) :
    ∃ r1, subs.foldlM SubmitStaticMesh r = some r1 ∧
    (KeyMap.entriesAt r1.MeshTransforms k).map (fun tb => tb.Data) =
      (KeyMap.entriesAt r.MeshTransforms k).map (fun tb => tb.Data) ∧
    KeyMap.entriesAt r1.m_DrawList k = KeyMap.entriesAt r.m_DrawList k := by
  induction subs generalizing r with
  | nil => exact ⟨r, rfl, rfl, rfl⟩
  | cons s rest ih =>
    obtain ⟨r0, hr0, hT0, hD0⟩ := entriesAt_Submit_of_not_submits r s k
      (hreg s (List.mem_cons_self _ _)) (h s (List.mem_cons_self _ _))
    obtain ⟨r1, hr1, hT1, hD1⟩ := ih r0 (fun x hx => hreg x (List.mem_cons_of_mem _ hx))
      (fun x hx => h x (List.mem_cons_of_mem _ hx))
    refine ⟨r1, ?_, hT1.trans hT0, hD1.trans hD0⟩
    rw [List.foldlM_cons, hr0]
    exact hr1

/-- C10 (as stated, refuted): two submissions of one frame with equal keys (mesh
id 7, null registry, submesh 1): the first access to the maps hashes the key,
which dereferences the null registry, so the frame holds no entry for the
key.  A frame with two submissions under the key (7, registry 3, submesh 1)
and a third submission with a null registry ends the same way. -/
theorem C10_null_registry_key_cannot_be_hashed :
    submitsKey ⟨7, none, 1⟩ (nullRegistrySubmission 1 2) = true ∧
    submitsKey ⟨7, none, 1⟩ (nullRegistrySubmission 4 9) = true ∧
    StaticMeshKey.eqConst ⟨7, none, 1⟩ ⟨7, none, 1⟩ = true ∧
    StaticMeshKey.hash (fun registry => registry) ⟨7, none, 1⟩ = none ∧
    frame [nullRegistrySubmission 1 2, nullRegistrySubmission 4 9] = none ∧
    submitsKey sampleKey (sampleSubmission 1 2) = true ∧
    submitsKey sampleKey (sampleSubmission 4 9) = true ∧
    frame [sampleSubmission 1 2, nullRegistrySubmission 5 1, sampleSubmission 4 9] = none := by
  refine ⟨by decide, by decide, by decide, by decide, by decide, by decide, by decide,
    by decide⟩

/-- C10 (amended): in a frame in which every submission carries a registry, when
exactly two submissions bucket an instance under the same key (same mesh id,
same registry reference, same submesh index), the frame's `MeshTransforms` holds
exactly one `TransformBuffer` under that key, whose instance blocks are the rows
of the two transforms in submission order, and the draw list holds exactly one
`DrawCommand` under it, with `Instances == 2`. -/
theorem C10_equal_keys_share_one_entry (pre mid post : List Submission) (s1 s2 : Submission)
    (key : StaticMeshKey)
    (hreg : ∀ s ∈ pre ++ s1 :: (mid ++ s2 :: post), s.materialRegistry ≠ none)
    (h1 : submitsKey key s1 = true) (h2 : submitsKey key s2 = true)
    (hpre : ∀ s ∈ pre, submitsKey key s = false)
    (hmid : ∀ s ∈ mid, submitsKey key s = false)
    (hpost : ∀ s ∈ post, submitsKey key s = false) :
    ∃ r, frame (pre ++ s1 :: (mid ++ s2 :: post)) = some r ∧
    (KeyMap.entriesAt r.MeshTransforms key).map (fun tb => tb.Data) =
      [[{ r0 := ⟨s1.transform.c0.x, s1.transform.c1.x, s1.transform.c2.x, s1.transform.c3.x⟩
          r1 := ⟨s1.transform.c0.y, s1.transform.c1.y, s1.transform.c2.y, s1.transform.c3.y⟩
          r2 := ⟨s1.transform.c0.z, s1.transform.c1.z, s1.transform.c2.z, s1.transform.c3.z⟩
          r3 := ⟨s1.transform.c0.w, s1.transform.c1.w, s1.transform.c2.w, s1.transform.c3.w⟩ },
        { r0 := ⟨s2.transform.c0.x, s2.transform.c1.x, s2.transform.c2.x, s2.transform.c3.x⟩
          r1 := ⟨s2.transform.c0.y, s2.transform.c1.y, s2.transform.c2.y, s2.transform.c3.y⟩
          r2 := ⟨s2.transform.c0.z, s2.transform.c1.z, s2.transform.c2.z, s2.transform.c3.z⟩
          r3 := ⟨s2.transform.c0.w, s2.transform.c1.w, s2.transform.c2.w,
                 s2.transform.c3.w⟩ }]] ∧
    KeyMap.entriesAt r.m_DrawList key =
      [{ entity := s2.entity, Mesh := some s2.mesh.ref,
         SubmeshIndex := key.SubmeshIndex, Instances := 2 }] := by
  have hregpre : ∀ s ∈ pre, s.materialRegistry ≠ none :=
    fun s hs => hreg s (List.mem_append_left _ hs)
  have hreg1 : s1.materialRegistry ≠ none :=
    hreg s1 (List.mem_append_right _ (List.mem_cons_self _ _))
  have hregmid : ∀ s ∈ mid, s.materialRegistry ≠ none :=
    fun s hs => hreg s (List.mem_append_right _
      (List.mem_cons_of_mem _ (List.mem_append_left _ hs)))
  have hreg2 : s2.materialRegistry ≠ none :=
    hreg s2 (List.mem_append_right _
      (List.mem_cons_of_mem _ (List.mem_append_right _ (List.mem_cons_self _ _))))
  have hregpost : ∀ s ∈ post, s.materialRegistry ≠ none :=
    fun s hs => hreg s (List.mem_append_right _
      (List.mem_cons_of_mem _ (List.mem_append_right _ (List.mem_cons_of_mem _ hs))))
  obtain ⟨r0, hr0, hT0, hD0⟩ := entriesAt_foldlM_of_not_submits pre {} key hregpre hpre
  obtain ⟨r1, hr1, hT1, hD1⟩ := entriesAt_Submit_of_submits r0 s1 key hreg1 h1
  obtain ⟨r2, hr2, hT2, hD2⟩ := entriesAt_foldlM_of_not_submits mid r1 key hregmid hmid
  obtain ⟨r3, hr3, hT3, hD3⟩ := entriesAt_Submit_of_submits r2 s2 key hreg2 h2
  obtain ⟨r4, hr4, hT4, hD4⟩ := entriesAt_foldlM_of_not_submits post r3 key hregpost hpost
  refine ⟨r4, ?_, ?_, ?_⟩
  · unfold frame
    rw [List.foldlM_append, hr0]
    simp only [Option.bind_eq_bind, Option.some_bind, List.foldlM_cons]
    rw [hr1]
    simp only [Option.some_bind]
    rw [List.foldlM_append, hr2]
    simp only [Option.bind_eq_bind, Option.some_bind, List.foldlM_cons]
    rw [hr3]
    simp only [Option.some_bind]
    exact hr4
  · rw [hT4, hT3, hT2, hT1, hT0]
    simp [KeyMap.entriesAt, KeyMap.touch, transformRows]
  · rw [hD4, hD3, hD2, hD1, hD0]
    simp [KeyMap.entriesAt, KeyMap.touch]

/-- C10 witness: two instances of mesh 7 with registry 3, another mesh submitted
in between; the key of submesh 1 holds one entry with the rows of both
transforms. -/
theorem C10_equal_keys_share_one_entry_witness :
    (frame [otherSubmission, sampleSubmission 1 2, otherSubmission,
        sampleSubmission 4 9, otherSubmission]).map
        (fun r => ((KeyMap.entriesAt r.MeshTransforms sampleKey).map (fun tb => tb.Data),
          KeyMap.entriesAt r.m_DrawList sampleKey)) =
      some ([[{ r0 := ⟨2, 0, 0, 3⟩, r1 := ⟨0, 2, 0, 4⟩, r2 := ⟨0, 0, 2, 5⟩, r3 := ⟨0, 0, 0, 1⟩ },
              { r0 := ⟨9, 0, 0, 10⟩, r1 := ⟨0, 9, 0, 11⟩, r2 := ⟨0, 0, 9, 12⟩,
                r3 := ⟨0, 0, 0, 1⟩ }]],
            [{ entity := some 4, Mesh := some 11, SubmeshIndex := 1, Instances := 2 }]) := by
  obtain ⟨r, hr, hT, hD⟩ :=
    C10_equal_keys_share_one_entry [otherSubmission] [otherSubmission] [otherSubmission]
      (sampleSubmission 1 2) (sampleSubmission 4 9) sampleKey (by decide) (by decide)
      (by decide) (by decide) (by decide) (by decide)
  simp only [List.singleton_append] at hr
  rw [hr]
  simp only [Option.map_some']
  rw [hT, hD]
  rfl

end SceneRenderer

namespace Shader

/-! ### Images seen by two stages, array sizes -/

/-- C11 (the code at the failing input): a sampler used at set 0, binding 2 by the
vertex stage and by the fragment stage of a fresh shader is recorded twice in the
blueprint of set 0, so two recorded resources have the binding number 2. -/
theorem C11_shared_sampled_image_is_recorded_twice :
    (blueprint (reflectStages [(ShaderType.Vertex, samplerOnlyStage),
        (ShaderType.Fragment, samplerOnlyStage)] {}) 0).SampledImages =
      [{ Name := "u_Albedo", Stage := ShaderType.Vertex, Set := 0, Binding := 2,
         ArraySize := 1 },
       { Name := "u_Albedo", Stage := ShaderType.Fragment, Set := 0, Binding := 2,
         ArraySize := 1 }] ∧
    ((blueprint (reflectStages [(ShaderType.Vertex, samplerOnlyStage),
        (ShaderType.Fragment, samplerOnlyStage)] {}) 0).SampledImages.map
      (fun image => image.Binding)) = [2, 2] := by
  decide

end Shader

namespace ShaderObject

/-! ### Hot reload -/

theorem DetermineShaderTypes_eq (s s1 : ShaderObject) (h : DetermineShaderTypes s = some s1) :
    s1 = { s with m_ShaderSources := s1.m_ShaderSources } := by
  unfold DetermineShaderTypes at h
  simp only at h
  split at h
  · exact absurd h (by simp)
  · injection h with h
    subst h
    rfl

theorem construct_vertexFile :
    construct acceptingTools (some vertexFile) = some builtVertexShader := by
  decide

/-- C12: when `DetermineShaderTypes` returns and the GLSL compilation then fails,
`TryRecompile` returns `false` and the object differs from the one before the
call only in the file contents, the file size and the stage sources: the SPIR-V
map, the blueprints, the uniform list, the push-constant ranges, the
push-constant uniform list, the texture list, the set-layout list and the pool
are the old ones, so no `Reflect` and no `CreateDescriptors` has run. -/
theorem C12_failed_recompile_keeps_reflected_state (tc : Toolchain) (disk : Option String)
    (s s1 : ShaderObject)
    (hscan : DetermineShaderTypes (ReadFile disk s) = some s1)
    (hfail : (CompileGlslToSpvAssembly tc
      { s1 with m_SpvCode := [], reflected := {}, m_PushConstantUniforms := [],
                m_Textures := [] }).1 = false) :
    TryRecompile tc disk s =
      some (false, { s with m_FileContents := (ReadFile disk s).m_FileContents,
                            m_FileSize := (ReadFile disk s).m_FileSize,
                            m_ShaderSources := s1.m_ShaderSources }) ∧
    ∀ r, TryRecompile tc disk s = some r →
      r.1 = false ∧ r.2.m_SpvCode = s.m_SpvCode ∧
      r.2.reflected.m_DescriptorSets = s.reflected.m_DescriptorSets ∧
      r.2.reflected.m_Uniforms = s.reflected.m_Uniforms ∧
      r.2.m_PushConstantUniforms = s.m_PushConstantUniforms ∧
      r.2.m_Textures = s.m_Textures ∧
      r.2.reflected.m_PushConstantRanges = s.reflected.m_PushConstantRanges ∧
      r.2.m_SetLayouts = s.m_SetLayouts ∧ r.2.m_SetPool = s.m_SetPool := by
  have hs1 := DetermineShaderTypes_eq _ _ hscan
  have hres : TryRecompile tc disk s =
      some (false, { s with m_FileContents := (ReadFile disk s).m_FileContents,
                            m_FileSize := (ReadFile disk s).m_FileSize,
                            m_ShaderSources := s1.m_ShaderSources }) := by
    unfold TryRecompile
    simp only [hscan]
    unfold CompileGlslToSpvAssembly at hfail ⊢
    simp only at hfail ⊢
    rw [hfail]
    simp only [Option.some.injEq, Prod.mk.injEq, true_and]
    rw [hs1]
    cases disk <;> rfl
  refine ⟨hres, ?_⟩
  intro r hr
  rw [hres] at hr
  injection hr with hr
  subst hr
  cases disk <;> exact ⟨rfl, rfl, rfl, rfl, rfl, rfl, rfl, rfl, rfl⟩

/-- C12 witness: the shader built from `vertexFile` is recompiled with a compiler
that rejects the source; the call returns `false` and the object is unchanged. -/
theorem C12_failed_recompile_keeps_reflected_state_witness :
    TryRecompile rejectingTools (some vertexFile) builtVertexShader =
      some (false, builtVertexShader) :=
  (C12_failed_recompile_keeps_reflected_state rejectingTools (some vertexFile)
    builtVertexShader builtVertexShader (by decide) (by decide)).1

end ShaderObject

namespace ShaderObject

/-- C19 (the code at the failing input): the shader built from `vertexFile` has
one set layout; after a successful `TryRecompile` on the unchanged file it has
two, the old one and the new one, while a fresh shader built from the same file
has one.  A shader built from a file with a vertex and a compute section and
then recompiled from `vertexFile` still holds the compute source and its SPIR-V,
which a fresh shader built from `vertexFile` does not have. -/
theorem C19_recompile_keeps_old_layouts_and_sources :
    construct acceptingTools (some vertexFile) = some builtVertexShader ∧
    builtVertexShader.m_SetLayouts =
      [[⟨0, VK_DESCRIPTOR_TYPE_UNIFORM_BUFFER, 1, VK_SHADER_STAGE_VERTEX_BIT⟩]] ∧
    (TryRecompile acceptingTools (some vertexFile) builtVertexShader).map
        (fun r => (r.1, r.2.m_SetLayouts)) =
      some (true, [[⟨0, VK_DESCRIPTOR_TYPE_UNIFORM_BUFFER, 1, VK_SHADER_STAGE_VERTEX_BIT⟩],
                   [⟨0, VK_DESCRIPTOR_TYPE_UNIFORM_BUFFER, 1, VK_SHADER_STAGE_VERTEX_BIT⟩]]) ∧
    ((construct acceptingTools (some vertexComputeFile)).bind
        (fun s => TryRecompile acceptingTools (some vertexFile) s)).map
        (fun r => (r.1, r.2.m_ShaderSources.map Prod.fst, r.2.m_SpvCode.map Prod.fst)) =
      some (true, [⟨ShaderType.Vertex, 0⟩, ⟨ShaderType.Compute, 0⟩],
                  [⟨ShaderType.Vertex, 0⟩, ⟨ShaderType.Compute, 0⟩]) ∧
    builtVertexShader.m_ShaderSources.map Prod.fst = [⟨ShaderType.Vertex, 0⟩] := by
  refine ⟨by decide, by decide, by decide, by decide, by decide⟩

/-- C20 (the code at the failing input): a file with two `#type geometry`
sections yields one entry, under the key (Geometry, -1), holding the text of the
second section; there is no entry (Geometry, 0) or (Geometry, 1). -/
theorem C20_geometry_sections_share_one_key :
    (DetermineShaderTypes { m_FileContents := geometryFile }).map
        (fun s => s.m_ShaderSources) =
      some [(⟨ShaderType.Geometry, -1⟩, ⟨"void b(){}\r\n", ShaderType.Geometry, -1⟩)] := by
  decide

end ShaderObject

namespace Shader

/-- C16 (the code at the failing input): when the fragment stage that declares
only the sampler `u_Albedo` is reflected before the vertex stage that declares
only the uniform block `Camera`, the blueprint of set 0 ends up without any
sampled image; in the opposite order it holds the uniform buffer (stage Vertex),
the sampled image (stage Fragment) and the uniform list holds
`Camera.viewProj` with offset 0 and size 64. -/
theorem C16_sampler_reflected_first_is_dropped :
    (reflectStages [(ShaderType.Fragment, samplerOnlyStage),
        (ShaderType.Vertex, cameraOnlyStage)] {}).m_DescriptorSets =
      [(0, { Set := 0
             UniformBuffers := [(0, ⟨"Camera", ShaderType.Vertex, 0, 64⟩)]
             SampledImages := [] })] ∧
    (reflectStages [(ShaderType.Vertex, cameraOnlyStage),
        (ShaderType.Fragment, samplerOnlyStage)] {}).m_DescriptorSets =
      [(0, { Set := 0
             UniformBuffers := [(0, ⟨"Camera", ShaderType.Vertex, 0, 64⟩)]
             SampledImages := [⟨"u_Albedo", ShaderType.Fragment, 0, 2, 1⟩] })] ∧
    (reflectStages [(ShaderType.Vertex, cameraOnlyStage),
        (ShaderType.Fragment, samplerOnlyStage)] {}).m_Uniforms.map
        (fun u => (u.Name, u.Offset, u.Size)) = [("Camera.viewProj", 0, 64)] := by
  decide

/-- C17 (the code at the failing input): the recorded array size is never 0 and
is the first array dimension when that is present and not 0, but for a
non-array image it is whatever word `RealType.array[ 0 ]` reads: 7 is recorded
for `strayArrayImage`. -/
theorem C17_array_size_of_non_array_image_is_the_word_read :
    (∀ r : ImageResource, imageArraySize r ≠ 0) ∧
    (∀ (n : Nat) (rest : List Nat) (name : String) (set binding word : Nat),
      imageArraySize { name := name, set := set, binding := binding, array := n :: rest,
                       inlineWord := word } = if n = 0 then 1 else n) ∧
    strayArrayImage.array = [] ∧
    imageArraySize strayArrayImage = 7 ∧
    (blueprint (Reflect ShaderType.Fragment { sampled_images := [strayArrayImage] } {})
        0).SampledImages = [⟨"u_Albedo", ShaderType.Fragment, 0, 2, 7⟩] := by
  refine ⟨?_, ?_, rfl, by decide, by decide⟩
  · intro r
    unfold imageArraySize
    simp only
    split_ifs with h
    · exact Nat.one_ne_zero
    · exact h
  · intro n rest name set binding word
    rfl

end Shader

namespace Shader

/-! ### Named descriptor writes -/

theorem foldl_writeImage_of_no_match (rName : String) (p : Ref) (c : Option Nat) (d : Ref)
    (l : List ShaderImage) (acc : WriteState) (h : ∀ t ∈ l, t.Name ≠ rName) :
    l.foldl (writeImage rName p c d) acc = acc := by
  induction l generalizing acc with
  | nil => rfl
  | cons t rest ih =>
    have ht : t.Name ≠ rName := h t (List.mem_cons_self _ _)
    simp only [List.foldl_cons, writeImage, ht, if_false]
    exact ih acc (fun x hx => h x (List.mem_cons_of_mem _ hx))

theorem foldl_writeBuffer_of_no_match (rName : String) (p d : Ref)
    (l : List (Nat × ShaderUniformBuffer)) (acc : WriteState)
    (h : ∀ e ∈ l, e.2.Name ≠ rName) :
    l.foldl (writeBuffer rName p d) acc = acc := by
  induction l generalizing acc with
  | nil => rfl
  | cons t rest ih =>
    have ht : t.2.Name ≠ rName := h t (List.mem_cons_self _ _)
    simp only [List.foldl_cons, writeBuffer, ht, if_false]
    exact ih acc (fun x hx => h x (List.mem_cons_of_mem _ hx))

theorem forEachDescriptorSet_of_unchanged
    (body : ShaderDescriptorSet → List VkWriteDescriptorSet →
      ShaderDescriptorSet × List VkWriteDescriptorSet)
    (sh : Shader) (h : ∀ e ∈ sh.m_DescriptorSets, ∀ log, body e.2 log = (e.2, log)) :
    forEachDescriptorSet body sh = (sh, []) := by
  have key : ∀ (l : StdMap ShaderDescriptorSet) (pre : StdMap ShaderDescriptorSet)
      (log : List VkWriteDescriptorSet),
      (∀ e ∈ l, ∀ log, body e.2 log = (e.2, log)) →
      l.foldl
        (fun (acc : StdMap ShaderDescriptorSet × List VkWriteDescriptorSet) entry =>
          (acc.1 ++ [(entry.1, (body entry.2 acc.2).1)], (body entry.2 acc.2).2))
        (pre, log) = (pre ++ l, log) := by
    intro l
    induction l with
    | nil => intro pre log _; simp
    | cons e rest ih =>
      intro pre log hl
      simp only [List.foldl_cons, hl e (List.mem_cons_self _ _)]
      rw [ih _ _ (fun x hx => hl x (List.mem_cons_of_mem _ hx))]
      simp
  unfold forEachDescriptorSet
  simp only [key sh.m_DescriptorSets [] [] h, List.nil_append]

/-- C13: when no reflected resource of the shader is named `rName`, each of the
three `WriteDescriptor` overloads issues no update and leaves the shader, and so
every stored write record of every blueprint, as it was. -/
theorem C13_unmatched_name_writes_nothing (rName : String) (sh : Shader)
    (hno : NoResourceNamed rName sh) (info size : Nat) (data desSet : Ref) :
    WriteDescriptorImage rName info desSet sh = (sh, []) ∧
    WriteDescriptorBuffer rName info desSet sh = (sh, []) ∧
    WriteDescriptorImages rName data size desSet sh = (sh, []) := by
  refine ⟨?_, ?_, ?_⟩
  · apply forEachDescriptorSet_of_unchanged
    intro e he log
    obtain ⟨_, _, h3, h4⟩ := hno e he
    simp only [writeImagesOf, foldl_writeImage_of_no_match _ _ _ _ _ _ h3,
      foldl_writeImage_of_no_match _ _ _ _ _ _ h4]
  · apply forEachDescriptorSet_of_unchanged
    intro e he log
    obtain ⟨h1, _, _, _⟩ := hno e he
    simp only [writeBuffersOf, foldl_writeBuffer_of_no_match _ _ _ _ _ h1]
  · apply forEachDescriptorSet_of_unchanged
    intro e he log
    obtain ⟨_, _, h3, h4⟩ := hno e he
    simp only [writeImagesOf, foldl_writeImage_of_no_match _ _ _ _ _ _ h3,
      foldl_writeImage_of_no_match _ _ _ _ _ _ h4]

/-- C13 witness: no resource of the shader with `Camera`, `Lights` and `u_Albedo`
is named `u_Missing`. -/
theorem C13_unmatched_name_writes_nothing_witness :
    WriteDescriptorImage "u_Missing" 100 (some 5) ShaderObject.mixedShader =
      (ShaderObject.mixedShader, []) ∧
    WriteDescriptorBuffer "u_Missing" 100 (some 5) ShaderObject.mixedShader =
      (ShaderObject.mixedShader, []) ∧
    WriteDescriptorImages "u_Missing" (some 100) 3 (some 5) ShaderObject.mixedShader =
      (ShaderObject.mixedShader, []) :=
  C13_unmatched_name_writes_nothing "u_Missing" ShaderObject.mixedShader
    (by unfold NoResourceNamed; decide) 100 3 (some 100) (some 5)

end Shader

namespace Shader

/-- One issued write on addressed records with a record under `b`: the written
record names `b`, and the records stay addressed and cover what they covered. -/
theorem issueWrite_spec (b : Nat) (assign : VkWriteDescriptorSet → VkWriteDescriptorSet)
    (acc : WriteState) (hassign : ∀ r, (assign r).dstBinding = r.dstBinding)
    (hA : Addressed acc.1) (hC : Covered acc.1 b) :
    (issueWrite b assign acc).2 = acc.2 ++ [assign (StdMap.getD acc.1 b {})] ∧
    (assign (StdMap.getD acc.1 b {})).dstBinding = b ∧
    Addressed (issueWrite b assign acc).1 ∧
    ∀ k, Covered acc.1 k → Covered (issueWrite b assign acc).1 k := by
  obtain ⟨w, hw⟩ := Option.isSome_iff_exists.1 hC
  have hget : StdMap.getD acc.1 b {} = w := by simp [StdMap.getD, hw]
  have hwb : w.dstBinding = b := hA (b, w) (StdMap.mem_of_find? _ _ _ hw)
  have hwritten : (assign (StdMap.getD acc.1 b {})).dstBinding = b := by
    rw [hassign, hget, hwb]
  refine ⟨rfl, hwritten, ?_, ?_⟩
  · intro e he
    obtain ⟨k, x⟩ := e
    rcases StdMap.mem_insert _ _ _ _ _ he with ⟨hk, hx⟩ | hmem
    · simp only
      rw [hx, hk]
      exact hwritten
    · exact hA (k, x) hmem
  · intro k hk
    unfold Covered issueWrite
    simp only
    by_cases hkb : k = b
    · rw [hkb, StdMap.find?_insert_self]
      rfl
    · rw [StdMap.find?_insert_of_ne _ _ _ _ hkb]
      exact hk

/-- The image loop over a list of images: one update per image named `rName`, in
order, each naming the binding of its image, the target set and the image
info. -/
theorem foldl_writeImage_spec (rName : String) (p : Ref) (c : Option Nat) (d : Ref)
    (l : List ShaderImage) (acc : WriteState) (hA : Addressed acc.1)
    (hC : ∀ t ∈ l, Covered acc.1 t.Binding) :
    (l.foldl (writeImage rName p c d) acc).2.map (fun u => (u.dstBinding, u.dstSet, u.pImageInfo)) =
      acc.2.map (fun u => (u.dstBinding, u.dstSet, u.pImageInfo)) ++
        (l.filter (fun t => decide (t.Name = rName))).map (fun t => (t.Binding, d, p)) ∧
    Addressed (l.foldl (writeImage rName p c d) acc).1 ∧
    ∀ k, Covered acc.1 k → Covered (l.foldl (writeImage rName p c d) acc).1 k := by
  induction l generalizing acc with
  | nil => simp [hA]
  | cons t rest ih =>
    simp only [List.foldl_cons]
    by_cases ht : t.Name = rName
    · obtain ⟨h1, h2, h3, h4⟩ := issueWrite_spec t.Binding
        (fun record =>
          { record with pImageInfo := p,
                        descriptorCount := c.getD record.descriptorCount,
                        dstSet := d }) acc (fun r => rfl) hA
        (hC t (List.mem_cons_self _ _))
      have hstep : writeImage rName p c d acc t = issueWrite t.Binding
          (fun record =>
            { record with pImageInfo := p,
                          descriptorCount := c.getD record.descriptorCount,
                          dstSet := d }) acc := by
        simp only [writeImage, ht, if_true]
      rw [hstep]
      obtain ⟨i1, i2, i3⟩ := ih _ h3
        (fun x hx => h4 _ (hC x (List.mem_cons_of_mem _ hx)))
      refine ⟨?_, i2, fun k hk => i3 k (h4 k hk)⟩
      rw [i1, h1]
      simp only [List.map_append, List.map_cons, List.map_nil, List.filter_cons, ht,
        decide_True, if_true, List.append_assoc, List.singleton_append]
      rw [h2]
    · have hstep : writeImage rName p c d acc t = acc := by
        simp only [writeImage, ht, if_false]
      rw [hstep]
      obtain ⟨i1, i2, i3⟩ := ih acc hA (fun x hx => hC x (List.mem_cons_of_mem _ hx))
      refine ⟨?_, i2, i3⟩
      rw [i1]
      simp [List.filter_cons, ht]

/-- The uniform-buffer loop over the uniform buffers of a blueprint: one update
per buffer named `rName`, in order, each naming the binding of its buffer, the
target set and the buffer info. -/
theorem foldl_writeBuffer_spec (rName : String) (p d : Ref)
    (l : List (Nat × ShaderUniformBuffer)) (acc : WriteState) (hA : Addressed acc.1)
    (hC : ∀ e ∈ l, e.2.Binding = e.1 ∧ Covered acc.1 e.1) :
    (l.foldl (writeBuffer rName p d) acc).2.map (fun u => (u.dstBinding, u.dstSet, u.pBufferInfo)) =
      acc.2.map (fun u => (u.dstBinding, u.dstSet, u.pBufferInfo)) ++
        (l.filter (fun e => decide (e.2.Name = rName))).map (fun e => (e.2.Binding, d, p)) ∧
    Addressed (l.foldl (writeBuffer rName p d) acc).1 ∧
    ∀ k, Covered acc.1 k → Covered (l.foldl (writeBuffer rName p d) acc).1 k := by
  induction l generalizing acc with
  | nil => simp [hA]
  | cons t rest ih =>
    simp only [List.foldl_cons]
    by_cases ht : t.2.Name = rName
    · obtain ⟨h1, h2, h3, h4⟩ := issueWrite_spec t.1
        (fun record => { record with pBufferInfo := p, dstSet := d }) acc (fun r => rfl) hA
        (hC t (List.mem_cons_self _ _)).2
      have hstep : writeBuffer rName p d acc t = issueWrite t.1
          (fun record => { record with pBufferInfo := p, dstSet := d }) acc := by
        simp only [writeBuffer, ht, if_true]
      rw [hstep]
      obtain ⟨i1, i2, i3⟩ := ih _ h3
        (fun x hx => ⟨(hC x (List.mem_cons_of_mem _ hx)).1,
          h4 _ (hC x (List.mem_cons_of_mem _ hx)).2⟩)
      refine ⟨?_, i2, fun k hk => i3 k (h4 k hk)⟩
      rw [i1, h1]
      simp only [List.map_append, List.map_cons, List.map_nil, List.filter_cons, ht,
        decide_True, if_true, List.append_assoc, List.singleton_append]
      rw [h2, (hC t (List.mem_cons_self _ _)).1]
    · have hstep : writeBuffer rName p d acc t = acc := by
        simp only [writeBuffer, ht, if_false]
      rw [hstep]
      obtain ⟨i1, i2, i3⟩ := ih acc hA (fun x hx => hC x (List.mem_cons_of_mem _ hx))
      refine ⟨?_, i2, i3⟩
      rw [i1]
      simp [List.filter_cons, ht]

/-- The log of the loop over the descriptor sets, when the body extends the log
of every blueprint by a list that depends on the blueprint only. -/
theorem forEachDescriptorSet_log {α : Type}
    (body : ShaderDescriptorSet → List VkWriteDescriptorSet →
      ShaderDescriptorSet × List VkWriteDescriptorSet)
    (proj : VkWriteDescriptorSet → α) (issued : ShaderDescriptorSet → List α)
    (sh : Shader)
    (h : ∀ e ∈ sh.m_DescriptorSets, ∀ log,
      (body e.2 log).2.map proj = log.map proj ++ issued e.2) :
    (forEachDescriptorSet body sh).2.map proj =
      sh.m_DescriptorSets.flatMap (fun e => issued e.2) := by
  have key : ∀ (l : StdMap ShaderDescriptorSet) (pre : StdMap ShaderDescriptorSet)
      (log : List VkWriteDescriptorSet),
      (∀ e ∈ l, ∀ log, (body e.2 log).2.map proj = log.map proj ++ issued e.2) →
      (l.foldl
        (fun (acc : StdMap ShaderDescriptorSet × List VkWriteDescriptorSet) entry =>
          (acc.1 ++ [(entry.1, (body entry.2 acc.2).1)], (body entry.2 acc.2).2))
        (pre, log)).2.map proj = log.map proj ++ l.flatMap (fun e => issued e.2) := by
    intro l
    induction l with
    | nil => intro pre log _; simp
    | cons e rest ih =>
      intro pre log hl
      simp only [List.foldl_cons]
      rw [ih _ _ (fun x hx => hl x (List.mem_cons_of_mem _ hx)),
        hl e (List.mem_cons_self _ _), List.flatMap_cons, List.append_assoc]
  unfold forEachDescriptorSet
  simp only
  rw [key sh.m_DescriptorSets [] [] h]
  simp

end Shader

namespace Shader

theorem writeImagesOf_log (rName : String) (p : Ref) (c : Option Nat) (d : Ref)
    (ds : ShaderDescriptorSet) (log : List VkWriteDescriptorSet) (h : Prepared ds) :
    (writeImagesOf rName p c d ds log).2.map (fun u => (u.dstBinding, u.dstSet, u.pImageInfo)) =
      log.map (fun u => (u.dstBinding, u.dstSet, u.pImageInfo)) ++
        ((ds.SampledImages ++ ds.StorageImages).filter
          (fun t => decide (t.Name = rName))).map (fun t => (t.Binding, d, p)) := by
  obtain ⟨hA, hI, _⟩ := h
  obtain ⟨a1, a2, a3⟩ := foldl_writeImage_spec rName p c d ds.SampledImages
    (ds.WriteDescriptorSets, log) hA
    (fun t ht => hI t (List.mem_append_left _ ht))
  obtain ⟨b1, _, _⟩ := foldl_writeImage_spec rName p c d ds.StorageImages _ a2
    (fun t ht => a3 _ (hI t (List.mem_append_right _ ht)))
  simp only [writeImagesOf]
  rw [b1, a1]
  simp only [List.filter_append, List.map_append, List.append_assoc]

theorem writeBuffersOf_log (rName : String) (p d : Ref)
    (ds : ShaderDescriptorSet) (log : List VkWriteDescriptorSet) (h : Prepared ds) :
    (writeBuffersOf rName p d ds log).2.map (fun u => (u.dstBinding, u.dstSet, u.pBufferInfo)) =
      log.map (fun u => (u.dstBinding, u.dstSet, u.pBufferInfo)) ++
        (ds.UniformBuffers.filter
          (fun e => decide (e.2.Name = rName))).map (fun e => (e.2.Binding, d, p)) := by
  obtain ⟨hA, _, hU⟩ := h
  obtain ⟨a1, _, _⟩ := foldl_writeBuffer_spec rName p d ds.UniformBuffers
    (ds.WriteDescriptorSets, log) hA hU
  simp only [writeBuffersOf]
  rw [a1]

/-- C14 (as stated, refuted): the shader with the uniform block `Camera`, the
storage block `Lights` and the sampler `u_Albedo` has a reflected storage buffer
named `Lights`, yet the buffer-info overload of `WriteDescriptor` called with
that name issues no update (nor does the image-info overload). -/
theorem C14_storage_buffer_name_is_not_written :
    (blueprint ShaderObject.mixedShader 0).StorageBuffers =
      [(1, ⟨"Lights", ShaderType.Fragment, 1, 1⟩)] ∧
    (WriteDescriptorBuffer "Lights" 100 (some 5) ShaderObject.mixedShader).2 = [] ∧
    (WriteDescriptorImage "Lights" 100 (some 5) ShaderObject.mixedShader).2 = [] := by
  decide

/-- The updates that one call of the image-info and of the buffer-info overload
of `WriteDescriptor` issues, on a shader whose blueprints are in the state that
`CreateDescriptors` leaves: one for every recorded sampled or storage image
named `rName`, respectively one for every recorded uniform buffer named
`rName`, in the order of the records. -/
theorem named_write_log (rName : String) (info : Nat) (desSet : Ref)
    (sh : Shader) (hprep : ∀ e ∈ sh.m_DescriptorSets, Prepared e.2) :
    (WriteDescriptorImage rName info desSet sh).2.map
        (fun u => (u.dstBinding, u.dstSet, u.pImageInfo)) =
      (imagesNamed rName sh).map (fun t => (t.Binding, desSet, some info)) ∧
    (WriteDescriptorBuffer rName info desSet sh).2.map
        (fun u => (u.dstBinding, u.dstSet, u.pBufferInfo)) =
      (uniformBuffersNamed rName sh).map (fun e => (e.2.Binding, desSet, some info)) ∧
    ((imagesNamed rName sh).length = 1 →
      (WriteDescriptorImage rName info desSet sh).2.length = 1) ∧
    ((uniformBuffersNamed rName sh).length = 1 →
      (WriteDescriptorBuffer rName info desSet sh).2.length = 1) := by
  have himg : (WriteDescriptorImage rName info desSet sh).2.map
        (fun u => (u.dstBinding, u.dstSet, u.pImageInfo)) =
      (imagesNamed rName sh).map (fun t => (t.Binding, desSet, some info)) := by
    unfold WriteDescriptorImage imagesNamed
    rw [forEachDescriptorSet_log _ _
      (fun ds => ((ds.SampledImages ++ ds.StorageImages).filter
        (fun t => decide (t.Name = rName))).map (fun t => (t.Binding, desSet, some info))) sh
      (fun e he log => writeImagesOf_log rName (some info) none desSet e.2 log (hprep e he))]
    rw [List.map_flatMap]
  have hbuf : (WriteDescriptorBuffer rName info desSet sh).2.map
        (fun u => (u.dstBinding, u.dstSet, u.pBufferInfo)) =
      (uniformBuffersNamed rName sh).map (fun e => (e.2.Binding, desSet, some info)) := by
    unfold WriteDescriptorBuffer uniformBuffersNamed
    rw [forEachDescriptorSet_log _ _
      (fun ds => (ds.UniformBuffers.filter
        (fun e => decide (e.2.Name = rName))).map (fun e => (e.2.Binding, desSet, some info))) sh
      (fun e he log => writeBuffersOf_log rName (some info) desSet e.2 log (hprep e he))]
    rw [List.map_flatMap]
  refine ⟨himg, hbuf, ?_, ?_⟩
  · intro h1
    have := congrArg List.length himg
    simpa [h1] using this
  · intro h1
    have := congrArg List.length hbuf
    simpa [h1] using this

/-- C14 (amended): on a shader whose blueprints are in the state that
`CreateDescriptors` leaves, a name that matches exactly one recorded sampled or
storage image makes one call of the image-info overload of `WriteDescriptor`
issue exactly one update, and a name that matches exactly one recorded uniform
buffer makes one call of the buffer-info overload issue exactly one update; the
update names the binding of the matching resource, the target set and the info
passed in. -/
theorem C14_single_match_gets_one_update (rName : String) (info : Nat) (desSet : Ref)
    (sh : Shader) (hprep : ∀ e ∈ sh.m_DescriptorSets, Prepared e.2) :
    (∀ t, imagesNamed rName sh = [t] →
      (WriteDescriptorImage rName info desSet sh).2.map
          (fun u => (u.dstBinding, u.dstSet, u.pImageInfo)) =
        [(t.Binding, desSet, some info)]) ∧
    (∀ e, uniformBuffersNamed rName sh = [e] →
      (WriteDescriptorBuffer rName info desSet sh).2.map
          (fun u => (u.dstBinding, u.dstSet, u.pBufferInfo)) =
        [(e.2.Binding, desSet, some info)]) := by
  obtain ⟨himg, hbuf, _, _⟩ := named_write_log rName info desSet sh hprep
  refine ⟨?_, ?_⟩
  · intro t ht
    rw [himg, ht]
    rfl
  · intro e he
    rw [hbuf, he]
    rfl

/-- C14 witness: on the shader with `Camera`, `Lights` and `u_Albedo`, the name
`u_Albedo` matches one recorded image and gives one update from the image-info
overload, for binding 2 and the target set; the name `Camera` matches one
recorded uniform buffer and gives one update from the buffer-info overload, for
binding 0. -/
theorem C14_single_match_gets_one_update_witness :
    (WriteDescriptorImage "u_Albedo" 100 (some 5) ShaderObject.mixedShader).2.map
        (fun u => (u.dstBinding, u.dstSet, u.pImageInfo)) = [(2, some 5, some 100)] ∧
    (WriteDescriptorBuffer "Camera" 200 (some 5) ShaderObject.mixedShader).2.map
        (fun u => (u.dstBinding, u.dstSet, u.pBufferInfo)) = [(0, some 5, some 200)] :=
  ⟨(C14_single_match_gets_one_update "u_Albedo" 100 (some 5) ShaderObject.mixedShader
      (by unfold Prepared Addressed Covered; decide)).1
      ⟨"u_Albedo", ShaderType.Fragment, 0, 2, 1⟩ (by decide),
   (C14_single_match_gets_one_update "Camera" 200 (some 5) ShaderObject.mixedShader
      (by unfold Prepared Addressed Covered; decide)).2
      (0, ⟨"Camera", ShaderType.Fragment, 0, 64⟩) (by decide)⟩

end Shader

namespace Scene

/-! ### Effective material registry -/

theorem foldl_editorStaticMesh (scene : SceneView) (l : List (Nat × StaticMeshComponent))
    (calls : List Submission) :
    l.foldl (editorStaticMesh scene) calls =
      calls ++ l.filterMap (fun e => e.2.Mesh.map (fun mesh =>
        { entity := some e.1, mesh := mesh,
          materialRegistry := effectiveRegistry scene e.2 mesh,
          transform := scene.GetTransformRelativeToParent e.1 })) := by
  induction l generalizing calls with
  | nil => simp
  | cons e rest ih =>
    rw [List.foldl_cons, ih]
    obtain ⟨entity, c⟩ := e
    cases hm : c.Mesh with
    | none => simp [editorStaticMesh, hm]
    | some mesh =>
      cases hr : c.MaterialRegistry with
      | none => simp [editorStaticMesh, effectiveRegistry, hm, hr]
      | some registry =>
        by_cases ho : scene.HasAnyOverrides registry = true
        · simp [editorStaticMesh, effectiveRegistry, hm, hr, ho]
        · simp [editorStaticMesh, effectiveRegistry, hm, hr, ho]

/-- C15: the static-mesh loop of `Scene::OnRenderEditor` calls `SubmitStaticMesh`
once for every entity with a non-null mesh, in order, and for no entity with a
null mesh; the registry passed is the entity's own registry when that is
non-null and `HasAnyOverrides()` holds, and the registry of the mesh
otherwise. -/
theorem C15_editor_submits_effective_registry (scene : SceneView) :
    OnRenderEditorStaticMeshes scene =
      scene.entities.filterMap (fun e => e.2.Mesh.map (fun mesh =>
        { entity := some e.1, mesh := mesh,
          materialRegistry :=
            match e.2.MaterialRegistry with
            | some registry =>
              if scene.HasAnyOverrides registry = true then some registry
              else scene.GetMaterialRegistry mesh
            | none => scene.GetMaterialRegistry mesh
          transform := scene.GetTransformRelativeToParent e.1 })) := by
  unfold OnRenderEditorStaticMeshes
  rw [foldl_editorStaticMesh]
  rfl

end Scene

namespace ShaderObject

/-! ### The write records that `CreateDescriptors` leaves -/

theorem Addressed_insert_freshWrite (w : StdMap VkWriteDescriptorSet) (k ty : Nat)
    (h : Shader.Addressed w) : Shader.Addressed (StdMap.insert w k (freshWrite k ty)) := by
  intro e he
  obtain ⟨j, x⟩ := e
  rcases StdMap.mem_insert w k j _ x he with ⟨hj, hx⟩ | hm
  · subst hj
    subst hx
    rfl
  · exact h _ hm

theorem Covered_insert (w : StdMap VkWriteDescriptorSet) (k j : Nat) (v : VkWriteDescriptorSet)
    (h : j = k ∨ Shader.Covered w j) : Shader.Covered (StdMap.insert w k v) j := by
  unfold Shader.Covered at h ⊢
  by_cases hjk : j = k
  · subst hjk
    rw [StdMap.find?_insert_self]
    rfl
  · rw [StdMap.find?_insert_of_ne _ _ _ _ hjk]
    rcases h with h | h
    · exact absurd h hjk
    · exact h

theorem foldl_addBinding_spec {α : Type} (ty : Nat) (key count : α → Nat) (stage : α → ShaderType)
    (l : List α) (b : LayoutBuild) (h : Shader.Addressed b.WriteDescriptorSets) :
    Shader.Addressed
        (l.foldl (fun b x => addBinding ty b (key x) (count x) (stage x)) b).WriteDescriptorSets ∧
    (∀ k, Shader.Covered b.WriteDescriptorSets k →
      Shader.Covered
        (l.foldl (fun b x => addBinding ty b (key x) (count x) (stage x)) b).WriteDescriptorSets
        k) ∧
    (∀ x ∈ l,
      Shader.Covered
        (l.foldl (fun b x => addBinding ty b (key x) (count x) (stage x)) b).WriteDescriptorSets
        (key x)) := by
  induction l generalizing b with
  | nil => exact ⟨h, fun _ hk => hk, fun x hx => absurd hx (List.not_mem_nil x)⟩
  | cons y rest ih =>
    have hy : Shader.Addressed (addBinding ty b (key y) (count y) (stage y)).WriteDescriptorSets :=
      Addressed_insert_freshWrite _ _ _ h
    obtain ⟨h1, h2, h3⟩ := ih (addBinding ty b (key y) (count y) (stage y)) hy
    refine ⟨h1, ?_, ?_⟩
    · intro k hk
      exact h2 k (Covered_insert _ _ _ _ (Or.inr hk))
    · intro x hx
      rcases List.mem_cons.1 hx with hx | hx
      · subst hx
        exact h2 _ (Covered_insert _ _ _ _ (Or.inl rfl))
      · exact h3 x hx

theorem Prepared_buildLayout (ds : ShaderDescriptorSet) (P : List VkDescriptorPoolSize)
    (ha : Shader.Addressed ds.WriteDescriptorSets)
    (hk : ∀ u ∈ ds.UniformBuffers, u.2.Binding = u.1) :
    Shader.Prepared { ds with WriteDescriptorSets := (buildLayout ds P).WriteDescriptorSets,
                              SetLayout := some (buildLayout ds P).Bindings } := by
  unfold buildLayout
  simp only
  obtain ⟨a1, _, c1⟩ := foldl_addBinding_spec VK_DESCRIPTOR_TYPE_UNIFORM_BUFFER
    (fun e : Nat × ShaderUniformBuffer => e.2.Binding) (fun _ => 1) (fun e => e.2.Location)
    ds.UniformBuffers { PoolSizes := P, WriteDescriptorSets := ds.WriteDescriptorSets } ha
  obtain ⟨a2, b2, _⟩ := foldl_addBinding_spec VK_DESCRIPTOR_TYPE_STORAGE_BUFFER
    (fun e : Nat × ShaderStorageBuffer => e.2.Binding) (fun _ => 1) (fun e => e.2.Location)
    ds.StorageBuffers _ a1
  obtain ⟨a3, b3, c3⟩ := foldl_addBinding_spec VK_DESCRIPTOR_TYPE_COMBINED_IMAGE_SAMPLER
    (fun t : ShaderImage => t.Binding) (fun t => t.ArraySize) (fun t => t.Stage)
    ds.SampledImages _ a2
  obtain ⟨a4, b4, c4⟩ := foldl_addBinding_spec VK_DESCRIPTOR_TYPE_STORAGE_IMAGE
    (fun t : ShaderImage => t.Binding) (fun t => t.ArraySize) (fun t => t.Stage)
    ds.StorageImages _ a3
  refine ⟨a4, ?_, ?_⟩
  · intro t ht
    rcases List.mem_append.1 ht with ht | ht
    · exact b4 _ (c3 t ht)
    · exact c4 t ht
  · intro e he
    refine ⟨hk e he, ?_⟩
    have := b4 _ (b3 _ (b2 _ (c1 e he)))
    rw [hk e he] at this
    exact this

theorem foldl_createSetLayout_sets (l : List (Nat × ShaderDescriptorSet)) (acc : DescriptorBuild)
    (e : Nat × ShaderDescriptorSet) (he : e ∈ (l.foldl createSetLayout acc).sets) :
    e ∈ acc.sets ∨ ∃ entry ∈ l, ∃ P,
      e = (entry.1, { entry.2 with
        WriteDescriptorSets := (buildLayout entry.2 P).WriteDescriptorSets,
        SetLayout := some (buildLayout entry.2 P).Bindings }) := by
  induction l generalizing acc with
  | nil => exact Or.inl he
  | cons y rest ih =>
    rw [List.foldl_cons] at he
    rcases ih _ he with h | ⟨entry, hm, P, hP⟩
    · simp only [createSetLayout] at h
      rcases List.mem_append.1 h with h | h
      · exact Or.inl h
      · rw [List.mem_singleton] at h
        exact Or.inr ⟨y, List.mem_cons_self _ _, acc.PoolSizes, h⟩
    · exact Or.inr ⟨entry, List.mem_cons_of_mem _ hm, P, hP⟩

/-- Every blueprint is in the state `Prepared` after `CreateDescriptors`, when
before it the stored write records name their bindings (there are none after
`Reflect`) and uniform buffers are stored under their binding. -/
theorem Prepared_CreateDescriptors (s : ShaderObject)
    (h : ∀ e ∈ s.reflected.m_DescriptorSets,
      Shader.Addressed e.2.WriteDescriptorSets ∧ ∀ u ∈ e.2.UniformBuffers, u.2.Binding = u.1) :
    ∀ e ∈ (CreateDescriptors s).reflected.m_DescriptorSets, Shader.Prepared e.2 := by
  intro e he
  simp only [CreateDescriptors] at he
  rcases foldl_createSetLayout_sets _ _ e he with h0 | ⟨entry, hm, P, hP⟩
  · exact absurd h0 (List.not_mem_nil e)
  · rw [hP]
    exact Prepared_buildLayout entry.2 P (h entry hm).1 (h entry hm).2

end ShaderObject

namespace ShaderObject

/-! ### Stage masks of layout bindings -/

/-- C21 (the code at the failing input): the stage mask that `CreateDescriptors`
computes agrees with `ShaderTypeToVulkan` for the flags Vertex, Fragment,
Compute and All, but for Geometry it is the fragment bit, not the geometry bit:
the four layout bindings built for a geometry stage with one resource of every
kind all carry `VK_SHADER_STAGE_FRAGMENT_BIT`. -/
theorem C21_geometry_resource_gets_fragment_mask :
    layoutStageFlags ShaderType.Vertex = ShaderTypeToVulkan ShaderType.Vertex ∧
    layoutStageFlags ShaderType.Fragment = ShaderTypeToVulkan ShaderType.Fragment ∧
    layoutStageFlags ShaderType.Compute = ShaderTypeToVulkan ShaderType.Compute ∧
    layoutStageFlags ShaderType.All = ShaderTypeToVulkan ShaderType.All ∧
    ShaderTypeToVulkan ShaderType.Geometry = VK_SHADER_STAGE_GEOMETRY_BIT ∧
    layoutStageFlags ShaderType.Geometry = VK_SHADER_STAGE_FRAGMENT_BIT ∧
    layoutStageFlags ShaderType.Geometry ≠ ShaderTypeToVulkan ShaderType.Geometry ∧
    (CreateDescriptors
        { reflected := Shader.Reflect ShaderType.Geometry Shader.allKindsStage {} }).m_SetLayouts =
      [[⟨0, VK_DESCRIPTOR_TYPE_UNIFORM_BUFFER, 1, VK_SHADER_STAGE_FRAGMENT_BIT⟩,
        ⟨1, VK_DESCRIPTOR_TYPE_STORAGE_BUFFER, 1, VK_SHADER_STAGE_FRAGMENT_BIT⟩,
        ⟨2, VK_DESCRIPTOR_TYPE_COMBINED_IMAGE_SAMPLER, 1, VK_SHADER_STAGE_FRAGMENT_BIT⟩,
        ⟨3, VK_DESCRIPTOR_TYPE_STORAGE_IMAGE, 1, VK_SHADER_STAGE_FRAGMENT_BIT⟩]] := by
  refine ⟨by decide, by decide, by decide, by decide, by decide, by decide, by decide, by decide⟩

end ShaderObject

namespace Shader

/-! ### Data types of reflected members -/

/-- C30 (the code at the failing input): `SpvToSaturn` maps Boolean to Bool, Int
to Int, SampledImage to Sampler2D and the base types it does not name to None,
but a `mat4` (float, vecsize 4, columns 4) is mapped to Int4, a `mat3` to Int3
and a scalar float to Int: the tests of `vecsize` come first and return, so the
tests of `columns` are reached by no matrix. -/
theorem C30_float_matrix_is_mapped_by_vecsize :
    (∀ v c a, SpvToSaturn ⟨BaseType.Boolean, v, c, a⟩ = ShaderDataType.Bool) ∧
    (∀ v c a, SpvToSaturn ⟨BaseType.Int, v, c, a⟩ = ShaderDataType.Int) ∧
    (∀ v c a, SpvToSaturn ⟨BaseType.SampledImage, v, c, a⟩ = ShaderDataType.Sampler2D) ∧
    (∀ v c a, SpvToSaturn ⟨BaseType.UInt, v, c, a⟩ = ShaderDataType.None ∧
      SpvToSaturn ⟨BaseType.Double, v, c, a⟩ = ShaderDataType.None ∧
      SpvToSaturn ⟨BaseType.Struct, v, c, a⟩ = ShaderDataType.None ∧
      SpvToSaturn ⟨BaseType.Image, v, c, a⟩ = ShaderDataType.None) ∧
    SpvToSaturn mat4Type = ShaderDataType.Int4 ∧
    SpvToSaturn mat3Type = ShaderDataType.Int3 ∧
    SpvToSaturn floatType = ShaderDataType.Int ∧
    (∀ c a, SpvToSaturn ⟨BaseType.Float, 4, c, a⟩ = ShaderDataType.Int4) := by
  refine ⟨fun _ _ _ => rfl, fun _ _ _ => rfl, fun _ _ _ => rfl,
    fun _ _ _ => ⟨rfl, rfl, rfl, rfl⟩, by decide, by decide, by decide, fun _ _ => rfl⟩

/-! ### Offsets of push-constant members -/

/-- C25 (the code at the failing input): a vertex stage with a 64-byte
push-constant block followed by a fragment stage with a 16-byte block, the
member of each declared at offset 0.  The second range starts at 64 and has
size 16; the offset stored for its member is `0 - 64` in 32-bit arithmetic,
4294967232, which is not less than 16. -/
theorem C25_second_block_member_offset_wraps :
    (reflectStages [(ShaderType.Vertex, pushOnlyStage 64),
        (ShaderType.Fragment, pushOnlyStage 16)] {}).m_PushConstantRanges =
      [⟨VK_SHADER_STAGE_VERTEX_BIT, 0, 64⟩, ⟨VK_SHADER_STAGE_FRAGMENT_BIT, 64, 16⟩] ∧
    (reflectStages [(ShaderType.Vertex, pushOnlyStage 64),
        (ShaderType.Fragment, pushOnlyStage 16)] {}).m_Uniforms.map
        (fun u => (u.Name, u.Offset)) =
      [("u_Params.a", 0), ("u_Params.a", 4294967232)] ∧
    ¬ (4294967232 < 16) := by
  refine ⟨by decide, by decide, by decide⟩

end Shader

namespace Shader

/-! ### The push-constant flag of uniform-list entries -/

theorem foldl_uniforms_extend {α : Type} (f : Shader → α → Shader)
    (Q : α → ShaderUniform → Prop)
    (hf : ∀ s x, ∃ E, (f s x).m_Uniforms = s.m_Uniforms ++ E ∧ ∀ u ∈ E, Q x u)
    (l : List α) (sh : Shader) :
    ∃ E, (l.foldl f sh).m_Uniforms = sh.m_Uniforms ++ E ∧ ∀ u ∈ E, ∃ x ∈ l, Q x u := by
  induction l generalizing sh with
  | nil => exact ⟨[], by simp, by simp⟩
  | cons a rest ih =>
    obtain ⟨E1, h1, q1⟩ := hf sh a
    obtain ⟨E2, h2, q2⟩ := ih (f sh a)
    refine ⟨E1 ++ E2, ?_, ?_⟩
    · rw [List.foldl_cons, h2, h1, List.append_assoc]
    · intro u hu
      rcases List.mem_append.1 hu with hu | hu
      · exact ⟨a, List.mem_cons_self _ _, q1 u hu⟩
      · obtain ⟨x, hx, hq⟩ := q2 u hu
        exact ⟨x, List.mem_cons_of_mem _ hx, hq⟩

theorem reflectStorageBuffer_uniforms (t : ShaderType) (sh : Shader) (sb : BufferResource) :
    ∃ E, (reflectStorageBuffer t sh sb).m_Uniforms = sh.m_Uniforms ++ E ∧
      ∀ u ∈ E, u ∈ bufferMembers sb := by
  unfold reflectStorageBuffer
  simp only
  split
  · exact ⟨[], by simp [ensureSet_m_Uniforms], by simp⟩
  · exact ⟨bufferMembers sb, by simp [ensureSet_m_Uniforms], fun u hu => hu⟩

theorem reflectUniformBuffer_uniforms (t : ShaderType) (sh : Shader) (ub : BufferResource) :
    ∃ E, (reflectUniformBuffer t sh ub).m_Uniforms = sh.m_Uniforms ++ E ∧
      ∀ u ∈ E, u ∈ bufferMembers ub := by
  unfold reflectUniformBuffer
  simp only
  split
  · exact ⟨[], by simp [ensureSet_m_Uniforms], by simp⟩
  · exact ⟨bufferMembers ub, by simp [ensureSet_m_Uniforms], fun u hu => hu⟩

theorem pushConstantLoop_uniforms (t : ShaderType) (l : List BufferResource) (sh : Shader) :
    ∃ E, (l.foldl (reflectPushConstant t) sh).m_Uniforms = sh.m_Uniforms ++ E ∧
      (∀ u ∈ E, ∃ pc ∈ l, ∃ off, u ∈ pushConstantMembers t off pc) ∧
      (∀ pc ∈ l, ∃ off, ∀ u ∈ pushConstantMembers t off pc, u ∈ E) := by
  induction l generalizing sh with
  | nil => exact ⟨[], by simp, by simp, by simp⟩
  | cons a rest ih =>
    obtain ⟨E2, h2, q2, c2⟩ := ih (reflectPushConstant t sh a)
    refine ⟨pushConstantMembers t (nextPushConstantOffset sh.m_PushConstantRanges) a ++ E2,
      ?_, ?_, ?_⟩
    · rw [List.foldl_cons, h2]
      simp [reflectPushConstant]
    · intro u hu
      rcases List.mem_append.1 hu with hu | hu
      · exact ⟨a, List.mem_cons_self _ _, _, hu⟩
      · obtain ⟨x, hx, hq⟩ := q2 u hu
        exact ⟨x, List.mem_cons_of_mem _ hx, hq⟩
    · intro pc hpc
      rcases List.mem_cons.1 hpc with hpc | hpc
      · subst hpc
        exact ⟨_, fun u hu => List.mem_append_left _ hu⟩
      · obtain ⟨off, hoff⟩ := c2 pc hpc
        exact ⟨off, fun u hu => List.mem_append_right _ (hoff u hu)⟩

theorem imageLoops_uniforms (t : ShaderType) (res : ShaderResources) (sh : Shader) :
    (res.storage_images.foldl (reflectStorageImage t)
      (res.sampled_images.foldl (reflectSampledImage t) sh)).m_Uniforms = sh.m_Uniforms := by
  have h1 : ∀ (l : List ImageResource) (s : Shader),
      (l.foldl (reflectSampledImage t) s).m_Uniforms = s.m_Uniforms := by
    intro l
    induction l with
    | nil => intro s; rfl
    | cons a rest ih => intro s; rw [List.foldl_cons, ih]; rfl
  have h2 : ∀ (l : List ImageResource) (s : Shader),
      (l.foldl (reflectStorageImage t) s).m_Uniforms = s.m_Uniforms := by
    intro l
    induction l with
    | nil => intro s; rfl
    | cons a rest ih => intro s; rw [List.foldl_cons, ih]; rfl
  rw [h2, h1]

theorem bufferMembers_flag (b : BufferResource) (u : ShaderUniform) (hu : u ∈ bufferMembers b) :
    u.IsPushConstantData = false := by
  unfold bufferMembers at hu
  obtain ⟨m, _, hm⟩ := List.mem_map.1 hu
  rw [← hm]

theorem pushConstantMembers_flag (t : ShaderType) (off : Nat) (pc : BufferResource)
    (u : ShaderUniform) (hu : u ∈ pushConstantMembers t off pc) :
    u.IsPushConstantData = decide (t = ShaderType.Fragment) := by
  unfold pushConstantMembers at hu
  obtain ⟨m, _, hm⟩ := List.mem_map.1 hu
  rw [← hm]

theorem Reflect_uniforms (t : ShaderType) (res : ShaderResources) (sh : Shader) :
    ∃ E, (Reflect t res sh).m_Uniforms = sh.m_Uniforms ++ E ∧
      (∀ u ∈ E,
        (∃ b, (b ∈ res.storage_buffers ∨ b ∈ res.uniform_buffers) ∧ u ∈ bufferMembers b) ∨
        (∃ pc ∈ res.push_constant_buffers, ∃ off, u ∈ pushConstantMembers t off pc)) ∧
      (∀ pc ∈ res.push_constant_buffers, ∃ off,
        ∀ u ∈ pushConstantMembers t off pc, u ∈ E) := by
  obtain ⟨E1, h1, q1⟩ := foldl_uniforms_extend (reflectStorageBuffer t)
    (fun b u => u ∈ bufferMembers b) (reflectStorageBuffer_uniforms t)
    (sortResources res.storage_buffers) sh
  obtain ⟨E2, h2, q2⟩ := foldl_uniforms_extend (reflectUniformBuffer t)
    (fun b u => u ∈ bufferMembers b) (reflectUniformBuffer_uniforms t)
    (sortResources res.uniform_buffers)
    ((sortResources res.storage_buffers).foldl (reflectStorageBuffer t) sh)
  obtain ⟨E3, h3, q3, c3⟩ := pushConstantLoop_uniforms t res.push_constant_buffers
    ((sortResources res.uniform_buffers).foldl (reflectUniformBuffer t)
      ((sortResources res.storage_buffers).foldl (reflectStorageBuffer t) sh))
  refine ⟨E1 ++ E2 ++ E3, ?_, ?_, ?_⟩
  · unfold Reflect
    simp only
    rw [imageLoops_uniforms, h3, h2, h1]
    simp [List.append_assoc]
  · intro u hu
    rcases List.mem_append.1 hu with hu | hu
    · rcases List.mem_append.1 hu with hu | hu
      · obtain ⟨b, hb, hq⟩ := q1 u hu
        exact Or.inl ⟨b, Or.inl (mem_sortResources.1 hb), hq⟩
      · obtain ⟨b, hb, hq⟩ := q2 u hu
        exact Or.inl ⟨b, Or.inr (mem_sortResources.1 hb), hq⟩
    · exact Or.inr (q3 u hu)
  · intro pc hpc
    obtain ⟨off, hoff⟩ := c3 pc hpc
    exact ⟨off, fun u hu => List.mem_append_right _ (hoff u hu)⟩

/-- C22 (as stated, refuted): the member of a push-constant block of the vertex
stage is entered in the uniform list without the push-constant flag. -/
theorem C22_vertex_push_constant_is_not_flagged :
    (Reflect ShaderType.Vertex (pushOnlyStage 64) {}).m_Uniforms.map
        (fun u => (u.Name, u.IsPushConstantData)) = [("u_Params.a", false)] ∧
    (Reflect ShaderType.Fragment (pushOnlyStage 64) {}).m_Uniforms.map
        (fun u => (u.Name, u.IsPushConstantData)) = [("u_Params.a", true)] := by
  refine ⟨by decide, by decide⟩

/-- C22 (amended): the entries that `Reflect` appends to the uniform list for one
stage come from the members of the storage and uniform blocks and of the
push-constant blocks of that stage; an appended entry that carries the
push-constant flag was reflected from a push-constant block and the stage is
Fragment; every member of every push-constant block is appended, flagged
exactly when the stage is Fragment; members of uniform and storage blocks are
never flagged. -/
theorem C22_flag_marks_fragment_push_constants (t : ShaderType) (res : ShaderResources)
    (sh : Shader) :
    ∃ E, (Reflect t res sh).m_Uniforms = sh.m_Uniforms ++ E ∧
      (∀ u ∈ E, u.IsPushConstantData = true →
        t = ShaderType.Fragment ∧
        ∃ pc ∈ res.push_constant_buffers, ∃ off, u ∈ pushConstantMembers t off pc) ∧
      (∀ pc ∈ res.push_constant_buffers, ∃ off, ∀ u ∈ pushConstantMembers t off pc,
        u ∈ E ∧ u.IsPushConstantData = decide (t = ShaderType.Fragment)) ∧
      (∀ b, b ∈ res.storage_buffers ∨ b ∈ res.uniform_buffers →
        ∀ u ∈ bufferMembers b, u.IsPushConstantData = false) := by
  obtain ⟨E, hE, hq, hc⟩ := Reflect_uniforms t res sh
  refine ⟨E, hE, ?_, ?_, ?_⟩
  · intro u hu hflag
    rcases hq u hu with ⟨b, _, hb⟩ | ⟨pc, hpc, off, hmem⟩
    · rw [bufferMembers_flag b u hb] at hflag
      exact absurd hflag (by decide)
    · refine ⟨?_, pc, hpc, off, hmem⟩
      rw [pushConstantMembers_flag t off pc u hmem] at hflag
      exact of_decide_eq_true hflag
  · intro pc hpc
    obtain ⟨off, hoff⟩ := hc pc hpc
    exact ⟨off, fun u hu => ⟨hoff u hu, pushConstantMembers_flag t off pc u hu⟩⟩
  · intro b _ u hu
    exact bufferMembers_flag b u hu

/-- C22 witness: the fragment stage with one push-constant block and the uniform
block `Camera`. -/
theorem C22_flag_marks_fragment_push_constants_witness :
    ∃ E, (Reflect ShaderType.Fragment fragmentStage {}).m_Uniforms = [] ++ E ∧
      (∀ u ∈ E, u.IsPushConstantData = true →
        ShaderType.Fragment = ShaderType.Fragment ∧
        ∃ pc ∈ fragmentStage.push_constant_buffers, ∃ off,
          u ∈ pushConstantMembers ShaderType.Fragment off pc) ∧
      (∀ pc ∈ fragmentStage.push_constant_buffers, ∃ off,
        ∀ u ∈ pushConstantMembers ShaderType.Fragment off pc,
          u ∈ E ∧ u.IsPushConstantData = decide (ShaderType.Fragment = ShaderType.Fragment)) ∧
      (∀ b, b ∈ fragmentStage.storage_buffers ∨ b ∈ fragmentStage.uniform_buffers →
        ∀ u ∈ bufferMembers b, u.IsPushConstantData = false) :=
  C22_flag_marks_fragment_push_constants ShaderType.Fragment fragmentStage {}

end Shader

/-! ### Hash of draw-list keys -/

/-- C23: two keys that compare equal (with either `operator==`) and whose registry
is not null have the same hash, and the hash is computed without dereferencing
a null reference; equal keys therefore select the same entries of every map
keyed by `StaticMeshKey`. -/
theorem C23_equal_keys_have_equal_hash (GetID : Nat → Nat) (a b : StaticMeshKey)
    (heq : a.eqConst b = true) (hreg : a.Registry ≠ none) :
    a.eq b = true ∧
    StaticMeshKey.hash GetID a = StaticMeshKey.hash GetID b ∧
    (StaticMeshKey.hash GetID a).isSome = true ∧ (StaticMeshKey.hash GetID b).isSome = true ∧
    (∀ m : KeyMap TransformBuffer, KeyMap.entriesAt m a = KeyMap.entriesAt m b) ∧
    (∀ m : KeyMap DrawCommand, KeyMap.entriesAt m a = KeyMap.entriesAt m b) := by
  have hab : a = b := (StaticMeshKey.eqConst_iff a b).1 heq
  subst hab
  have hsome : (StaticMeshKey.hash GetID a).isSome = true := by
    unfold StaticMeshKey.hash
    cases hr : a.Registry with
    | none => exact absurd hr hreg
    | some r => rfl
  exact ⟨heq, rfl, hsome, hsome, fun _ => rfl, fun _ => rfl⟩

/-- C23 witness: the key (7, registry at address 3, submesh 1) built twice, with
registry ids `address + 100`. -/
theorem C23_equal_keys_have_equal_hash_witness :
    StaticMeshKey.hash (fun r => r + 100) SceneRenderer.sampleKey =
      StaticMeshKey.hash (fun r => r + 100) ⟨7, some 3, 1⟩ ∧
    StaticMeshKey.hash (fun r => r + 100) SceneRenderer.sampleKey = some 97 :=
  ⟨(C23_equal_keys_have_equal_hash (fun r => r + 100) SceneRenderer.sampleKey ⟨7, some 3, 1⟩
      (by decide) (by decide)).2.1, by decide⟩

namespace RenderThread

/-! ### The execute-one branch is reached with a non-empty buffer -/

/-- C24: when a pass of `ThreadRun` gets past both waits and the running check
with the execute-one flag set, and no other thread touches the object during the
pass, the command buffer is not empty: `back()` returns its last element, the
branch is defined, and the pass does not end in undefined behaviour. -/
theorem C24_execute_one_branch_has_a_command (rt : RenderThread)
    (hsignal : signalPredicate rt = true) (hqueue : queuePredicate rt = true)
    (hrunning : rt.m_Running = true) (hone : rt.m_ExecuteOne = true) :
    rt.m_CommandBuffer ≠ [] ∧
    (∃ rFunc, rt.m_CommandBuffer.getLast? = some rFunc ∧
      executeOneBranch rt = some
        { rt with invoked := rt.invoked ++ [(ThreadId.worker, rFunc)]
                  m_CommandBuffer := rt.m_CommandBuffer.dropLast
                  m_ExecuteOne := false }) ∧
    ThreadRunIteration rt ≠ LoopStep.undefined := by
  have hne : rt.m_CommandBuffer ≠ [] := by
    intro hnil
    unfold queuePredicate at hqueue
    rw [hrunning, hnil] at hqueue
    exact absurd hqueue (by decide)
  obtain ⟨rFunc, hlast⟩ : ∃ rFunc, rt.m_CommandBuffer.getLast? = some rFunc := by
    cases h : rt.m_CommandBuffer.getLast? with
    | none => exact absurd (List.getLast?_eq_none_iff.1 h) hne
    | some c => exact ⟨c, rfl⟩
  have hbranch : executeOneBranch rt = some
      { rt with invoked := rt.invoked ++ [(ThreadId.worker, rFunc)]
                m_CommandBuffer := rt.m_CommandBuffer.dropLast
                m_ExecuteOne := false } := by
    unfold executeOneBranch
    rw [hone, hlast]
    rfl
  refine ⟨hne, ⟨rFunc, hlast, hbranch⟩, ?_⟩
  unfold ThreadRunIteration
  rw [hsignal, hqueue, hrunning, hbranch]
  simp

/-- C24 witness: a running thread with two queued closures and both mode flags
set. -/
theorem C24_execute_one_branch_has_a_command_witness :
    bothFlagsInput.m_CommandBuffer ≠ [] ∧
    ThreadRunIteration bothFlagsInput ≠ LoopStep.undefined :=
  ⟨(C24_execute_one_branch_has_a_command bothFlagsInput (by decide) (by decide) (by decide)
      (by decide)).1,
   (C24_execute_one_branch_has_a_command bothFlagsInput (by decide) (by decide) (by decide)
      (by decide)).2.2⟩

end RenderThread

namespace Scene

/-! ### Static meshes at runtime -/

theorem foldlM_runtimeStaticMesh (scene : SceneView) (l : List (Nat × StaticMeshComponent))
    (calls : List Submission)
    (h : ∀ e ∈ l, e.2.Mesh ≠ none ∧ e.2.MaterialRegistry ≠ none) :
    l.foldlM (runtimeStaticMesh scene) calls = some (l.foldl (editorStaticMesh scene) calls) := by
  induction l generalizing calls with
  | nil => rfl
  | cons e rest ih =>
    obtain ⟨hm, hr⟩ := h e (List.mem_cons_self _ _)
    have hstep : runtimeStaticMesh scene calls e = some (editorStaticMesh scene calls e) := by
      obtain ⟨entity, c⟩ := e
      cases hmesh : c.Mesh with
      | none => exact absurd hmesh hm
      | some mesh =>
        cases hreg : c.MaterialRegistry with
        | none => exact absurd hreg hr
        | some registry => simp [runtimeStaticMesh, editorStaticMesh, hmesh, hreg]
    rw [List.foldlM_cons, hstep, List.foldl_cons]
    exact ih _ (fun x hx => h x (List.mem_cons_of_mem _ hx))

/-- C26 (the code at the failing input): for an entity with a mesh and a null
override registry `OnRenderEditor` submits the mesh with the registry of the
mesh, while `OnRenderRuntime` dereferences the null registry; for an entity with
a null mesh `OnRenderEditor` submits nothing, while `OnRenderRuntime`
dereferences the null mesh.  With both references present the two loops make
the same calls. -/
theorem C26_runtime_dereferences_null_references :
    OnRenderEditorStaticMeshes noRegistryView =
      [{ entity := some 1, mesh := ⟨11, 7, 2⟩, materialRegistry := some 111,
         transform := ⟨⟨0, 0, 0, 0⟩, ⟨0, 0, 0, 0⟩, ⟨0, 0, 0, 0⟩, ⟨0, 0, 0, 0⟩⟩ }] ∧
    OnRenderRuntimeStaticMeshes noRegistryView = none ∧
    OnRenderEditorStaticMeshes noMeshView = [] ∧
    OnRenderRuntimeStaticMeshes noMeshView = none ∧
    OnRenderRuntimeStaticMeshes fullView = some (OnRenderEditorStaticMeshes fullView) := by
  refine ⟨by decide, by decide, by decide, by decide, by decide⟩

/-! ### Transform along the parent chain -/

/-- C27: for an entity with a parent chain (root first, ending in the entity) the
call returns, at a recursion depth of the length of the chain, the product of
`glm::mat4( 1.0f )` and the local transforms along the chain, root first, nested
from the left as the code forms it: `((1 * T(root)) * ...) * T(e)`; for an
entity whose parent id is found in no entity of the scene it returns
`1 * T(e)`.  The product and the identity matrix of `glm` are parameters. -/
theorem C27_transform_is_product_along_parent_chain (mul : Mat4 → Mat4 → Mat4) (one : Mat4)
    (scene : Scene) (e : Entity) (chain : List Entity)
    (hchain : ParentChain scene e chain) :
    (∀ fuel, chain.length ≤ fuel →
      GetTransformRelativeToParent mul one scene fuel e =
        some ((chain.map (fun x => x.Transform)).foldl mul one)) ∧
    (FindEntityByID scene e.Parent = none →
      ∀ fuel, GetTransformRelativeToParent mul one scene (fuel + 1) e =
        some (mul one e.Transform)) := by
  refine ⟨?_, ?_⟩
  · induction hchain with
    | root e h =>
      intro fuel hfuel
      obtain ⟨f, rfl⟩ : ∃ f, fuel = f + 1 := ⟨fuel - 1, by simp at hfuel; omega⟩
      simp [GetTransformRelativeToParent, h]
    | child e p chain h _ ih =>
      intro fuel hfuel
      obtain ⟨f, rfl⟩ : ∃ f, fuel = f + 1 := ⟨fuel - 1, by simp at hfuel; omega⟩
      have hf : chain.length ≤ f := by simp at hfuel; omega
      simp [GetTransformRelativeToParent, h, ih f hf, List.foldl_append]
  · intro hnone fuel
    simp [GetTransformRelativeToParent, hnone]

/-- C27 witness: in `movedScene` the grandchild has the chain root, child,
grandchild, and its transform relative to the root is the identity times the
three moves, multiplied from the left. -/
theorem C27_transform_is_product_along_parent_chain_witness :
    GetTransformRelativeToParent Mat4.mulExact Mat4.oneExact movedScene 3 movedGrandchild =
      some (Mat4.mulExact (Mat4.mulExact (Mat4.mulExact Mat4.oneExact
        (Mat4.translateExact 1 0 0)) (Mat4.translateExact 0 2 0))
        (Mat4.translateExact 0 0 3)) :=
  (C27_transform_is_product_along_parent_chain Mat4.mulExact Mat4.oneExact movedScene
    movedGrandchild ([movedRoot, movedChild] ++ [movedGrandchild])
    (ParentChain.child movedGrandchild movedChild ([movedRoot] ++ [movedChild]) (by decide)
      (ParentChain.child movedChild movedRoot [movedRoot] (by decide)
        (ParentChain.root movedRoot (by decide))))).1 3 (by decide)

end Scene

namespace Scene

/-! ### Duplicating and deleting entities -/

/-- C28 (the code at the failing input): the duplicate of the entity with two
children (ids 11 and 12) and no parent gets four child ids: the two
value-initialised ids that `resize( 2 )` puts first, 101 and 102, which are the
ids of no entity, followed by the ids 103 and 104 of the duplicates of the two
children.  One duplicate is created for the entity and one for each child. -/
theorem C28_duplicate_has_twice_the_children :
    (DuplicateEntity 2 twoChildrenScene 0 none).map
        (fun r => (r.1, r.2.m_EntityIDMap.map
          (fun e => (e.handle, e.ID, e.Parent, e.ChildrenID)))) =
      some (3, [(0, 10, 0, [11, 12]), (1, 11, 10, []), (2, 12, 10, []),
                (3, 100, 0, [101, 102, 103, 104]), (4, 103, 100, []), (5, 104, 100, [])]) := by
  decide

/-- C29 (the code at the failing input): after `DeleteEntity` on the entity with
id 10, whose child 11 has the child 12, the entities 10 and 11 are gone and the
unrelated entity 13 is still in the map, but so is the grandchild 12. -/
theorem C29_delete_leaves_grandchildren :
    (DeleteEntity familyScene 0).map (fun s => s.m_EntityIDMap.map (fun e => (e.ID, e.Parent))) =
      some [(12, 11), (13, 0)] := by
  decide

end Scene

end Saturn
